import Mathlib

/-!
# B-em video subsystem (`src/video.c`): 6845 CRTC, Video ULA / NULA, SAA5050

A shallow embedding of the register-level entry points of `video.c`.

Conventions of the embedding.

* The C globals of `video.c` are the fields of one record, `Video`; every C
  function that mutates globals is a function `Video → Video` with the C
  arguments in front.
* C arrays are functions `Nat → Nat`; an assignment `a[i] = v` is `setAt a i v`.
* `uint8_t` parameters are reduced `% 256` where the C function receives them.
  The 32-bit words of `nula_collook` and `ula_pal` (C `int` holding `0xAARRGGBB`)
  are kept as their unsigned bit pattern, a natural number below `2 ^ 32`.
* A C truth value is a natural number, false exactly when it is `0`.
-/

namespace BEm

/-- Modelled from the spec: `enum vid_disptype` is declared in `video_render.h`, which is not
among the sources. The spec lists the display treatments progressive, interlaced and
line-doubled; the constructors carry the names `video.c` uses for them. -/
inductive vid_disptype where
  | VDT_SCALE
  | VDT_INTERLACE
  | VDT_LINEDOUBLE
  deriving DecidableEq, Repr

/-- The glyph arrays that the pointers `mode7_p[]`, `mode7_px[]` and `mode7_heldp[]` can point
to; `null` is the value of the zero-initialised `mode7_heldp[]` before the first assignment. -/
inductive Mode7Table where
  | null
  | mode7_chars
  | mode7_charsi
  | mode7_graph
  | mode7_graphi
  | mode7_sepgraph
  | mode7_sepgraphi
  deriving DecidableEq, Repr

/-- Calls that `video.c` makes into other modules, recorded in the order they are made:
`video_doblit(mode, vtotal)` of the renderer and `sysvia_set_ca1(level)` of the system VIA. -/
inductive ExtCall where
  | video_doblit (mode vtotal : Nat)
  | sysvia_set_ca1 (level : Nat)
  deriving DecidableEq, Repr

/-- The locked pixel buffer `region`, as a map from the coordinates `x`, `y` to the 32-bit
colour stored there. Coordinates are never negative in `video.c`; the memory layout of the
buffer (pitch, pixel size) is not modelled. -/
abbrev Region := Nat → Nat → Nat

/-- Array assignment `a[i] = v`. -/
def setAt (a : Nat → Nat) (i v : Nat) : Nat → Nat :=
  fun k => if k = i then v else a k

/-- CRTC registers and the values derived from register writes. `video_poll` reads them
only. -/
structure CrtcRegs where
  /-- The value of `(MASTER|BPLUS)`, macros of `model.h` (not among the sources), taken as a
  parameter: the machine is a Master or a B+. -/
  master_bplus : Bool
  crtc : Nat → Nat
  crtc_i : Nat
  ttxbank : Nat
  crtc_mode : Nat
  vid_dtype_user : vid_disptype
  vid_dtype_intern : vid_disptype

/-- CRTC counters; `video_poll` changes them in the test on `hc` at the end of the loop
body. -/
structure CrtcCounters where
  hc : Nat
  vc : Nat
  sc : Nat
  vadj : Nat

/-- Field and sync state; `video_poll` changes it at the end of the loop body only. -/
structure FieldState where
  interline : Nat
  interlline : Nat
  frameodd : Nat
  vsynctime : Nat
  oldr8 : Nat
  ccount : Nat
  vid_cleared : Nat

/-- Video ULA registers, the active colour map and the data set up by `video_init`.
`video_poll` reads them only. -/
structure UlaState where
  ula_ctrl : Nat
  ula_pal : Nat → Nat
  ula_palbak : Nat → Nat
  ula_mode : Nat
  table4bpp : Nat → Nat → Nat → Nat
  colblack : Nat
  colwhite : Nat

/-- NULA palette, protocol and feature state. -/
structure NulaState where
  nula_collook : Nat → Nat
  nula_pal_write_flag : Nat
  nula_pal_first_byte : Nat
  nula_flash : Nat → Nat
  nula_palette_mode : Nat
  nula_horizontal_offset : Nat
  nula_left_blank : Nat
  nula_disable : Nat
  nula_attribute_mode : Nat
  nula_attribute_text : Nat
  nula_left_cut : Nat
  nula_left_edge : Nat

/-- The teletext state that `mode7_render` can change. -/
structure Mode7Cells where
  mode7_need_new_lookup : Nat
  mode7_lookup : Nat → Nat → Nat → Nat
  mode7_col : Nat
  mode7_bg : Nat
  mode7_sep : Nat
  mode7_dbl : Nat
  mode7_wasdbl : Nat
  mode7_gfx : Nat
  mode7_flash : Nat
  mode7_buf : Nat → Nat
  /-- The pointers `mode7_p[0]` and `mode7_p[1]`. -/
  mode7_p0 : Mode7Table
  mode7_p1 : Mode7Table
  mode7_heldchar : Nat
  mode7_holdchar : Nat
  /-- The pointers `mode7_heldp[0]` and `mode7_heldp[1]`. -/
  mode7_heldp0 : Mode7Table
  mode7_heldp1 : Mode7Table

/-- The teletext state that only `video_poll` changes, and the glyph data. -/
structure Mode7Rows where
  mode7_nextdbl : Nat
  mode7_flashon : Nat
  mode7_flashtime : Nat
  /-- The contents of the six glyph arrays built by `mode7_makechars` from the character ROM
  image (not among the sources), taken as a parameter. An offset is a C `int`. -/
  mode7_glyphs : Mode7Table → Int → Nat

/-- Raster position and clock state of the scanout driver. -/
structure ScanState where
  scrx : Nat
  scry : Nat
  hvblcount : Nat
  vidclocks : Nat
  oddclock : Nat

/-- Memory address, display enables, cursor state and the remaining statics of the scanout
driver. -/
structure FetchState where
  ma : Nat
  maback : Nat
  vdispen : Nat
  dispen : Nat
  vidbytes : Nat
  charsleft : Nat
  con : Nat
  cdraw : Nat
  coff : Nat
  cursoron : Nat
  frcount : Nat
  lasthc0 : Nat
  lasthc : Nat
  firstdispen : Nat
  vidbank : Nat

/-- The globals of `video.c`, in groups. The bounding box `firstx`, `firsty`, `lastx`, `lasty`,
which `video.c` only widens and the renderer consumes and resets in `video_doblit`, is left
out. -/
structure Video extends CrtcRegs, CrtcCounters, FieldState, UlaState, NulaState, Mode7Cells,
    Mode7Rows, ScanState, FetchState where
  /-- The extern `scrsize` (screen-size selector set by the system VIA), a parameter. -/
  scrsize : Nat
  /-- The extern `ram`, the memory image read by the fetch. -/
  ram : Nat → Nat
  /-- The externs `motor` and `fasttape` of the tape module. -/
  motor : Nat
  fasttape : Nat
  region : Region
  /-- The calls made into other modules so far, oldest first. -/
  calls : List ExtCall

/-- The globals of the C program before any call: zero, except for the static initialisers
`mode7_col = 7` and `mode7_p = { mode7_chars, mode7_charsi }` (`vid_dtype_user`, the machine
model, the memory image and the glyph arrays are set by other modules). -/
def power_on : Video :=
  { master_bplus := false
    crtc := fun _ => 0
    crtc_i := 0
    hc := 0
    vc := 0
    sc := 0
    vadj := 0
    ma := 0
    ttxbank := 0
    maback := 0
    vdispen := 0
    dispen := 0
    crtc_mode := 0
    vid_dtype_user := vid_disptype.VDT_SCALE
    vid_dtype_intern := vid_disptype.VDT_SCALE
    ula_ctrl := 0
    ula_pal := fun _ => 0
    ula_palbak := fun _ => 0
    ula_mode := 0
    nula_collook := fun _ => 0
    nula_pal_write_flag := 0
    nula_pal_first_byte := 0
    nula_flash := fun _ => 0
    nula_palette_mode := 0
    nula_horizontal_offset := 0
    nula_left_blank := 0
    nula_disable := 0
    nula_attribute_mode := 0
    nula_attribute_text := 0
    mode7_need_new_lookup := 0
    mode7_flashon := 0
    mode7_flashtime := 0
    scrx := 0
    scry := 0
    interlline := 0
    colblack := 0
    colwhite := 0
    nula_left_cut := 0
    nula_left_edge := 0
    table4bpp := fun _ _ _ => 0
    mode7_glyphs := fun _ _ => 0
    mode7_lookup := fun _ _ _ => 0
    mode7_col := 7
    mode7_bg := 0
    mode7_sep := 0
    mode7_dbl := 0
    mode7_nextdbl := 0
    mode7_wasdbl := 0
    mode7_gfx := 0
    mode7_flash := 0
    mode7_buf := fun _ => 0
    mode7_p0 := Mode7Table.mode7_chars
    mode7_p1 := Mode7Table.mode7_charsi
    mode7_heldchar := 0
    mode7_holdchar := 0
    mode7_heldp0 := Mode7Table.null
    mode7_heldp1 := Mode7Table.null
    vidbank := 0
    vsynctime := 0
    interline := 0
    hvblcount := 0
    frameodd := 0
    con := 0
    cdraw := 0
    coff := 0
    cursoron := 0
    frcount := 0
    charsleft := 0
    vidclocks := 0
    oddclock := 0
    vidbytes := 0
    oldr8 := 0
    lasthc0 := 0
    lasthc := 0
    ccount := 0
    vid_cleared := 0
    firstdispen := 0
    scrsize := 0
    ram := fun _ => 0
    motor := 0
    fasttape := 0
    region := fun _ _ => 0
    calls := [] }

/-! ## 6845 CRTC -/

/-- The initialiser of `crtc_mask[32]`: 18 entries, the remaining 14 are zero. -/
def crtc_mask_init : List Nat :=
  [0xFF, 0xFF, 0xFF, 0xFF, 0x7F, 0x1F, 0x7F, 0x7F, 0xF3, 0x1F, 0x7F, 0x1F, 0x3F, 0xFF, 0x3F, 0xFF,
   0x3F, 0xFF]

/-- The table `crtc_mask[reg]`. -/
def crtc_mask (reg : Nat) : Nat :=
  crtc_mask_init.getD reg 0

/-- `crtc_reset`. -/
def crtc_reset (s : Video) : Video :=
  { s with hc := 0, vc := 0, sc := 0, vadj := 0, crtc := setAt s.crtc 9 10 }

/-- `set_intern_dtype`. -/
def set_intern_dtype (dtype : vid_disptype) (s : Video) : Video :=
  let dtype :=
    if s.crtc_mode = 0 ∧ s.crtc 8 &&& 1 ≠ 0 then vid_disptype.VDT_INTERLACE
    else if dtype = vid_disptype.VDT_INTERLACE ∧ s.crtc 8 &&& 1 = 0 then vid_disptype.VDT_SCALE
    else dtype
  { s with vid_dtype_intern := dtype }

/-- `crtc_setreg`. -/
def crtc_setreg (reg val : Nat) (s : Video) : Video :=
  let val := val &&& crtc_mask reg
  let s := { s with crtc := setAt s.crtc reg val }
  if s.crtc_i = 6 ∧ s.vc = val then { s with vdispen := 0 }
  else if reg = 8 then set_intern_dtype s.vid_dtype_user s
  else if reg = 12 then
    { s with ttxbank := if s.master_bplus then 0x7c00 else 0x3C00 ||| ((val &&& 0x8) <<< 11) }
  else s

/-- `crtc_write`. -/
def crtc_write (addr val : Nat) (s : Video) : Video :=
  let val := val % 256
  if addr &&& 1 = 0 then { s with crtc_i := val &&& 31 }
  else crtc_setreg s.crtc_i val s

/-- `crtc_read`; the result is a `uint8_t`. -/
def crtc_read (addr : Nat) (s : Video) : Nat :=
  if addr &&& 1 = 0 then s.crtc_i % 256
  else s.crtc s.crtc_i % 256

/-- `crtc_latchpen`. -/
def crtc_latchpen (s : Video) : Video :=
  let s := { s with crtc := setAt s.crtc 0x10 ((s.ma >>> 8) &&& 0x3F) }
  { s with crtc := setAt s.crtc 0x11 (s.ma &&& 0xFF) }

/-- `crtc_loadstate`; `bytes` is the 25-byte buffer filled by `fread`. -/
def crtc_loadstate (bytes : Nat → Nat) (s : Video) : Video :=
  let byte := fun i => bytes i % 256
  let s := { s with vc := byte 18 }
  let s := { s with sc := byte 19 }
  let s := { s with hc := byte 20 }
  let s := { s with ma := (byte 21 ||| (byte 22 <<< 8)) % 65536 }
  let s := { s with maback := (byte 23 ||| (byte 24 <<< 8)) % 65536 }
  (List.range 18).foldl (fun s c => crtc_setreg c (byte c) s) s

/-! ## Video ULA and NULA -/

/-- `makecol`; the result is a `uint32_t`. -/
def makecol (red green blue : Nat) : Nat :=
  (0xff000000 ||| (red <<< 16) ||| (green <<< 8) ||| blue) % 2 ^ 32

/-- `nula_default_palette`. -/
def nula_default_palette (s : Video) : Video :=
  let s := { s with nula_collook := setAt s.nula_collook 0 0xff000000 }
  let s := { s with nula_collook := setAt s.nula_collook 1 0xffff0000 }
  let s := { s with nula_collook := setAt s.nula_collook 2 0xff00ff00 }
  let s := { s with nula_collook := setAt s.nula_collook 3 0xffffff00 }
  let s := { s with nula_collook := setAt s.nula_collook 4 0xff0000ff }
  let s := { s with nula_collook := setAt s.nula_collook 5 0xffff00ff }
  let s := { s with nula_collook := setAt s.nula_collook 6 0xff00ffff }
  let s := { s with nula_collook := setAt s.nula_collook 7 0xffffffff }
  let s := { s with nula_collook := setAt s.nula_collook 8 0xff000000 }
  let s := { s with nula_collook := setAt s.nula_collook 9 0xffff0000 }
  let s := { s with nula_collook := setAt s.nula_collook 10 0xff00ff00 }
  let s := { s with nula_collook := setAt s.nula_collook 11 0xffffff00 }
  let s := { s with nula_collook := setAt s.nula_collook 12 0xff0000ff }
  let s := { s with nula_collook := setAt s.nula_collook 13 0xffff00ff }
  let s := { s with nula_collook := setAt s.nula_collook 14 0xff00ffff }
  let s := { s with nula_collook := setAt s.nula_collook 15 0xffffffff }
  { s with mode7_need_new_lookup := 1 }

/-- `nula_reset`. -/
def nula_reset (s : Video) : Video :=
  let s := { s with nula_palette_mode := 0 }
  let s := { s with nula_horizontal_offset := 0 }
  let s := { s with nula_left_blank := 0 }
  let s := { s with nula_attribute_mode := 0 }
  let s := { s with nula_attribute_text := 0 }
  let s := nula_default_palette s
  (List.range 8).foldl (fun s c => { s with nula_flash := setAt s.nula_flash c 1 }) s

/-- Body of the first loop of `videoula_write` case 0 (flash bit now set). -/
def ctrl_flash_on_body (s : Video) (c : Nat) : Video :=
  if s.ula_palbak c &&& 8 ≠ 0 ∧ s.nula_flash ((s.ula_palbak c &&& 7) ^^^ 7) ≠ 0 then
    { s with ula_pal := setAt s.ula_pal c (s.nula_collook (s.ula_palbak c &&& 15)) }
  else
    { s with ula_pal := setAt s.ula_pal c (s.nula_collook ((s.ula_palbak c &&& 15) ^^^ 7)) }

/-- Body of the second loop of `videoula_write` case 0 (flash bit now clear). -/
def ctrl_flash_off_body (s : Video) (c : Nat) : Video :=
  { s with ula_pal := setAt s.ula_pal c (s.nula_collook ((s.ula_palbak c &&& 15) ^^^ 7)) }

/-- Body of the "reset all colour lookups" loop of `videoula_write` case 3. -/
def nula_commit_body (s : Video) (c : Nat) : Video :=
  let s := { s with ula_pal := setAt s.ula_pal c (s.nula_collook ((s.ula_palbak c &&& 15) ^^^ 7)) }
  if s.ula_palbak c &&& 8 ≠ 0 ∧ s.ula_ctrl &&& 1 ≠ 0
      ∧ s.nula_flash ((s.ula_palbak c &&& 7) ^^^ 7) ≠ 0 then
    { s with ula_pal := setAt s.ula_pal c (s.nula_collook (s.ula_palbak c &&& 15)) }
  else s

/-- Case 0 of `videoula_write`: the video control register. -/
def videoula_write_ctrl (val : Nat) (s : Video) : Video :=
  let s :=
    if (s.ula_ctrl ^^^ val) &&& 1 ≠ 0 then
      if val &&& 1 ≠ 0 then (List.range 16).foldl ctrl_flash_on_body s
      else (List.range 16).foldl ctrl_flash_off_body s
    else s
  let s := { s with ula_ctrl := val }
  let s := { s with ula_mode := (s.ula_ctrl >>> 2) &&& 3 }
  let s :=
    if val &&& 2 ≠ 0 then { s with crtc_mode := 0 }
    else if val &&& 0x10 ≠ 0 then { s with crtc_mode := 1 }
    else { s with crtc_mode := 2 }
  set_intern_dtype s.vid_dtype_user s

/-- Case 1 of `videoula_write`: the palette register. -/
def videoula_write_pal (val : Nat) (s : Video) : Video :=
  let code := val >>> 4
  let s := { s with ula_palbak := setAt s.ula_palbak code (val &&& 15) }
  let s := { s with ula_pal := setAt s.ula_pal code (s.nula_collook ((val &&& 15) ^^^ 7)) }
  if val &&& 8 ≠ 0 ∧ s.ula_ctrl &&& 1 ≠ 0 ∧ s.nula_flash (val &&& 7) ≠ 0 then
    { s with ula_pal := setAt s.ula_pal code (s.nula_collook (val &&& 15)) }
  else s

/-- Case 2 of `videoula_write`: the NULA control register. -/
def videoula_write_nula_ctrl (val : Nat) (s : Video) : Video :=
  let code := val >>> 4
  let param := val &&& 0xf
  match code with
  | 1 => { s with nula_palette_mode := param &&& 1 }
  | 2 => { s with nula_horizontal_offset := param &&& 7 }
  | 3 => { s with nula_left_blank := param &&& 15 }
  | 4 => nula_reset s
  | 5 => { s with nula_disable := 1 }
  | 6 => { s with nula_attribute_mode := param &&& 1 }
  | 7 => { s with nula_attribute_text := param &&& 1 }
  | 8 =>
    let s := { s with nula_flash := setAt s.nula_flash 0 (param &&& 8) }
    let s := { s with nula_flash := setAt s.nula_flash 1 (param &&& 4) }
    let s := { s with nula_flash := setAt s.nula_flash 2 (param &&& 2) }
    { s with nula_flash := setAt s.nula_flash 3 (param &&& 1) }
  | 9 =>
    let s := { s with nula_flash := setAt s.nula_flash 4 (param &&& 8) }
    let s := { s with nula_flash := setAt s.nula_flash 5 (param &&& 4) }
    let s := { s with nula_flash := setAt s.nula_flash 6 (param &&& 2) }
    { s with nula_flash := setAt s.nula_flash 7 (param &&& 1) }
  | _ => s

/-- Case 3 of `videoula_write`: the NULA palette register. -/
def videoula_write_nula_pal (val : Nat) (s : Video) : Video :=
  let s :=
    if s.nula_pal_write_flag ≠ 0 then
      let c := s.nula_pal_first_byte >>> 4
      let r := s.nula_pal_first_byte &&& 0x0f
      let g := (val &&& 0xf0) >>> 4
      let b := val &&& 0x0f
      let col := makecol (r ||| r <<< 4) (g ||| g <<< 4) (b ||| b <<< 4)
      let s := { s with nula_collook := setAt s.nula_collook c col }
      let s := if c &&& 8 ≠ 0 then { s with nula_flash := setAt s.nula_flash (c - 8) 0 } else s
      let s := (List.range 16).foldl nula_commit_body s
      { s with mode7_need_new_lookup := 1 }
    else
      { s with nula_pal_first_byte := val }
  { s with nula_pal_write_flag := if s.nula_pal_write_flag = 0 then 1 else 0 }

/-- `videoula_write`. Only bits 0 and 1 of the 16-bit `addr` are used. -/
def videoula_write (addr val : Nat) (s : Video) : Video :=
  let val := val % 256
  let addr := if s.nula_disable ≠ 0 then addr &&& 0xFFFD else addr
  match addr &&& 3 with
  | 0 => videoula_write_ctrl val s
  | 1 => videoula_write_pal val s
  | 2 => videoula_write_nula_ctrl val s
  | _ => videoula_write_nula_pal val s

/-- Colour that the flash-on loop of `videoula_write` case 0 stores in `ula_pal[c]`. -/
def flash_on_colour (s : Video) (c : Nat) : Nat :=
  if s.ula_palbak c &&& 8 ≠ 0 ∧ s.nula_flash ((s.ula_palbak c &&& 7) ^^^ 7) ≠ 0 then
    s.nula_collook (s.ula_palbak c &&& 15)
  else s.nula_collook ((s.ula_palbak c &&& 15) ^^^ 7)

/-- Colour that the flash-off loop of `videoula_write` case 0 stores in `ula_pal[c]`. -/
def flash_off_colour (s : Video) (c : Nat) : Nat :=
  s.nula_collook ((s.ula_palbak c &&& 15) ^^^ 7)

/-- Colour that the flash recomputation of `videoula_write` case 0 assigns to entry `c` when
the control value written is `ctrl`. -/
def ctrl_colour (s : Video) (ctrl c : Nat) : Nat :=
  if ctrl &&& 1 ≠ 0 then flash_on_colour s c else flash_off_colour s c

/-- Colour that the loop of `videoula_write` case 3 leaves in `ula_pal[c]`. -/
def commit_colour (s : Video) (c : Nat) : Nat :=
  if s.ula_palbak c &&& 8 ≠ 0 ∧ s.ula_ctrl &&& 1 ≠ 0
      ∧ s.nula_flash ((s.ula_palbak c &&& 7) ^^^ 7) ≠ 0 then
    s.nula_collook (s.ula_palbak c &&& 15)
  else s.nula_collook ((s.ula_palbak c &&& 15) ^^^ 7)

/-! ## Teletext flash timer -/

/-- The flash-timer update that `video_poll` performs when the vertical sync
position is reached (`mode7_flashtime++` and the conditional flip). The timer is a C `int`;
it is reset before it can reach 33 once it has been below 32, so no wrap-around is modelled. -/
def video_poll_flash (s : Video) : Video :=
  let s := { s with mode7_flashtime := s.mode7_flashtime + 1 }
  if (s.mode7_flashon ≠ 0 ∧ s.mode7_flashtime = 32) ∨ (s.mode7_flashon = 0 ∧ s.mode7_flashtime = 16)
  then
    let s := { s with mode7_flashon := if s.mode7_flashon = 0 then 1 else 0 }
    { s with mode7_flashtime := 0 }
  else s

/-- Repeat the vertical-sync flash update `n` times. -/
def video_poll_flash_n : Nat → Video → Video
  | 0, s => s
  | n + 1, s => video_poll_flash_n n (video_poll_flash s)

/-! ## Sequences of CRTC calls -/

/-- One call of the CRTC interface. -/
inductive CrtcCall where
  | reset
  | write (addr val : Nat)
  | latchpen
  | loadstate (bytes : Nat → Nat)

/-- Perform one CRTC call. -/
def CrtcCall.run : CrtcCall → Video → Video
  | .reset, s => crtc_reset s
  | .write addr val, s => crtc_write addr val s
  | .latchpen, s => crtc_latchpen s
  | .loadstate bytes, s => crtc_loadstate bytes s

/-- Perform a sequence of CRTC calls, first call first. -/
def runCrtc (calls : List CrtcCall) (s : Video) : Video :=
  calls.foldl (fun s c => c.run s) s

/-! ## State files -/

/-- The 25-byte or 97-byte buffer `bytes[]` after `fread` from a file holding the bytes `l`. -/
def file_bytes (l : List Nat) : Nat → Nat :=
  fun i => l.getD i 0

/-- `crtc_savestate`: the contents of `bytes[25]` handed to `fwrite`. -/
def crtc_savestate (s : Video) : List Nat :=
  (List.range 18).map (fun c => s.crtc c % 256)
    ++ [s.vc % 256, s.sc % 256, s.hc % 256, s.ma % 256, (s.ma >>> 8) % 256, s.maback % 256,
        (s.maback >>> 8) % 256]

/-- `videoula_savestate`: the bytes stored through `*ptr++` and handed to `fwrite`. -/
def videoula_savestate (s : Video) : List Nat :=
  [s.ula_ctrl % 256]
    ++ (List.range 16).map (fun c => s.ula_palbak c % 256)
    ++ (List.range 16).flatMap (fun c =>
        [(s.nula_collook c >>> 16) &&& 0xff, (s.nula_collook c >>> 8) &&& 0xff,
         s.nula_collook c &&& 0xff, (s.nula_collook c >>> 24) &&& 0xff])
    ++ [s.nula_pal_write_flag % 256, s.nula_pal_first_byte % 256]
    ++ (List.range 8).map (fun c => s.nula_flash c % 256)
    ++ [s.nula_palette_mode % 256, s.nula_horizontal_offset % 256, s.nula_left_blank % 256,
        s.nula_disable % 256, s.nula_attribute_mode % 256, s.nula_attribute_text % 256]

/-- `videoula_loadstate`; `bytes` is the 97-byte buffer filled by `fread`, and the pointer
walk `*ptr++` is written with the offsets it reaches. -/
def videoula_loadstate (bytes : Nat → Nat) (s : Video) : Video :=
  let byte := fun i => bytes i % 256
  let s := videoula_write 0 (byte 0) s
  let s := (List.range 16).foldl (fun s c => videoula_write 1 (byte (1 + c) ||| (c <<< 4)) s) s
  let word := fun c => (byte (17 + 4 * c + 3) <<< 24) ||| (byte (17 + 4 * c) <<< 16)
    ||| (byte (17 + 4 * c + 1) <<< 8) ||| byte (17 + 4 * c + 2)
  let s := (List.range 16).foldl (fun s c =>
    { s with nula_collook := setAt s.nula_collook c (word c) }) s
  let s := { s with nula_pal_write_flag := byte 81 }
  let s := { s with nula_pal_first_byte := byte 82 }
  let s := (List.range 8).foldl (fun s c =>
    { s with nula_flash := setAt s.nula_flash c (byte (83 + c)) }) s
  let s := { s with nula_palette_mode := byte 91 }
  let s := { s with nula_horizontal_offset := byte 92 }
  let s := { s with nula_left_blank := byte 93 }
  let s := { s with nula_disable := byte 94 }
  let s := { s with nula_attribute_mode := byte 95 }
  { s with nula_attribute_text := byte 96 }

/-! ## Pixel output -/

/-- `put_pixel`: store `colour` at `(x, y)`. -/
def put_pixel (x y colour : Nat) (r : Region) : Region :=
  fun a b => if a = x ∧ b = y then colour else r a b

/-- `put_pixels`: store `colour` in `count` consecutive pixels starting at `(x, y)`. -/
def put_pixels (x y count colour : Nat) (r : Region) : Region :=
  (List.range count).foldl (fun r i => put_pixel (x + i) y colour r) r

/-- `nula_putpixel`. -/
def nula_putpixel (s : Video) (x y colour : Nat) (r : Region) : Region :=
  if s.crtc_mode ≠ 0 ∧ (s.nula_horizontal_offset ≠ 0 ∨ s.nula_left_blank ≠ 0)
      ∧ (x < s.nula_left_cut ∨ x ≥ s.nula_left_edge + s.crtc 1 * s.crtc_mode * 8) then
    put_pixel x y s.colblack r
  else if x < 1280 then put_pixel x y colour r
  else r

/-! ## Memory fetch -/

/-- The table `screenlen[4]`. -/
def screenlen (i : Nat) : Nat :=
  [0x4000, 0x5000, 0x2000, 0x2800].getD i 0

/-- The 16-bit `addr` that the bitmap fetch of `video_poll` computes before the wrap. -/
def video_bitmap_addr (s : Video) : Nat :=
  if s.crtc 8 &&& 3 = 3 then ((s.ma <<< 3) ||| ((s.sc &&& 3) <<< 1) ||| s.interlline) % 65536
  else ((s.ma <<< 3) ||| (s.sc &&& 7)) % 65536

/-- The index into `ram[]` that the fetch of `video_poll` reads. -/
def video_fetch_index (s : Video) : Nat :=
  if s.ma &&& 0x2000 ≠ 0 then s.ttxbank ||| (s.ma &&& 0x3FF) ||| s.vidbank
  else
    let addr := video_bitmap_addr s
    let addr := if addr &&& 0x8000 ≠ 0 then (addr + 65536 - screenlen s.scrsize) % 65536 else addr
    (addr &&& 0x7FFF) ||| s.vidbank

/-! ## Teletext renderer (SAA5050) -/

/-- Assignment `table[i][j][k] = v` in a three-dimensional array. -/
def setAt3 (a : Nat → Nat → Nat → Nat) (i j k v : Nat) : Nat → Nat → Nat → Nat :=
  fun x y z => if x = i ∧ y = j ∧ z = k then v else a x y z

/-- The colour that `mode7_gen_nula_lookup` computes for `mode7_lookup[fg_ix][bg_ix][weight]`
from the palette; `/` of C truncates toward zero. -/
def mode7_blend (collook : Nat → Nat) (fg_ix bg_ix weight : Nat) : Nat :=
  let fg_pix := collook fg_ix
  let fg_red : Int := ((fg_pix >>> 16) &&& 0xff : Nat)
  let fg_grn : Int := ((fg_pix >>> 8) &&& 0xff : Nat)
  let fg_blu : Int := (fg_pix &&& 0xff : Nat)
  let bg_pix := collook bg_ix
  let bg_red : Int := ((bg_pix >>> 16) &&& 0xff : Nat)
  let bg_grn : Int := ((bg_pix >>> 8) &&& 0xff : Nat)
  let bg_blu : Int := (bg_pix &&& 0xff : Nat)
  let lu_red := bg_red + Int.tdiv ((fg_red - bg_red) * (weight : Int)) 15
  let lu_grn := bg_grn + Int.tdiv ((fg_grn - bg_grn) * (weight : Int)) 15
  let lu_blu := bg_blu + Int.tdiv ((fg_blu - bg_blu) * (weight : Int)) 15
  makecol lu_red.toNat lu_grn.toNat lu_blu.toNat

/-- `mode7_gen_nula_lookup`. -/
def mode7_gen_nula_lookup (s : Video) : Video :=
  let s : Video := (List.range 8).foldl (fun s fg_ix =>
    (List.range 8).foldl (fun s bg_ix =>
      (List.range 16).foldl (fun s weight =>
        let col := mode7_blend s.nula_collook fg_ix bg_ix weight
        { s with mode7_lookup := setAt3 s.mode7_lookup fg_ix bg_ix weight col }) s) s) s
  { s with mode7_need_new_lookup := 0 }

/-- The locals of `mode7_render` that the decoding of a cell sets: the glyph code `dat`, the
glyph pointers `mode7_px[]`, the colour `mcolx` and the flags `holdoff`, `holdclear`. -/
structure Mode7Cell where
  dat : Nat
  px0 : Mode7Table
  px1 : Mode7Table
  mcolx : Nat
  holdoff : Nat
  holdclear : Nat

/-- The `switch (dat)` of `mode7_render`, entered for `dat < 0x20`. -/
def mode7_control (s : Video) (l : Mode7Cell) : Video × Mode7Cell :=
  match l.dat with
  | 1 | 2 | 3 | 4 | 5 | 6 | 7 =>
    let s : Video := { s with mode7_gfx := 0 }
    let s : Video := { s with mode7_col := l.dat }
    let s : Video := { s with mode7_p0 := Mode7Table.mode7_chars }
    let s : Video := { s with mode7_p1 := Mode7Table.mode7_charsi }
    (s, { l with holdclear := 1 })
  | 8 => ({ s with mode7_flash := 1 }, l)
  | 9 => ({ s with mode7_flash := 0 }, l)
  | 12 | 13 =>
    let s : Video := { s with mode7_dbl := l.dat &&& 1 }
    let s : Video := if s.mode7_dbl ≠ 0 then { s with mode7_wasdbl := 1 } else s
    (s, l)
  | 17 | 18 | 19 | 20 | 21 | 22 | 23 =>
    let s : Video := { s with mode7_gfx := 1 }
    let s : Video := { s with mode7_col := l.dat &&& 7 }
    let s : Video :=
      if s.mode7_sep ≠ 0 then
        let s : Video := { s with mode7_p0 := Mode7Table.mode7_sepgraph }
        { s with mode7_p1 := Mode7Table.mode7_sepgraphi }
      else
        let s : Video := { s with mode7_p0 := Mode7Table.mode7_graph }
        { s with mode7_p1 := Mode7Table.mode7_graphi }
    (s, l)
  | 24 => ({ s with mode7_col := s.mode7_bg }, { l with mcolx := s.mode7_bg })
  | 25 =>
    let s : Video :=
      if s.mode7_gfx ≠ 0 then
        let s : Video := { s with mode7_p0 := Mode7Table.mode7_graph }
        { s with mode7_p1 := Mode7Table.mode7_graphi }
      else s
    ({ s with mode7_sep := 0 }, l)
  | 26 =>
    let s : Video :=
      if s.mode7_gfx ≠ 0 then
        let s : Video := { s with mode7_p0 := Mode7Table.mode7_sepgraph }
        { s with mode7_p1 := Mode7Table.mode7_sepgraphi }
      else s
    ({ s with mode7_sep := 1 }, l)
  | 28 => ({ s with mode7_bg := 0 }, l)
  | 29 => ({ s with mode7_bg := s.mode7_col }, l)
  | 30 => ({ s with mode7_holdchar := 1 }, l)
  | 31 => (s, { l with holdoff := 1 })
  | _ => (s, l)

/-- The decoding of one cell in `mode7_render`, from `if (dat < 0x20)` to the end of the
`else if`: the control-code switch and the choice of the glyph drawn in a control-code cell,
or the recording of a held graphics character. `mode7_dblx` is the double-height flag saved
on entry. -/
def mode7_decode (mode7_dblx : Nat) (s : Video) (l : Mode7Cell) : Video × Mode7Cell :=
  if l.dat < 0x20 then
    let ctl := mode7_control s l
    let s : Video := ctl.1
    let l : Mode7Cell := ctl.2
    let l : Mode7Cell :=
      if s.mode7_holdchar ≠ 0 then
        let l : Mode7Cell := { l with dat := s.mode7_heldchar }
        let l : Mode7Cell := if l.dat ≥ 0x40 ∧ l.dat < 0x60 then { l with dat := 32 } else l
        let l : Mode7Cell := { l with px0 := s.mode7_heldp0 }
        { l with px1 := s.mode7_heldp1 }
      else { l with dat := 0x20 }
    let l : Mode7Cell := if mode7_dblx ≠ s.mode7_dbl then { l with dat := 32 } else l
    (s, l)
  else if s.mode7_p0 ≠ Mode7Table.mode7_chars then
    let s : Video := { s with mode7_heldchar := l.dat }
    let s : Video := { s with mode7_heldp0 := l.px0 }
    let s : Video := { s with mode7_heldp1 := l.px1 }
    (s, l)
  else (s, l)

/-- The offset `t` of the first glyph pixel of the cell in the glyph array
(`MODE7_FIRST_CHAR` = 0x20, `MODE7_DISPLAY_WIDTH` = 16, `MODE7_CHAR_HEIGHT` = 10). -/
def mode7_offset (mode7_dblx : Nat) (s : Video) (dat : Nat) : Int :=
  if mode7_dblx ≠ 0 ∧ s.mode7_nextdbl = 0 then
    ((dat : Int) - 0x20) * 16 * 10 + (((s.sc >>> 1 : Nat) : Int) * 16)
  else if mode7_dblx ≠ 0 then
    ((dat : Int) - 0x20) * 16 * 10 + (((s.sc >>> 1 : Nat) : Int) * 16) + (5 * 16)
  else
    ((dat : Int) - 0x20) * 16 * 10 + ((s.sc : Int) * 16)

/-- The row `on` of the blend table chosen for the cell. -/
def mode7_on (s : Video) (mcolx : Nat) : Nat → Nat :=
  if s.mode7_dbl = 0 ∧ s.mode7_nextdbl ≠ 0 then s.mode7_lookup (s.mode7_bg &&& 7) (s.mode7_bg &&& 7)
  else s.mode7_lookup (mcolx &&& 7) (s.mode7_bg &&& 7)

/-- The colour of pixel `c` (0..15) of the cell in the drawing loop of `mode7_render`. -/
def mode7_pixel (mode7_flashx mode7_dblx : Nat) (s : Video) (l : Mode7Cell) (c : Nat) : Nat :=
  let t := mode7_offset mode7_dblx s l.dat + (c : Int)
  let off := s.mode7_lookup 0 (s.mode7_bg &&& 7) 0
  let on_row := mode7_on s l.mcolx
  let interindex :=
    if s.vid_dtype_intern = vid_disptype.VDT_INTERLACE ∧ s.interlline ≠ 0 then 1 else 0
  if mode7_flashx ≠ 0 ∧ s.mode7_flashon = 0 then off
  else if mode7_dblx ≠ 0 then
    on_row (s.mode7_glyphs (if s.sc &&& 1 = 0 then l.px0 else l.px1) t &&& 15)
  else
    on_row (s.mode7_glyphs (if interindex = 0 then l.px0 else l.px1) t &&& 15)

/-- The part of `mode7_render` after the pipeline buffer has been shifted: `dat` is the byte
taken out of the buffer, `mcolx`, `mode7_flashx` and `mode7_dblx` are the values saved on
entry. -/
def mode7_cell (dat mcolx mode7_flashx mode7_dblx : Nat) (s : Video) : Video :=
  if dat = 255 then
    let draw := fun r c => put_pixel (s.scrx + c + 16) s.scry s.colblack r
    { s with region := (List.range 16).foldl draw s.region }
  else
    let l : Mode7Cell :=
      { dat := dat, px0 := s.mode7_p0, px1 := s.mode7_p1, mcolx := mcolx, holdoff := 0,
        holdclear := 0 }
    let dec := mode7_decode mode7_dblx s l
    let s : Video := dec.1
    let l : Mode7Cell := dec.2
    let colour := mode7_pixel mode7_flashx mode7_dblx s l
    let draw := fun r c => put_pixel (s.scrx + c + 16) s.scry (colour c) r
    let s : Video := { s with region := (List.range 16).foldl draw s.region }
    let s : Video :=
      if l.holdoff ≠ 0 then
        let s : Video := { s with mode7_holdchar := 0 }
        { s with mode7_heldchar := 32 }
      else s
    if l.holdclear ≠ 0 then { s with mode7_heldchar := 32 } else s

/-- `mode7_render`. -/
def mode7_render (dat : Nat) (s : Video) : Video :=
  let dat := dat % 256
  let mcolx := s.mode7_col
  let mode7_flashx := s.mode7_flash
  let mode7_dblx := s.mode7_dbl
  if s.scrx < 1280 - 32 then
    let s : Video := if s.mode7_need_new_lookup ≠ 0 then mode7_gen_nula_lookup s else s
    let t := s.mode7_buf 0
    let s : Video := { s with mode7_buf := setAt s.mode7_buf 0 (s.mode7_buf 1) }
    let s : Video := { s with mode7_buf := setAt s.mode7_buf 1 dat }
    mode7_cell t mcolx mode7_flashx mode7_dblx s
  else s

/-- The state in which `mode7_render` decodes a cell: the blend table regenerated when it is
flagged stale, and the byte `dat` pushed into the two-entry pipeline buffer. -/
def mode7_push (dat : Nat) (s : Video) : Video :=
  let s : Video := if s.mode7_need_new_lookup ≠ 0 then mode7_gen_nula_lookup s else s
  let s : Video := { s with mode7_buf := setAt s.mode7_buf 0 (s.mode7_buf 1) }
  { s with mode7_buf := setAt s.mode7_buf 1 (dat % 256) }

/-- The state `s` with the fields that `mode7_render` can change taken from `r`. -/
def mode7_fields (r s : Video) : Video :=
  { s with toMode7Cells := r.toMode7Cells, region := r.region }

/-- The blend table is the one `mode7_gen_nula_lookup` builds from the current palette. -/
def Mode7LookupCurrent (s : Video) : Prop :=
  ∀ fg bg w, fg < 8 → bg < 8 → w < 16 →
    s.mode7_lookup fg bg w = mode7_blend s.nula_collook fg bg w

/-- The background colour of the teletext renderer: red, green and blue of
`nula_collook[mode7_bg & 7]`, opaque. -/
def mode7_bg_colour (s : Video) : Nat :=
  makecol ((s.nula_collook (s.mode7_bg &&& 7) >>> 16) &&& 0xff)
    ((s.nula_collook (s.mode7_bg &&& 7) >>> 8) &&& 0xff)
    (s.nula_collook (s.mode7_bg &&& 7) &&& 0xff)

/-! ## Scanout driver (`video_poll`) -/

/-- The table `cursorlook[7]`. -/
def cursorlook (i : Nat) : Nat :=
  [0, 0, 0, 0x80, 0x40, 0x20, 0x20].getD i 0

/-- The table `cdrawlook[4]`. -/
def cdrawlook (i : Nat) : Nat :=
  [3, 2, 1, 0].getD i 0

/-- The table `cmask[4]`. -/
def cmask (i : Nat) : Nat :=
  [0, 0, 16, 32].getD i 0

/-- `video_reset`. -/
def video_reset (s : Video) : Video :=
  let s : Video := { s with interline := 0 }
  let s : Video := { s with vsynctime := 0 }
  let s : Video := { s with hvblcount := 0 }
  let s : Video := { s with frameodd := 0 }
  let s : Video := { s with con := 0, cdraw := 0 }
  let s : Video := { s with cursoron := 0 }
  let s : Video := { s with charsleft := 0 }
  let s : Video := { s with vidbank := 0 }
  let s : Video := { s with nula_left_cut := 0 }
  let s : Video := { s with nula_left_edge := 0 }
  let s : Video := { s with nula_left_blank := 0 }
  { s with nula_horizontal_offset := 0 }

/-- `video_set_disptype`. -/
def video_set_disptype (dtype : vid_disptype) (s : Video) : Video :=
  let s : Video := { s with vid_dtype_user := dtype }
  set_intern_dtype dtype s

/-- The test `hc == crtc[1]` of `video_poll`: horizontal displayed count reached. -/
def video_poll_hdisp (s : Video) : Video :=
  if s.hc = s.crtc 1 then
    let s : Video :=
      if s.dispen ≠ 0 ∧ s.ula_ctrl &&& 2 ≠ 0 then { s with charsleft := 3 }
      else { s with charsleft := 0 }
    { s with dispen := 0 }
  else s

/-- The test `hc == crtc[2]` of `video_poll`: horizontal sync position reached. -/
def video_poll_hsync (s : Video) : Video :=
  if s.hc = s.crtc 2 then
    let s : Video :=
      if s.ula_ctrl &&& 0x10 ≠ 0 then { s with scrx := 128 - ((s.crtc 3 &&& 15) * 4) }
      else { s with scrx := 128 - ((s.crtc 3 &&& 15) * 8) }
    let s : Video := { s with scry := s.scry + 1 }
    if s.scry ≥ 384 then
      let s : Video := { s with scry := 0 }
      { s with calls := s.calls ++ [ExtCall.video_doblit s.crtc_mode (s.crtc 4)] }
    else s
  else s

/-- The first `switch (vid_dtype_intern)` of `video_poll`: the scanline is transformed to
the row of the buffer (`case VDT_INTERLACE`, `case VDT_LINEDOUBLE`; no other case). -/
def video_poll_scry_in (s : Video) : Video :=
  if s.vid_dtype_intern = vid_disptype.VDT_INTERLACE then
    { s with scry := (s.scry <<< 1) + s.interlline }
  else if s.vid_dtype_intern = vid_disptype.VDT_LINEDOUBLE then { s with scry := s.scry <<< 1 }
  else s

/-- The second `switch (vid_dtype_intern)` of `video_poll`: the scanline is transformed
back. -/
def video_poll_scry_out (s : Video) : Video :=
  if s.vid_dtype_intern = vid_disptype.VDT_INTERLACE then { s with scry := s.scry >>> 1 }
  else if s.vid_dtype_intern = vid_disptype.VDT_LINEDOUBLE then { s with scry := s.scry >>> 1 }
  else s

/-- The cursor loop `for (c = n; c >= 0; c--)` of `video_poll`: the pixels `scrx + n` down to
`scrx` are read back and stored again, exclusive-ored with `mask`. -/
def cursor_invert (s : Video) (n mask : Nat) (r : Region) : Region :=
  (List.range (n + 1)).reverse.foldl
    (fun r c => nula_putpixel s (s.scrx + c) s.scry (r (s.scrx + c) s.scry ^^^ mask) r) r

/-- The colour of an expanded bitmap pixel: `nula_palette_mode ? nula_collook[i] :
ula_pal[i]` with `i = table4bpp[ula_mode][dat][c]`. -/
def bitmap_colour (s : Video) (dat c : Nat) : Nat :=
  if s.nula_palette_mode ≠ 0 then s.nula_collook (s.table4bpp s.ula_mode dat c)
  else s.ula_pal (s.table4bpp s.ula_mode dat c)

/-- The pixels drawn for `crtc_mode == 1` (high-frequency clock). The C code steps a `float`
by 0.75 for each pixel and truncates it; the values are exact, `(int) pc` is `3 * c / 4`. -/
def draw_high_freq (s : Video) (dat : Nat) (r : Region) : Region :=
  if s.nula_attribute_mode ≠ 0 ∧ s.ula_mode > 1 then
    if s.ula_mode = 3 then
      if s.nula_attribute_text ≠ 0 then
        let attr := (dat &&& 7) <<< 1
        let r : Region := (List.range 7).foldl (fun r c =>
          let output := s.ula_pal (attr ||| ((dat >>> (7 - 3 * c / 4)) &&& 1))
          nula_putpixel s (s.scrx + c) s.scry output r) r
        nula_putpixel s (s.scrx + 7) s.scry (s.ula_pal attr) r
      else
        let attr := (dat &&& 3) <<< 2
        (List.range 8).foldl (fun r c =>
          let output := s.ula_pal (attr ||| ((dat >>> (7 - 3 * c / 4)) &&& 1))
          nula_putpixel s (s.scrx + c) s.scry output r) r
    else
      let attr := ((dat &&& 16) >>> 1) ||| ((dat &&& 1) <<< 2)
      (List.range 8).foldl (fun r c =>
        let a := 3 - (3 * c / 4) / 2
        let output := s.ula_pal (attr ||| ((dat >>> (a + 3)) &&& 2) ||| ((dat >>> a) &&& 1))
        nula_putpixel s (s.scrx + c) s.scry output r) r
  else
    (List.range 8).foldl (fun r c =>
      nula_putpixel s (s.scrx + c) s.scry (bitmap_colour s dat c) r) r

/-- The pixels drawn for `crtc_mode == 2` (low-frequency clock). The `float` is stepped by
0.375; `(int) pc` is `3 * c / 8`. -/
def draw_low_freq (s : Video) (dat : Nat) (r : Region) : Region :=
  if s.nula_attribute_mode ≠ 0 ∧ s.ula_mode > 1 then
    if s.nula_attribute_text ≠ 0 then
      let attr := (dat &&& 7) <<< 1
      let r : Region := (List.range 14).foldl (fun r c =>
        let output := s.ula_pal (attr ||| ((dat >>> (7 - 3 * c / 8)) &&& 1))
        nula_putpixel s (s.scrx + c) s.scry output r) r
      let r : Region := nula_putpixel s (s.scrx + 14) s.scry (s.ula_pal attr) r
      nula_putpixel s (s.scrx + 15) s.scry (s.ula_pal attr) r
    else
      let attr := (dat &&& 3) <<< 2
      (List.range 16).foldl (fun r c =>
        let output := s.ula_pal (attr ||| ((dat >>> (7 - 3 * c / 8)) &&& 1))
        nula_putpixel s (s.scrx + c) s.scry output r) r
  else
    (List.range 16).foldl (fun r c =>
      nula_putpixel s (s.scrx + c) s.scry (bitmap_colour s dat c) r) r

/-- The cursor step shared by both branches of `video_poll`: invert the cell when the cursor
is on, then advance `cdraw`. -/
def video_poll_cursor (mask : Nat) (s : Video) : Video :=
  let s : Video :=
    if s.cursoron ≠ 0 ∧ s.ula_ctrl &&& cursorlook s.cdraw ≠ 0 then
      { s with region := cursor_invert s (if s.ula_ctrl &&& 0x10 ≠ 0 then 8 else 16) mask s.region }
    else s
  let s : Video := { s with cdraw := s.cdraw + 1 }
  if s.cdraw = 7 then { s with cdraw := 0 } else s

/-- The branch `if (dispen)` of `video_poll`: fetch a byte and draw the cell. -/
def video_poll_display (s : Video) : Video :=
  let s : Video :=
    if (s.ma ^^^ (s.crtc 15 ||| (s.crtc 14 <<< 8))) &&& 0x3FFF = 0 ∧ s.con ≠ 0 then
      { s with cdraw := cdrawlook (s.crtc 8 >>> 6) }
    else s
  let dat := s.ram (video_fetch_index s) % 256
  let s : Video :=
    if s.scrx < 1280 - 16 then
      let s : Video :=
        if s.crtc 8 &&& 0x30 = 0x30 ∨ (s.sc &&& 8 ≠ 0 ∧ s.ula_ctrl &&& 2 = 0) then
          let count := if s.ula_ctrl &&& 0x10 ≠ 0 then 8 else 16
          { s with region := put_pixels s.scrx s.scry count s.colblack s.region }
        else
          if s.crtc_mode = 0 then mode7_render (dat &&& 0x7F) s
          else if s.crtc_mode = 1 then { s with region := draw_high_freq s dat s.region }
          else if s.crtc_mode = 2 then { s with region := draw_low_freq s dat s.region }
          else s
      if s.cdraw ≠ 0 then video_poll_cursor 0x00ffffff s else s
    else s
  let s : Video := { s with ma := (s.ma + 1) % 65536 }
  { s with vidbytes := s.vidbytes + 1 }

/-- The branch `else` of `if (dispen)` in `video_poll`: outside the displayed area. -/
def video_poll_blank (s : Video) : Video :=
  let s : Video :=
    if s.charsleft ≠ 0 then
      let s : Video := if s.charsleft ≠ 1 then mode7_render 255 s else s
      { s with charsleft := s.charsleft - 1 }
    else if s.scrx < 1280 - 32 then
      let count := if s.ula_ctrl &&& 0x10 ≠ 0 then 8 else 16
      let s : Video := { s with region := put_pixels s.scrx s.scry count s.colblack s.region }
      if s.crtc_mode = 0 then
        { s with region := put_pixels (s.scrx + 16) s.scry 16 s.colblack s.region }
      else s
    else s
  if s.cdraw ≠ 0 ∧ s.scrx < 1280 - 16 then video_poll_cursor s.colwhite s else s

/-- The test `if (hvblcount)` of `video_poll`. -/
def video_poll_hvbl (timer_enable : Nat) (s : Video) : Video :=
  if s.hvblcount ≠ 0 then
    let s : Video := { s with hvblcount := s.hvblcount - 1 }
    if s.hvblcount = 0 ∧ timer_enable ≠ 0 then
      { s with calls := s.calls ++ [ExtCall.sysvia_set_ca1 0] }
    else s
  else s

/-- The block of `video_poll` entered when the vertical sync position is reached
(`vc == crtc[7]`). Clearing the bitmap with `al_clear_to_color` leaves opaque black
(0xFF000000) in every pixel of the re-locked buffer; `is_free_run()` is 0. -/
def video_poll_vsync (timer_enable : Nat) (s : Video) : Video :=
  let intsync := s.crtc 8 &&& 1
  let s : Video := if intsync = 0 ∧ s.oldr8 ≠ 0 then { s with region := fun _ _ => 0xFF000000 } else s
  let s : Video := { s with frameodd := s.frameodd ^^^ 1 }
  let s : Video := if s.frameodd ≠ 0 then { s with interline := intsync } else s
  let s : Video := { s with interlline := if s.frameodd ≠ 0 ∧ intsync ≠ 0 then 1 else 0 }
  let s : Video := { s with oldr8 := intsync }
  let s : Video :=
    if s.vidclocks > 1024 ∧ s.ccount = 0 then
      let s : Video := { s with calls := s.calls ++ [ExtCall.video_doblit s.crtc_mode (s.crtc 4)] }
      { s with vid_cleared := 0 }
    else if s.vidclocks ≤ 1024 ∧ s.vid_cleared = 0 then
      let s : Video := { s with vid_cleared := 1 }
      let s : Video := { s with region := fun _ _ => 0xFF000000 }
      { s with calls := s.calls ++ [ExtCall.video_doblit s.crtc_mode (s.crtc 4)] }
    else s
  let s : Video := { s with ccount := s.ccount + 1 }
  let s : Video := if s.ccount = 10 ∨ (s.motor = 0 ∨ s.fasttape = 0) then { s with ccount := 0 } else s
  let s : Video := { s with scry := 0 }
  let s : Video :=
    if timer_enable ≠ 0 then { s with calls := s.calls ++ [ExtCall.sysvia_set_ca1 1] } else s
  let s : Video := { s with vsynctime := (s.crtc 3 >>> 4) + 1 }
  let s : Video := if s.crtc 3 >>> 4 = 0 then { s with vsynctime := 17 } else s
  let s : Video := video_poll_flash s
  let s : Video := { s with vidclocks := 0 }
  { s with vidbytes := 0 }

/-- The block of `video_poll` entered at the bottom of a row of characters. -/
def video_poll_row (timer_enable : Nat) (s : Video) : Video :=
  let s : Video := { s with maback := s.ma }
  let s : Video := { s with sc := 0 }
  let s : Video := { s with con := 0 }
  let s : Video := { s with coff := 0 }
  let s : Video :=
    if s.mode7_nextdbl ≠ 0 then { s with mode7_nextdbl := 0 }
    else { s with mode7_nextdbl := s.mode7_wasdbl }
  let oldvc := s.vc
  let s : Video := { s with vc := s.vc + 1 }
  let s : Video := { s with vc := s.vc &&& 127 }
  let s : Video := if s.vc = s.crtc 6 then { s with vdispen := 0 } else s
  let s : Video :=
    if oldvc = s.crtc 4 then
      let s : Video := { s with vc := 0 }
      let s : Video := { s with vadj := s.crtc 5 }
      let s : Video :=
        if s.vadj = 0 then
          let s : Video := { s with vdispen := 1 }
          let s : Video := { s with maback := (s.crtc 13 ||| (s.crtc 12 <<< 8)) &&& 0x3FFF }
          { s with ma := s.maback }
        else s
      let s : Video := { s with frcount := s.frcount + 1 }
      if s.crtc 10 &&& 0x60 = 0 then { s with cursoron := 1 }
      else { s with cursoron := s.frcount &&& cmask ((s.crtc 10 &&& 0x60) >>> 5) }
    else s
  if s.vc = s.crtc 7 then video_poll_vsync timer_enable s else s

/-- The "NULA horizontal offset" loop at the end of a scanline: black pixels are stored while
`scrx` is advanced. -/
def nula_delay (s : Video) : Video :=
  (List.range (s.nula_horizontal_offset * s.crtc_mode)).foldl (fun s _ =>
    let s : Video := { s with region := put_pixel (s.scrx + s.crtc_mode * 8) s.scry s.colblack s.region }
    { s with scrx := s.scrx + 1 }) s

/-- The block of `video_poll` entered at the end of a scanline (`hc == crtc[0]`). -/
def video_poll_eol (timer_enable : Nat) (s : Video) : Video :=
  let s : Video := { s with mode7_col := 7 }
  let s : Video := { s with mode7_bg := 0 }
  let s : Video := { s with mode7_holdchar := 0 }
  let s : Video := { s with mode7_heldchar := 0x20 }
  let s : Video := { s with mode7_p0 := Mode7Table.mode7_chars }
  let s : Video := { s with mode7_p1 := Mode7Table.mode7_charsi }
  let s : Video := { s with mode7_flash := 0 }
  let s : Video := { s with mode7_sep := 0 }
  let s : Video := { s with mode7_gfx := 0 }
  let s : Video := { s with mode7_heldp0 := s.mode7_p0 }
  let s : Video := { s with mode7_heldp1 := s.mode7_p1 }
  let s : Video := { s with hc := 0 }
  let s : Video :=
    if s.crtc_mode ≠ 0 then
      let s : Video := { s with nula_left_edge := s.scrx + s.crtc_mode * 8 }
      let s : Video := { s with nula_left_cut := s.nula_left_edge + s.nula_left_blank * s.crtc_mode * 8 }
      nula_delay s
    else s
  let s : Video :=
    if s.sc = s.crtc 11 &&& 31 ∨ (s.crtc 8 &&& 3 = 3 ∧ s.sc = (s.crtc 11 &&& 31) >>> 1) then
      let s : Video := { s with con := 0 }
      { s with coff := 1 }
    else s
  let s : Video :=
    if s.vadj ≠ 0 then
      let s : Video := { s with sc := s.sc + 1 }
      let s : Video := { s with sc := s.sc &&& 31 }
      let s : Video := { s with ma := s.maback }
      let s : Video := { s with vadj := s.vadj - 1 }
      if s.vadj = 0 then
        let s : Video := { s with vdispen := 1 }
        let s : Video := { s with maback := (s.crtc 13 ||| (s.crtc 12 <<< 8)) &&& 0x3FFF }
        let s : Video := { s with ma := s.maback }
        { s with sc := 0 }
      else s
    else if s.sc = s.crtc 9 ∨ (s.crtc 8 &&& 3 = 3 ∧ s.sc = s.crtc 9 >>> 1) then
      video_poll_row timer_enable s
    else
      let s : Video := { s with sc := s.sc + 1 }
      let s : Video := { s with sc := s.sc &&& 31 }
      { s with ma := s.maback }
  let s : Video := { s with mode7_dbl := 0, mode7_wasdbl := 0 }
  let s : Video :=
    if (s.sc = s.crtc 10 &&& 31 ∨ (s.crtc 8 &&& 3 = 3 ∧ s.sc = (s.crtc 10 &&& 31) >>> 1))
        ∧ s.coff = 0 then
      { s with con := 1 }
    else s
  let s : Video :=
    if s.vsynctime ≠ 0 then
      let s : Video := { s with vsynctime := s.vsynctime - 1 }
      if s.vsynctime = 0 then
        let s : Video := { s with hvblcount := 1 }
        if s.frameodd ≠ 0 then { s with interline := s.crtc 8 &&& 1 } else s
      else s
    else s
  let s : Video := { s with dispen := s.vdispen }
  let s : Video := { s with firstdispen := 1 }
  { s with lasthc0 := 1 }

/-- The end of the loop body of `video_poll`: the three-way test on `hc`, then
`lasthc = hc`. -/
def video_poll_hc (timer_enable : Nat) (s : Video) : Video :=
  let s : Video :=
    if s.interline ≠ 0 ∧ s.hc = s.crtc 0 >>> 1 then
      let s : Video := { s with hc := 0, interline := 0 }
      let s : Video := { s with lasthc0 := 1 }
      if s.ula_ctrl &&& 0x10 ≠ 0 then { s with scrx := 128 - ((s.crtc 3 &&& 15) * 4) }
      else { s with scrx := 128 - ((s.crtc 3 &&& 15) * 8) }
    else if s.hc = s.crtc 0 then video_poll_eol timer_enable s
    else
      let s : Video := { s with hc := s.hc + 1 }
      { s with hc := s.hc &&& 255 }
  { s with lasthc := s.hc }

/-- The loop body of `video_poll` from the clock gate to the test on `hc`: sync positions,
the drawing of the cell, and the vertical-blank countdown. -/
def video_poll_draw (timer_enable : Nat) (s : Video) : Video :=
  let s : Video := video_poll_hdisp s
  let s : Video := video_poll_hsync s
  let s : Video := video_poll_scry_in s
  let s : Video := if s.dispen ≠ 0 then video_poll_display s else video_poll_blank s
  let s : Video := video_poll_scry_out s
  video_poll_hvbl timer_enable s

/-- The loop body of `video_poll` after the clock gate: one character tick. -/
def video_poll_char (timer_enable : Nat) (s : Video) : Video :=
  video_poll_hc timer_enable (video_poll_draw timer_enable s)

/-- The head of the loop body of `video_poll`: `scrx += 8; vidclocks++; oddclock = !oddclock`. -/
def video_poll_clock (s : Video) : Video :=
  let s : Video := { s with scrx := s.scrx + 8 }
  let s : Video := { s with vidclocks := s.vidclocks + 1 }
  { s with oddclock := if s.oddclock = 0 then 1 else 0 }

/-- One iteration of the loop `while (clocks--)` of `video_poll`. -/
def video_poll_tick (timer_enable : Nat) (s : Video) : Video :=
  let s : Video := video_poll_clock s
  if s.ula_ctrl &&& 0x10 = 0 ∧ s.oddclock = 0 then s
  else video_poll_char timer_enable s

/-- `video_poll`, for a non-negative number of `clocks`. The C `int` counters are unbounded
naturals here. -/
def video_poll : Nat → Nat → Video → Video
  | 0, _, s => s
  | clocks + 1, timer_enable, s => video_poll clocks timer_enable (video_poll_tick timer_enable s)

/-- A ULA state whose fields hold values of their C types as the code stores them: bytes,
4-bit backing codes, 32-bit colour words. -/
def UlaWellTyped (s : Video) : Prop :=
  s.ula_ctrl < 256 ∧ (∀ c, c < 16 → s.ula_palbak c < 16) ∧ (∀ c, c < 16 → s.nula_collook c < 2 ^ 32)
    ∧ s.nula_pal_write_flag < 256 ∧ s.nula_pal_first_byte < 256
    ∧ (∀ c, c < 8 → s.nula_flash c < 256)
    ∧ s.nula_palette_mode < 256 ∧ s.nula_horizontal_offset < 256 ∧ s.nula_left_blank < 256
    ∧ s.nula_disable < 256 ∧ s.nula_attribute_mode < 256 ∧ s.nula_attribute_text < 256

/-- The register-mask invariant: no bit outside the mask is stored in registers 0..31. -/
def MaskInv (s : Video) : Prop :=
  ∀ i, i < 32 → s.crtc i &&& (0xFF ^^^ crtc_mask i) = 0 ∧ s.crtc i < 256

/-- The cell record with which `mode7_cell` enters the decoding. -/
def mode7_cell_init (dat mcolx : Nat) (s : Video) : Mode7Cell :=
  { dat := dat, px0 := s.mode7_p0, px1 := s.mode7_p1, mcolx := mcolx, holdoff := 0, holdclear := 0 }

/-- The pixels left by the "NULA horizontal offset" loop at the end of a scanline. -/
def nula_delay_region (s : Video) : Region := (nula_delay s).region

/-- The condition under which the test on `hc` at the end of the loop body of `video_poll`
reaches the bottom-of-row block: end of a scanline (not the half line of an interlaced field),
no vertical adjust pending, and the scanline counter at the last line of the row. -/
def at_row_boundary (s : Video) : Prop :=
  ¬(s.interline ≠ 0 ∧ s.hc = s.crtc 0 >>> 1) ∧ s.hc = s.crtc 0 ∧ s.vadj = 0
    ∧ (s.sc = s.crtc 9 ∨ (s.crtc 8 &&& 3 = 3 ∧ s.sc = s.crtc 9 >>> 1))

instance (s : Video) : Decidable (at_row_boundary s) := by
  unfold at_row_boundary
  infer_instance

/-- The state `s` with the fields that the drawing of a cell in `video_poll` can change
taken from `r`. -/
def mid_fields (r s : Video) : Video :=
  { s with toMode7Cells := r.toMode7Cells, toFetchState := r.toFetchState, region := r.region }

/-- The teletext state after `mode7_render`. -/
def mode7_render_cells (d : Nat) (s : Video) : Mode7Cells := (mode7_render d s).toMode7Cells

/-- The pixels after `mode7_render`. -/
def mode7_render_region (d : Nat) (s : Video) : Region := (mode7_render d s).region

/-- The CRTC programming of the frame scenario: registers 0, 1, 4, 6 and 9 set, all others 0,
the high-frequency clock selected, and the counters at their reset values. -/
def FrameScenario (s : Video) : Prop :=
  s.crtc 0 = 63 ∧ s.crtc 1 = 40 ∧ s.crtc 4 = 38 ∧ s.crtc 6 = 32 ∧ s.crtc 9 = 9
    ∧ (∀ i, i ≠ 0 → i ≠ 1 → i ≠ 4 → i ≠ 6 → i ≠ 9 → s.crtc i = 0)
    ∧ s.ula_ctrl &&& 0x10 ≠ 0
    ∧ s.hc = 0 ∧ s.vc = 0 ∧ s.sc = 0 ∧ s.vadj = 0 ∧ s.interline = 0

/-- A state of the frame scenario: power-on with the registers programmed. -/
def frame_start : Video :=
  { power_on with
    crtc := fun i => [63, 40, 0, 0, 38, 0, 32, 0, 0, 9].getD i 0
    ula_ctrl := 0x10 }

/-- The number of `video_doblit` calls in a list of external calls. -/
def count_doblit : List ExtCall → Nat
  | [] => 0
  | ExtCall.video_doblit _ _ :: l => count_doblit l + 1
  | ExtCall.sysvia_set_ca1 _ :: l => count_doblit l

/-- The number of `sysvia_set_ca1(level)` calls in a list of external calls. -/
def count_ca1 (level : Nat) : List ExtCall → Nat
  | [] => 0
  | ExtCall.video_doblit _ _ :: l => count_ca1 level l
  | ExtCall.sysvia_set_ca1 v :: l => count_ca1 level l + (if v = level then 1 else 0)

/-- The state in which an iteration of the loop of `video_poll` reaches its call of
`mode7_render`, if it makes one: after the clock head, the sync tests and the scanline
transformation, and on the displayed path after the cursor address test. -/
def video_poll_render_state (s : Video) : Video :=
  let s : Video := video_poll_clock s
  let s : Video := video_poll_hdisp s
  let s : Video := video_poll_hsync s
  let s : Video := video_poll_scry_in s
  if s.dispen ≠ 0 then
    if (s.ma ^^^ (s.crtc 15 ||| (s.crtc 14 <<< 8))) &&& 0x3FFF = 0 ∧ s.con ≠ 0 then
      { s with cdraw := cdrawlook (s.crtc 8 >>> 6) }
    else s
  else s

/-- The argument of that call: the fetched byte with bit 7 cleared on the displayed path,
the filler 255 after the displayed area. -/
def video_poll_render_arg (s : Video) : Nat :=
  if (video_poll_render_state s).dispen ≠ 0 then
    (((video_poll_render_state s).ram (video_fetch_index (video_poll_render_state s))) % 256)
      &&& 0x7F
  else 255

/-- The condition under which an iteration of the loop of `video_poll` calls `mode7_render`:
the clock gate is open and either a teletext cell is displayed or the pipeline is flushed. -/
def video_poll_renders (s : Video) : Prop :=
  ¬((video_poll_clock s).ula_ctrl &&& 0x10 = 0 ∧ (video_poll_clock s).oddclock = 0)
    ∧ (if (video_poll_render_state s).dispen ≠ 0 then
        (video_poll_render_state s).scrx < 1280 - 16
          ∧ ¬((video_poll_render_state s).crtc 8 &&& 0x30 = 0x30
              ∨ ((video_poll_render_state s).sc &&& 8 ≠ 0
                  ∧ (video_poll_render_state s).ula_ctrl &&& 2 = 0))
          ∧ (video_poll_render_state s).crtc_mode = 0
       else
        (video_poll_render_state s).charsleft ≠ 0 ∧ (video_poll_render_state s).charsleft ≠ 1)

instance (s : Video) : Decidable (video_poll_renders s) := by
  unfold video_poll_renders
  infer_instance

/-- The states reachable from power-on: the statics of `video.c` at their initial values with
any memory, glyph data, colour tables and machine type, then any sequence of `video_poll`
iterations, CRTC and ULA register writes, and changes made by the rest of the emulator to the
memory and the tape flags. -/
inductive Reach : Video → Prop where
  | init (ram : Nat → Nat) (glyphs : Mode7Table → Int → Nat) (table : Nat → Nat → Nat → Nat)
      (black white : Nat) (mb : Bool) :
      Reach { power_on with
        ram := ram, mode7_glyphs := glyphs, table4bpp := table, colblack := black,
        colwhite := white, master_bplus := mb }
  | poll (te : Nat) {s : Video} : Reach s → Reach (video_poll_tick te s)
  | crtc (addr val : Nat) {s : Video} : Reach s → Reach (crtc_write addr val s)
  | ula (addr val : Nat) {s : Video} : Reach s → Reach (videoula_write addr val s)
  | mem (ram : Nat → Nat) {s : Video} : Reach s → Reach { s with ram := ram }
  | tape (motor fasttape : Nat) {s : Video} :
      Reach s → Reach { s with motor := motor, fasttape := fasttape }

/-- The held character is a glyph code whenever the renderer can be called. -/
def HeldInv (s : Video) : Prop :=
  0x20 ≤ s.mode7_heldchar ∨ (s.dispen = 0 ∧ s.charsleft = 0)

/-- A reachable state in teletext mode with the high-frequency clock: power-on, register 1
(horizontal displayed) set to 40, the ULA control register set to 0x12, and one iteration of
`video_poll`, which ends the first scanline and enables the display. -/
def reach_example : Video :=
  video_poll_tick 1 (videoula_write 0 0x12 (crtc_write 1 40 (crtc_write 0 1
    { power_on with
      ram := fun _ => 0, mode7_glyphs := fun _ _ => 0, table4bpp := fun _ _ _ => 0,
      colblack := 0xFF000000, colwhite := 0xFFFFFFFF, master_bplus := false })))

/-- The decoding that `mode7_render dat s` performs when `scrx < 1248`: the byte taken out
of the pipeline buffer is decoded in the state where `dat` has been pushed. -/
def mode7_render_decode (dat : Nat) (s : Video) : Video × Mode7Cell :=
  mode7_decode s.mode7_dbl (mode7_push dat s)
    (mode7_cell_init (s.mode7_buf 0) s.mode7_col (mode7_push dat s))

/-- The control-code switch on the byte that `mode7_render dat s` takes out of the pipeline
buffer. -/
def mode7_render_control (dat : Nat) (s : Video) : Video × Mode7Cell :=
  mode7_control (mode7_push dat s) (mode7_cell_init (s.mode7_buf 0) s.mode7_col (mode7_push dat s))

/-- The states that the program can go through from the state `s`: any sequence of
`video_poll` iterations, CRTC and ULA register writes, and changes made by the rest of the
emulator to the memory and the tape flags. -/
inductive Steps (s : Video) : Video → Prop where
  | start : Steps s s
  | poll (te : Nat) {t : Video} : Steps s t → Steps s (video_poll_tick te t)
  | crtc (addr val : Nat) {t : Video} : Steps s t → Steps s (crtc_write addr val t)
  | ula (addr val : Nat) {t : Video} : Steps s t → Steps s (videoula_write addr val t)
  | mem (ram : Nat → Nat) {t : Video} : Steps s t → Steps s { t with ram := ram }
  | tape (motor fasttape : Nat) {t : Video} :
      Steps s t → Steps s { t with motor := motor, fasttape := fasttape }

/-- The value `left` that the first inner loop of `video_init` computes from `temp2`: bits 1,
3, 5 and 7 of `temp2` gathered in bits 0..3. -/
def video_init_left (temp2 : Nat) : Nat :=
  let left := 0
  let left := if temp2 &&& 2 ≠ 0 then left ||| 1 else left
  let left := if temp2 &&& 8 ≠ 0 then left ||| 2 else left
  let left := if temp2 &&& 32 ≠ 0 then left ||| 4 else left
  if temp2 &&& 128 ≠ 0 then left ||| 8 else left

/-- The body of the first inner loop of `video_init`, on the pair of `table4bpp` and `temp2`:
`table4bpp[3][temp][c] = left; temp2 <<= 1; temp2 |= 1`. The `int` `temp2` stays below
`2 ^ 24`, and `left` fits the `uint8_t` entry. -/
def video_init_expand (temp : Nat) (p : (Nat → Nat → Nat → Nat) × Nat) (c : Nat) :
    (Nat → Nat → Nat → Nat) × Nat :=
  (setAt3 p.1 3 temp c (video_init_left p.2), (p.2 <<< 1) ||| 1)

/-- The body of the second inner loop of `video_init`: the rows for 2, 1 and 0 are copied from
the row for 3. -/
def video_init_spread (temp : Nat) (t : Nat → Nat → Nat → Nat) (c : Nat) : Nat → Nat → Nat → Nat :=
  let t := setAt3 t 2 temp c (t 3 temp (c >>> 1))
  let t := setAt3 t 1 temp c (t 3 temp (c >>> 2))
  setAt3 t 0 temp c (t 3 temp (c >>> 3))

/-- The body of the loop over `temp` in `video_init`. -/
def video_init_byte (table : Nat → Nat → Nat → Nat) (temp : Nat) : Nat → Nat → Nat → Nat :=
  (List.range 16).foldl (video_init_spread temp)
    ((List.range 16).foldl (video_init_expand temp) (table, temp)).1

/-- The part of `video_init` that sets variables of `video.c`: the two fixed colours, the
default palette, the flash flags, the pixel-expansion table `table4bpp`, and the locked
1280 by 800 buffer cleared to opaque black (window and bitmap creation are left out). -/
def video_init (s : Video) : Video :=
  let s : Video := { s with colblack := 0xff000000 }
  let s : Video := { s with colwhite := 0xffffffff }
  let s : Video := nula_default_palette s
  let s : Video := (List.range 8).foldl (fun s c => { s with nula_flash := setAt s.nula_flash c 1 }) s
  let s : Video := { s with table4bpp := (List.range 256).foldl video_init_byte s.table4bpp }
  { s with region := fun x y => if x < 1280 ∧ y < 800 then 0xFF000000 else s.region x y }

/-- The state after start-up: `video_init`, `crtc_reset` and `video_reset` on the globals as
the C program starts with them. -/
def reset_state : Video :=
  video_reset (crtc_reset (video_init power_on))

/-- Glyph data in which every pixel of every glyph is 0 (offsets 0 to 96 * 16 * 10 - 1 of each
array); the value 15 stands for what the memory beyond the arrays happens to hold. -/
def blank_glyphs : Mode7Table → Int → Nat :=
  fun _ i => if 0 ≤ i ∧ i < 96 * 16 * 10 then 0 else 15

/-- The start-up state with the glyph arrays holding `blank_glyphs`. -/
def glyph_overrun_start : Video :=
  { reset_state with mode7_glyphs := blank_glyphs }

/-- A state reached from `glyph_overrun_start` in which the teletext renderer is called on
scanline 10 of a character row: the memory holds the byte 0x7F everywhere, register 1
(horizontal displayed) is set to 40 and the ULA control register to 0x12 (teletext,
high-frequency clock), and `video_poll` runs for 21 iterations. Register 9 (maximum scanline)
has the value 10 that `crtc_reset` gives it, register 0 is 0, so every iteration ends a
scanline. -/
def glyph_overrun_example : Video :=
  video_poll 21 1 (videoula_write 0 0x12 (crtc_write 1 40 (crtc_write 0 1
    { glyph_overrun_start with ram := fun _ => 0x7F })))

/-- A state reached from start-up by CRTC register writes and `video_poll` only: registers 12
and 13 (screen start) set to 0x3F and 0xFF, register 0 to 1, register 1 to 40, register 9 to 0,
then five iterations of `video_poll`. -/
def address_overrun_example : Video :=
  video_poll 5 1 (crtc_write 1 0 (crtc_write 0 9 (crtc_write 1 40 (crtc_write 0 1
    (crtc_write 1 1 (crtc_write 0 0 (crtc_write 1 0xFF (crtc_write 0 13
    (crtc_write 1 0x3F (crtc_write 0 12 reset_state))))))))))

/-- A state reached from start-up one iteration before the end of a scanline of 160
characters: register 2 (horizontal sync position) set to 255, register 0 (horizontal total) to
159, the high-frequency clock selected, the NULA horizontal offset set to 7, then 159
iterations of `video_poll`. -/
def nula_fill_example : Video :=
  video_poll 159 1 (videoula_write 2 0x27 (videoula_write 0 0x10
    (crtc_write 1 159 (crtc_write 0 0 (crtc_write 1 255 (crtc_write 0 2 reset_state))))))

/-- A state before the first vertical total: screen start registers 12 and 13 set to 0x12 and
0x34, register 9 to 0, the high-frequency clock selected; `vdispen` is still 0. -/
def reload_example : Video :=
  videoula_write 0 0x10 (crtc_write 1 0 (crtc_write 0 9 (crtc_write 1 0x34 (crtc_write 0 13
    (crtc_write 1 0x12 (crtc_write 0 12 reset_state))))))

/-- A state in an odd interlaced field: the ULA control register set to 0x12 (teletext,
high-frequency clock), register 8 set to 1 (interlace sync), register 9 to 0, then one
iteration of `video_poll`, which reaches the vertical sync position and sets `interlline`. -/
def interlace_example : Video :=
  video_poll_tick 1 (crtc_write 1 0 (crtc_write 0 9 (crtc_write 1 1 (crtc_write 0 8
    (videoula_write 0 0x12 reset_state)))))


/-- A sequence of `videoula_write(addr, val)` calls, the first call first in the list. -/
def videoula_writes (l : List (Nat × Nat)) (s : Video) : Video :=
  l.foldl (fun s w => videoula_write w.1 w.2 s) s

/-- The state file that `videoula_savestate` writes after colour 7 of the NULA palette has
been redefined as red (the bytes 0x7F, 0x00 written to the NULA palette register). -/
def red_palette_file : List Nat :=
  videoula_savestate (videoula_write 3 0x00 (videoula_write 3 0x7F reset_state))

/-- The state after start-up, one call of `mode7_render` (which builds the blend table from the
default palette and clears `mode7_need_new_lookup`), and `videoula_loadstate` of
`red_palette_file`. -/
def stale_lookup_example : Video :=
  videoula_loadstate (file_bytes red_palette_file) (mode7_render 0x20 reset_state)

/-- The three colour channels of a 32-bit pixel word. -/
inductive Channel where
  | red
  | green
  | blue
  deriving DecidableEq, Repr

/-- The value of a channel, as `mode7_gen_nula_lookup` extracts it from a palette entry:
`(pix >> 16) & 0xff`, `(pix >> 8) & 0xff`, `pix & 0xff`. -/
def channel : Channel → Nat → Nat
  | Channel.red, pix => (pix >>> 16) &&& 0xff
  | Channel.green, pix => (pix >>> 8) &&& 0xff
  | Channel.blue, pix => pix &&& 0xff

/-- The C expression `bg + (fg - bg) * weight / 15` on `int` channel values, with the
division truncating toward zero. -/
def mode7_mix (fg bg weight : Nat) : Int :=
  (bg : Int) + Int.tdiv (((fg : Int) - (bg : Int)) * (weight : Int)) 15

/-- A palette with a dim red (red channel 10) in entry 0 and black in the other entries. -/
def dim_red_example : Video :=
  { power_on with nula_collook := fun i => if i = 0 then 0xff0a0000 else 0xff000000 }

/-- The start-up state after `videoula_loadstate` of `red_palette_file`, the state file in
which colour 7 is red, all 16 backing codes are 0 and the control register is 0. -/
def stale_map_example : Video :=
  videoula_loadstate (file_bytes red_palette_file) reset_state

/-- A 25-byte CRTC state file: register 8 (interlace and skew) holds 1, register 12 (screen
start high) holds 1, the other registers 0; the vertical counter `vc` (byte 18) is 1, the
other counters and addresses 0. -/
def interlace_file : List Nat :=
  [0, 0, 0, 0, 0, 0, 0, 0, 1, 0, 0, 0, 1, 0, 0, 0, 0, 0, 1, 0, 0, 0, 0, 0, 0]

/-- The start-up state after the guest has selected CRTC register 6 (`crtc_write(0, 6)`) and
`crtc_loadstate` has read `interlace_file`. -/
def stale_index_example : Video :=
  crtc_loadstate (file_bytes interlace_file) (crtc_write 0 6 reset_state)

/-- The colour that `videoula_write` case 1 stores in the active map for the backing code
`b`, resolved from the flash-control bit of `ctrl` and the palette and flash flags of `s`. -/
def palette_write_colour (s : Video) (ctrl b : Nat) : Nat :=
  if b &&& 8 ≠ 0 ∧ ctrl &&& 1 ≠ 0 ∧ s.nula_flash (b &&& 7) ≠ 0 then s.nula_collook (b &&& 15)
  else s.nula_collook ((b &&& 15) ^^^ 7)

/-- A state in which `nula_putpixel` blanks to the right of the displayed width: the
high-frequency clock selected (`crtc_mode = 1`) and a left blank of 1 programmed through the
NULA control register, with `nula_left_edge = 0` and `crtc[1] = 0`. -/
def blank_cut_example : Video :=
  videoula_write 2 0x31 (videoula_write 0 0x10 { power_on with colblack := 0xFF000000 })

/-! ## Auxiliary lemmas -/

@[simp] theorem setAt_same (a : Nat → Nat) (i v : Nat) : setAt a i v i = v := by
  simp [setAt]

theorem setAt_ne (a : Nat → Nat) {i k : Nat} (v : Nat) (h : k ≠ i) : setAt a i v k = a k := by
  simp [setAt, h]

theorem crtc_mask_of_ge {reg : Nat} (h : 18 ≤ reg) : crtc_mask reg = 0 := by
  unfold crtc_mask
  exact List.getD_eq_default _ _ (by simpa [crtc_mask_init] using h)

theorem crtc_mask_lt (reg : Nat) : crtc_mask reg < 256 := by
  by_cases h : reg < 18
  · interval_cases reg <;> decide
  · rw [crtc_mask_of_ge (by omega)]; decide

theorem crtc_mask_and_compl (reg : Nat) : crtc_mask reg &&& (0xFF ^^^ crtc_mask reg) = 0 := by
  by_cases h : reg < 18
  · interval_cases reg <;> decide
  · rw [crtc_mask_of_ge (by omega)]; decide

theorem and_mask_and_compl (v reg : Nat) :
    (v &&& crtc_mask reg) &&& (0xFF ^^^ crtc_mask reg) = 0 := by
  rw [Nat.and_assoc, crtc_mask_and_compl]; simp

theorem and_mask_lt (v reg : Nat) : v &&& crtc_mask reg < 256 :=
  lt_of_le_of_lt Nat.and_le_right (crtc_mask_lt reg)

theorem crtc_setreg_crtc (reg val : Nat) (s : Video) :
    (crtc_setreg reg val s).crtc = setAt s.crtc reg (val &&& crtc_mask reg) := by
  unfold crtc_setreg set_intern_dtype
  dsimp only
  split_ifs <;> rfl

theorem crtc_setreg_crtc_i (reg val : Nat) (s : Video) :
    (crtc_setreg reg val s).crtc_i = s.crtc_i := by
  unfold crtc_setreg set_intern_dtype
  dsimp only
  split_ifs <;> rfl

theorem MaskInv_setAt (s t : Video) (reg val : Nat) (h : MaskInv s)
    (ht : t.crtc = setAt s.crtc reg val)
    (hv : val &&& (0xFF ^^^ crtc_mask reg) = 0 ∧ val < 256) : MaskInv t := by
  intro i hi
  rw [ht]
  by_cases hir : i = reg
  · subst hir; simpa using hv
  · rw [setAt_ne _ _ hir]; exact h i hi

theorem MaskInv_setreg {s : Video} (reg val : Nat) (h : MaskInv s) :
    MaskInv (crtc_setreg reg val s) :=
  MaskInv_setAt s _ reg _ h (crtc_setreg_crtc reg val s)
    ⟨and_mask_and_compl val reg, and_mask_lt val reg⟩

theorem MaskInv_foldl_setreg (byte : Nat → Nat) (l : List Nat) :
    ∀ s : Video, MaskInv s → MaskInv (l.foldl (fun s c => crtc_setreg c (byte c) s) s) := by
  induction l with
  | nil => intro s h; exact h
  | cons c l ih => intro s h; exact ih _ (MaskInv_setreg c (byte c) h)

theorem MaskInv_run (c : CrtcCall) {s : Video} (h : MaskInv s) : MaskInv (c.run s) := by
  cases c with
  | reset =>
    exact MaskInv_setAt s (crtc_reset s) 9 10 h rfl (by decide)
  | write addr val =>
    show MaskInv (crtc_write addr val s)
    unfold crtc_write
    dsimp only
    split_ifs
    · exact h
    · exact MaskInv_setreg _ _ h
  | latchpen =>
    show MaskInv (crtc_latchpen s)
    unfold crtc_latchpen
    refine MaskInv_setAt { s with crtc := setAt s.crtc 0x10 ((s.ma >>> 8) &&& 0x3F) } _
      0x11 (s.ma &&& 0xFF)
      (MaskInv_setAt s { s with crtc := setAt s.crtc 0x10 ((s.ma >>> 8) &&& 0x3F) }
        0x10 ((s.ma >>> 8) &&& 0x3F) h rfl ?_) rfl ?_
    · have := and_mask_and_compl (s.ma >>> 8) 0x10
      have := and_mask_lt (s.ma >>> 8) 0x10
      simp_all [crtc_mask, crtc_mask_init]
    · have := and_mask_and_compl s.ma 0x11
      have := and_mask_lt s.ma 0x11
      simp_all [crtc_mask, crtc_mask_init]
  | loadstate bytes =>
    show MaskInv (crtc_loadstate bytes s)
    unfold crtc_loadstate
    exact MaskInv_foldl_setreg _ _ _ h

theorem MaskInv_runCrtc (calls : List CrtcCall) :
    ∀ s : Video, MaskInv s → MaskInv (runCrtc calls s) := by
  induction calls with
  | nil => intro s h; exact h
  | cons c l ih => intro s h; exact ih _ (MaskInv_run c h)

/-! ## CRTC register file -/

/-- C1: for every register index `i` in 0..31 and every byte `v`, after a write of `i` to an
even address and a write of `v` to an odd address, a read at an odd address returns
`v AND crtc_mask[i]` (which is 0 for the indices 18..31) and a read at an even address
returns `i`. -/
theorem crtc_read_after_write (s : Video) (a0 a1 a2 a3 i v : Nat) (hi : i < 32) (hv : v < 256)
    (h0 : a0 % 2 = 0) (h1 : a1 % 2 = 1) (h2 : a2 % 2 = 1) (h3 : a3 % 2 = 0) :
    crtc_read a2 (crtc_write a1 v (crtc_write a0 i s)) = v &&& crtc_mask i
      ∧ (18 ≤ i → crtc_read a2 (crtc_write a1 v (crtc_write a0 i s)) = 0)
      ∧ crtc_read a3 (crtc_write a1 v (crtc_write a0 i s)) = i := by
  have hi31 : i % 256 &&& 31 = i := by
    rw [Nat.mod_eq_of_lt (by omega)]
    have := Nat.and_pow_two_sub_one_eq_mod i 5
    simpa [Nat.mod_eq_of_lt hi] using this
  have hw0 : crtc_write a0 i s = { s with crtc_i := i } := by
    simp [crtc_write, Nat.and_one_is_mod, h0, hi31]
  have hw1 : crtc_write a1 v { s with crtc_i := i } = crtc_setreg i v { s with crtc_i := i } := by
    simp [crtc_write, Nat.and_one_is_mod, h1, Nat.mod_eq_of_lt hv]
  have hodd : crtc_read a2 (crtc_write a1 v (crtc_write a0 i s)) = v &&& crtc_mask i := by
    rw [hw0, hw1]
    simp [crtc_read, Nat.and_one_is_mod, h2, crtc_setreg_crtc, crtc_setreg_crtc_i,
      Nat.mod_eq_of_lt (and_mask_lt v i)]
  refine ⟨hodd, fun h18 => ?_, ?_⟩
  · rw [hodd, crtc_mask_of_ge h18]; simp
  · rw [hw0, hw1]
    simp [crtc_read, Nat.and_one_is_mod, h3, crtc_setreg_crtc_i]
    omega

/-- Witness of C1: register 4 (mask 0x7F) written with 0xFF reads back 0x7F. -/
theorem crtc_read_after_write_witness :
    crtc_read 1 (crtc_write 1 0xFF (crtc_write 0 4 power_on)) = 0xFF &&& crtc_mask 4
      ∧ (18 ≤ 4 → crtc_read 1 (crtc_write 1 0xFF (crtc_write 0 4 power_on)) = 0)
      ∧ crtc_read 0 (crtc_write 1 0xFF (crtc_write 0 4 power_on)) = 4 :=
  crtc_read_after_write power_on 0 1 1 0 4 0xFF (by decide) (by decide) (by decide) (by decide)
    (by decide) (by decide)

/-- C2: starting from an all-zero register file, after any sequence of `crtc_reset`,
`crtc_write`, `crtc_latchpen` and `crtc_loadstate` calls with arbitrary arguments, every
register `i` in 0..31 is a byte with `crtc[i] AND (NOT crtc_mask[i]) = 0`, the complement
being taken in 8 bits. -/
theorem crtc_only_masked_bits_stored (s0 : Video) (hzero : ∀ i, i < 32 → s0.crtc i = 0)
    (calls : List CrtcCall) (i : Nat) (hi : i < 32) :
    (runCrtc calls s0).crtc i &&& (0xFF ^^^ crtc_mask i) = 0 ∧ (runCrtc calls s0).crtc i < 256 := by
  have h0 : MaskInv s0 := by
    intro k hk
    rw [hzero k hk]
    simp
  exact MaskInv_runCrtc calls s0 h0 i hi

/-- Witness of C2: a reset, a write of 0xFF to register 8, a light-pen latch and a
state load from power-on, looked at register 8. -/
theorem crtc_only_masked_bits_stored_witness :
    (runCrtc [CrtcCall.reset, CrtcCall.write 0 8, CrtcCall.write 1 0xFF, CrtcCall.latchpen,
        CrtcCall.loadstate (fun _ => 0xFF)] power_on).crtc 8 &&& (0xFF ^^^ crtc_mask 8) = 0
      ∧ (runCrtc [CrtcCall.reset, CrtcCall.write 0 8, CrtcCall.write 1 0xFF, CrtcCall.latchpen,
        CrtcCall.loadstate (fun _ => 0xFF)] power_on).crtc 8 < 256 :=
  crtc_only_masked_bits_stored power_on (fun _ _ => rfl) _ 8 (by decide)

/-- C7, as stated, fails: after `crtc_reset` from power-on, register 5 (vertical total
adjust) holds 0, not 10. -/
theorem crtc_reset_reg5_counterexample : (crtc_reset power_on).crtc 5 ≠ 10 := by
  decide

/-- C7 amended: after `crtc_reset` the counters `hc`, `vc`, `sc` and `vadj` are 0, register 9
(maximum scanline address) holds 10, and every other register, register 5 included, keeps
its value. -/
theorem crtc_reset_effect (s : Video) :
    (crtc_reset s).hc = 0 ∧ (crtc_reset s).vc = 0 ∧ (crtc_reset s).sc = 0
      ∧ (crtc_reset s).vadj = 0 ∧ (crtc_reset s).crtc 9 = 10
      ∧ (crtc_reset s).crtc 5 = s.crtc 5
      ∧ ∀ i, i ≠ 9 → (crtc_reset s).crtc i = s.crtc i := by
  refine ⟨rfl, rfl, rfl, rfl, by simp [crtc_reset], by simp [crtc_reset, setAt], ?_⟩
  intro i hi
  simp [crtc_reset, setAt, hi]

/-- C8, as stated, fails: with the index register at 4 (vertical total), the vertical
counter at 5 and `vdispen` set, a data write of 5 leaves `vdispen` equal to 1. -/
theorem crtc_write_vtotal_counterexample :
    (crtc_write 1 5 { power_on with crtc_i := 4, vc := 5, vdispen := 1 }).vdispen ≠ 0 := by
  decide

/-- C8 amended: when the index register selects register 6 (vertical displayed) and the masked
value `v AND 0x7F` equals the vertical counter, a data-port write of the byte `v` leaves
`vdispen` equal to 0; when the index register selects any other register (register 4
included) the write leaves `vdispen` unchanged. -/
theorem crtc_write_vdispen (s : Video) (addr v : Nat) (haddr : addr % 2 = 1) (hv : v < 256) :
    (s.crtc_i = 6 → v &&& 0x7F = s.vc → (crtc_write addr v s).vdispen = 0)
      ∧ (s.crtc_i ≠ 6 → (crtc_write addr v s).vdispen = s.vdispen) := by
  have hw : crtc_write addr v s = crtc_setreg s.crtc_i v s := by
    simp [crtc_write, Nat.and_one_is_mod, haddr, Nat.mod_eq_of_lt hv]
  rw [hw]
  constructor
  · intro h6 hvc
    have hm : crtc_mask 6 = 0x7F := by decide
    simp [crtc_setreg, h6, hm, hvc]
  · intro h6
    unfold crtc_setreg set_intern_dtype
    dsimp only
    split_ifs <;> simp_all

/-- Witness of C8 amended: index 6, vertical counter 5, `vdispen` set, data write of 0x85. -/
theorem crtc_write_vdispen_witness :
    (crtc_write 1 0x85 { power_on with crtc_i := 6, vc := 5, vdispen := 1 }).vdispen = 0 :=
  (crtc_write_vdispen { power_on with crtc_i := 6, vc := 5, vdispen := 1 } 1 0x85
    (by decide) (by decide)).1 rfl (by decide)

/-- C9: for every index `i` in 18..31 and every byte `v`, a data-port write made while the
index register equals `i` leaves registers 0..17, the counters `hc`, `vc`, `sc`, the addresses
`ma` and `maback`, `vdispen`, `ttxbank` and the internal display type unchanged. -/
theorem crtc_write_unmodelled_register (s : Video) (addr i v : Nat) (haddr : addr % 2 = 1)
    (hlo : 18 ≤ i) (hhi : i < 32) (hidx : s.crtc_i = i) (hv : v < 256) :
    (∀ k, k < 18 → (crtc_write addr v s).crtc k = s.crtc k)
      ∧ (crtc_write addr v s).hc = s.hc ∧ (crtc_write addr v s).vc = s.vc
      ∧ (crtc_write addr v s).sc = s.sc ∧ (crtc_write addr v s).ma = s.ma
      ∧ (crtc_write addr v s).maback = s.maback ∧ (crtc_write addr v s).vdispen = s.vdispen
      ∧ (crtc_write addr v s).ttxbank = s.ttxbank
      ∧ (crtc_write addr v s).vid_dtype_intern = s.vid_dtype_intern := by
  have hw : crtc_write addr v s = crtc_setreg i v s := by
    simp [crtc_write, Nat.and_one_is_mod, haddr, Nat.mod_eq_of_lt hv, hidx]
  have h6 : i ≠ 6 := by omega
  have h8 : i ≠ 8 := by omega
  have h12 : i ≠ 12 := by omega
  have hs : crtc_setreg i v s = { s with crtc := setAt s.crtc i (v &&& crtc_mask i) } := by
    simp [crtc_setreg, hidx, h6, h8, h12]
  rw [hw, hs]
  refine ⟨?_, rfl, rfl, rfl, rfl, rfl, rfl, rfl, rfl⟩
  intro k hk
  exact setAt_ne _ _ (by omega)

/-- Witness of C9: index 31, data write of 0xFF from power-on; registers 8 and 12 and
`vdispen` are unchanged. -/
theorem crtc_write_unmodelled_register_witness :
    (crtc_write 1 0xFF { power_on with crtc_i := 31 }).crtc 8 = power_on.crtc 8
      ∧ (crtc_write 1 0xFF { power_on with crtc_i := 31 }).crtc 12 = power_on.crtc 12
      ∧ (crtc_write 1 0xFF { power_on with crtc_i := 31 }).vdispen = power_on.vdispen :=
  have h := crtc_write_unmodelled_register { power_on with crtc_i := 31 } 1 31 0xFF
    (by decide) (by decide) (by decide) rfl (by decide)
  ⟨h.1 8 (by decide), h.1 12 (by decide), h.2.2.2.2.2.2.1⟩

/-! ## Video ULA: loops and ports -/

theorem setAt_setAt (a : Nat → Nat) (i v w : Nat) : setAt (setAt a i v) i w = setAt a i w := by
  funext k
  simp only [setAt]
  split_ifs <;> rfl

theorem foldl_pal_loop (body : Video → Nat → Video) (f : Video → Nat → Nat)
    (hbody : ∀ s c, body s c = { s with ula_pal := setAt s.ula_pal c (f s c) })
    (hf : ∀ (s : Video) (p : Nat → Nat) (c : Nat), f { s with ula_pal := p } c = f s c)
    (n : Nat) (s : Video) :
    (List.range n).foldl body s
      = { s with ula_pal := fun k => if k < n then f s k else s.ula_pal k } := by
  induction n with
  | zero => simp
  | succ n ih =>
    rw [List.range_succ, List.foldl_append, ih]
    simp only [List.foldl_cons, List.foldl_nil]
    rw [hbody, hf]
    congr 2
    funext k
    by_cases hk : k = n
    · subst hk
      simp [setAt]
    · simp only [setAt, if_neg hk]
      split_ifs <;> first | rfl | omega

theorem ctrl_flash_on_loop (s : Video) :
    (List.range 16).foldl ctrl_flash_on_body s
      = { s with ula_pal := fun k => if k < 16 then flash_on_colour s k else s.ula_pal k } := by
  apply foldl_pal_loop
  · intro s c
    unfold ctrl_flash_on_body flash_on_colour
    split_ifs <;> rfl
  · intro s p c
    rfl

theorem ctrl_flash_off_loop (s : Video) :
    (List.range 16).foldl ctrl_flash_off_body s
      = { s with ula_pal := fun k => if k < 16 then flash_off_colour s k else s.ula_pal k } := by
  apply foldl_pal_loop
  · intro s c
    rfl
  · intro s p c
    rfl

theorem nula_commit_loop (s : Video) :
    (List.range 16).foldl nula_commit_body s
      = { s with ula_pal := fun k => if k < 16 then commit_colour s k else s.ula_pal k } := by
  apply foldl_pal_loop
  · intro s c
    unfold nula_commit_body commit_colour
    dsimp only
    split_ifs
    · rw [setAt_setAt]
    · rfl
  · intro s p c
    rfl

theorem and_three_of_clear_bit1 (addr : Nat) : (addr &&& 0xFFFD) &&& 3 = (addr &&& 3) &&& 1 := by
  rw [Nat.and_assoc, Nat.and_assoc]
  rfl

theorem videoula_write_ctrl_port (addr v : Nat) (s : Video) (h : addr &&& 3 = 0) :
    videoula_write addr v s = videoula_write_ctrl (v % 256) s := by
  unfold videoula_write
  dsimp only
  split_ifs
  · rw [and_three_of_clear_bit1, h]
  · rw [h]

theorem videoula_write_pal_port (addr v : Nat) (s : Video) (h : addr &&& 3 = 1) :
    videoula_write addr v s = videoula_write_pal (v % 256) s := by
  unfold videoula_write
  dsimp only
  split_ifs
  · rw [and_three_of_clear_bit1, h]
  · rw [h]

theorem videoula_write_nula_pal_port (addr v : Nat) (s : Video) (hdis : s.nula_disable = 0)
    (h : addr &&& 3 = 3) : videoula_write addr v s = videoula_write_nula_pal (v % 256) s := by
  unfold videoula_write
  simp only [hdis, ne_eq, not_true_eq_false, if_false, h]

theorem videoula_write_ctrl_fields (val : Nat) (s : Video) :
    (videoula_write_ctrl val s).ula_palbak = s.ula_palbak
      ∧ (videoula_write_ctrl val s).nula_flash = s.nula_flash
      ∧ (videoula_write_ctrl val s).nula_collook = s.nula_collook
      ∧ (videoula_write_ctrl val s).ula_ctrl = val
      ∧ (videoula_write_ctrl val s).nula_pal_write_flag = s.nula_pal_write_flag
      ∧ (videoula_write_ctrl val s).nula_pal_first_byte = s.nula_pal_first_byte
      ∧ (videoula_write_ctrl val s).nula_disable = s.nula_disable := by
  unfold videoula_write_ctrl set_intern_dtype
  rw [ctrl_flash_on_loop, ctrl_flash_off_loop]
  dsimp only
  split_ifs <;> simp

theorem videoula_write_ctrl_pal (val : Nat) (s : Video) :
    (videoula_write_ctrl val s).ula_pal
      = if (s.ula_ctrl ^^^ val) &&& 1 ≠ 0 then
          fun k => if k < 16 then ctrl_colour s val k else s.ula_pal k
        else s.ula_pal := by
  unfold videoula_write_ctrl set_intern_dtype ctrl_colour
  rw [ctrl_flash_on_loop, ctrl_flash_off_loop]
  dsimp only
  split_ifs <;> simp_all

theorem expand_nibble (r : Nat) (h : r < 16) : r ||| r <<< 4 = 17 * r := by
  interval_cases r <;> rfl

set_option maxRecDepth 20000 in
theorem high_nibble : ∀ b, b < 256 → (b &&& 0xf0) >>> 4 = b >>> 4 := by
  decide

theorem makecol_of_bytes (r g b : Nat) (hr : r < 256) (hg : g < 256) (hb : b < 256) :
    makecol r g b = 0xff000000 ||| (r <<< 16) ||| (g <<< 8) ||| b := by
  unfold makecol
  apply Nat.mod_eq_of_lt
  have h1 : r <<< 16 < 2 ^ 32 := by rw [Nat.shiftLeft_eq]; omega
  have h2 : g <<< 8 < 2 ^ 32 := by rw [Nat.shiftLeft_eq]; omega
  have h3 : b < 2 ^ 32 := by omega
  exact Nat.or_lt_two_pow (Nat.or_lt_two_pow (Nat.or_lt_two_pow (by decide) h1) h2) h3

/-- The colour committed by the NULA palette protocol for first byte `a` and second
byte `b`. -/
theorem nula_commit_colour (a b : Nat) (hb : b < 256) :
    makecol ((a &&& 0x0f) ||| (a &&& 0x0f) <<< 4)
        (((b &&& 0xf0) >>> 4) ||| ((b &&& 0xf0) >>> 4) <<< 4)
        ((b &&& 0x0f) ||| (b &&& 0x0f) <<< 4)
      = 0xFF000000 ||| ((17 * (a &&& 15)) <<< 16) ||| ((17 * (b >>> 4)) <<< 8)
          ||| (17 * (b &&& 15)) := by
  have ha15 : a &&& 15 < 16 := Nat.and_lt_two_pow a (n := 4) (by decide)
  have hb15 : b &&& 15 < 16 := Nat.and_lt_two_pow b (n := 4) (by decide)
  have hbh : b >>> 4 < 16 := by rw [Nat.shiftRight_eq_div_pow]; omega
  rw [high_nibble b hb]
  show makecol ((a &&& 15) ||| (a &&& 15) <<< 4) ((b >>> 4) ||| (b >>> 4) <<< 4)
    ((b &&& 15) ||| (b &&& 15) <<< 4) = _
  rw [expand_nibble _ ha15, expand_nibble _ hbh, expand_nibble _ hb15]
  exact makecol_of_bytes _ _ _ (by omega) (by omega) (by omega)

theorem videoula_write_nula_pal_first (val : Nat) (s : Video) (h : s.nula_pal_write_flag = 0) :
    videoula_write_nula_pal val s
      = { s with nula_pal_first_byte := val, nula_pal_write_flag := 1 } := by
  simp [videoula_write_nula_pal, h]

theorem videoula_write_nula_pal_second (val : Nat) (s : Video) (h : s.nula_pal_write_flag ≠ 0) :
    (videoula_write_nula_pal val s).nula_collook
        = setAt s.nula_collook (s.nula_pal_first_byte >>> 4)
            (makecol ((s.nula_pal_first_byte &&& 0x0f) ||| (s.nula_pal_first_byte &&& 0x0f) <<< 4)
              (((val &&& 0xf0) >>> 4) ||| ((val &&& 0xf0) >>> 4) <<< 4)
              ((val &&& 0x0f) ||| (val &&& 0x0f) <<< 4))
      ∧ (videoula_write_nula_pal val s).nula_pal_write_flag = 0 := by
  unfold videoula_write_nula_pal
  simp only [h, ne_eq, not_false_eq_true, if_true]
  rw [nula_commit_loop]
  dsimp only
  split_ifs <;> simp_all

/-! ## NULA palette protocol -/

/-- C3: with NULA not disabled and the two-byte flag clear, a write of the byte `a` to the
NULA palette port changes no `nula_collook` entry and no `ula_pal` entry and sets the flag;
the following write of the byte `b` to the same port sets `nula_collook[a >> 4]` to
`0xFF000000 | (17*(a & 15)) << 16 | (17*(b >> 4)) << 8 | 17*(b & 15)`, changes no other
`nula_collook` entry, and clears the flag again. -/
theorem nula_palette_two_byte_protocol (s : Video) (addr a b : Nat)
    (hdis : s.nula_disable = 0) (hflag : s.nula_pal_write_flag = 0) (haddr : addr &&& 3 = 3)
    (ha : a < 256) (hb : b < 256) :
    (∀ k, (videoula_write addr a s).nula_collook k = s.nula_collook k)
      ∧ (∀ k, (videoula_write addr a s).ula_pal k = s.ula_pal k)
      ∧ (videoula_write addr a s).nula_pal_write_flag = 1
      ∧ (videoula_write addr b (videoula_write addr a s)).nula_collook (a >>> 4)
          = 0xFF000000 ||| ((17 * (a &&& 15)) <<< 16) ||| ((17 * (b >>> 4)) <<< 8)
              ||| (17 * (b &&& 15))
      ∧ (∀ k, k ≠ a >>> 4 →
          (videoula_write addr b (videoula_write addr a s)).nula_collook k = s.nula_collook k)
      ∧ (videoula_write addr b (videoula_write addr a s)).nula_pal_write_flag = 0 := by
  have e1 : videoula_write addr a s
      = { s with nula_pal_first_byte := a, nula_pal_write_flag := 1 } := by
    rw [videoula_write_nula_pal_port addr a s hdis haddr, Nat.mod_eq_of_lt ha,
      videoula_write_nula_pal_first a s hflag]
  rw [e1]
  have e2 := videoula_write_nula_pal_second b
    { s with nula_pal_first_byte := a, nula_pal_write_flag := 1 } (by simp)
  rw [videoula_write_nula_pal_port addr b
    { s with nula_pal_first_byte := a, nula_pal_write_flag := 1 } hdis haddr, Nat.mod_eq_of_lt hb]
  refine ⟨fun _ => rfl, fun _ => rfl, rfl, ?_, ?_, e2.2⟩
  · rw [e2.1, setAt_same]
    exact nula_commit_colour a b hb
  · intro k hk
    rw [e2.1, setAt_ne _ _ hk]

/-- Witness of C3: the bytes 0x2A, 0x5C written to port 3 from power-on. -/
theorem nula_palette_two_byte_protocol_witness :
    (videoula_write 3 0x5C (videoula_write 3 0x2A power_on)).nula_collook (0x2A >>> 4)
        = 0xFF000000 ||| ((17 * (0x2A &&& 15)) <<< 16) ||| ((17 * (0x5C >>> 4)) <<< 8)
            ||| (17 * (0x5C &&& 15))
      ∧ (videoula_write 3 0x5C (videoula_write 3 0x2A power_on)).nula_pal_write_flag = 0 :=
  have h := nula_palette_two_byte_protocol power_on 3 0x2A 0x5C rfl rfl (by decide)
    (by decide) (by decide)
  ⟨h.2.2.2.1, h.2.2.2.2.2⟩

/-- C4: a pending first byte `a` survives a write of any byte `v` to the video control
register: the truecolour palette is unchanged and the flag is still set after it, and the
next write, of `b`, to the NULA palette port commits the colour for index `a >> 4` and clears
the flag. For the literal sequence 0x10, control 0x02, 0xFF, entry 1 is unchanged by the
first two writes and becomes 0xFF00FFFF (R=0, G=255, B=255). -/
theorem nula_pending_byte_survives_ctrl_write (s : Video) (a3 a0 a v b : Nat)
    (hdis : s.nula_disable = 0) (hflag : s.nula_pal_write_flag = 0)
    (h3 : a3 &&& 3 = 3) (h0 : a0 &&& 3 = 0) (ha : a < 256) (hb : b < 256) :
    (∀ k, (videoula_write a0 v (videoula_write a3 a s)).nula_collook k = s.nula_collook k)
      ∧ (videoula_write a0 v (videoula_write a3 a s)).nula_pal_write_flag = 1
      ∧ (videoula_write a3 b (videoula_write a0 v (videoula_write a3 a s))).nula_collook (a >>> 4)
          = 0xFF000000 ||| ((17 * (a &&& 15)) <<< 16) ||| ((17 * (b >>> 4)) <<< 8)
              ||| (17 * (b &&& 15))
      ∧ (∀ k, k ≠ a >>> 4 →
          (videoula_write a3 b (videoula_write a0 v (videoula_write a3 a s))).nula_collook k
            = s.nula_collook k)
      ∧ (videoula_write a3 b (videoula_write a0 v (videoula_write a3 a s))).nula_pal_write_flag = 0
      ∧ (a = 0x10 → b = 0xFF →
          (videoula_write a3 b (videoula_write a0 v (videoula_write a3 a s))).nula_collook 1
            = 0xFF00FFFF) := by
  have e1 : videoula_write a3 a s
      = { s with nula_pal_first_byte := a, nula_pal_write_flag := 1 } := by
    rw [videoula_write_nula_pal_port a3 a s hdis h3, Nat.mod_eq_of_lt ha,
      videoula_write_nula_pal_first a s hflag]
  rw [e1, videoula_write_ctrl_port a0 v _ h0]
  obtain ⟨-, -, fcol, -, fflag, ffirst, fdis⟩ := videoula_write_ctrl_fields (v % 256)
    { s with nula_pal_first_byte := a, nula_pal_write_flag := 1 }
  have hdis2 : (videoula_write_ctrl (v % 256)
      { s with nula_pal_first_byte := a, nula_pal_write_flag := 1 }).nula_disable = 0 := by
    rw [fdis]; exact hdis
  have e2 := videoula_write_nula_pal_second b (videoula_write_ctrl (v % 256)
    { s with nula_pal_first_byte := a, nula_pal_write_flag := 1 }) (by rw [fflag]; simp)
  rw [videoula_write_nula_pal_port a3 b _ hdis2 h3, Nat.mod_eq_of_lt hb]
  rw [ffirst, fcol] at e2
  have hcol : (videoula_write_nula_pal b (videoula_write_ctrl (v % 256)
      { s with nula_pal_first_byte := a, nula_pal_write_flag := 1 })).nula_collook (a >>> 4)
        = 0xFF000000 ||| ((17 * (a &&& 15)) <<< 16) ||| ((17 * (b >>> 4)) <<< 8)
            ||| (17 * (b &&& 15)) := by
    rw [e2.1]
    show setAt s.nula_collook (a >>> 4) _ (a >>> 4) = _
    rw [setAt_same]
    exact nula_commit_colour a b hb
  refine ⟨fun k => by rw [fcol], by rw [fflag], hcol, ?_, e2.2, ?_⟩
  · intro k hk
    rw [e2.1]
    exact setAt_ne _ _ hk
  · intro ha10 hbff
    subst ha10 hbff
    exact hcol

/-- Witness of C4: the literal sequence 0x10, control 0x02, 0xFF from power-on. -/
theorem nula_pending_byte_survives_ctrl_write_witness :
    (videoula_write 0 0x02 (videoula_write 3 0x10 power_on)).nula_pal_write_flag = 1
      ∧ (videoula_write 3 0xFF (videoula_write 0 0x02 (videoula_write 3 0x10 power_on))).nula_collook 1
          = 0xFF00FFFF :=
  have h := nula_pending_byte_survives_ctrl_write power_on 3 0 0x10 0x02 0xFF rfl rfl
    (by decide) (by decide) (by decide) (by decide)
  ⟨h.2.1, h.2.2.2.2.2 rfl rfl⟩

/-! ## Flash control and the active colour map -/

theorem ctrl_colour_congr (s t : Video) (c d k : Nat) (hp : t.ula_palbak = s.ula_palbak)
    (hf : t.nula_flash = s.nula_flash) (hl : t.nula_collook = s.nula_collook)
    (hcd : c &&& 1 = d &&& 1) : ctrl_colour t c k = ctrl_colour s d k := by
  unfold ctrl_colour flash_on_colour flash_off_colour
  rw [hp, hf, hl, hcd]

theorem xor_one_xor_self (c : Nat) : (c ^^^ 1) ^^^ c = 1 := by
  rw [Nat.xor_comm c 1, Nat.xor_assoc, Nat.xor_self]
  rfl

/-- C5, as stated, fails: after a NULA reset from power-on the active map is still all zero
while the truecolour palette is the default one; writing the control register with the flash
bit set and then clear again leaves `ula_pal[0]` white instead of its prior value 0. -/
theorem flash_toggle_twice_counterexample :
    ¬ ∀ k, k < 16 →
      (videoula_write 0 0 (videoula_write 0 (0 ^^^ 1) (videoula_write 2 0x40 power_on))).ula_pal k
        = (videoula_write 2 0x40 power_on).ula_pal k := by
  intro h
  exact absurd (h 0 (by decide)) (by decide)

/-- C5 amended: for every ULA state in which each of the 16 active map entries already holds
the colour that the control-register flash recomputation assigns to its backing code under
the current flash bit, and every control byte `c` carrying the current flash bit, writing
`c XOR 1` and then `c` to the control register leaves all 16 entries of `ula_pal` equal to
their values before the two writes. -/
theorem flash_toggle_twice_keeps_resolved_map (s : Video) (a1 a2 c : Nat)
    (h1 : a1 &&& 3 = 0) (h2 : a2 &&& 3 = 0) (hc : c < 256) (hbit : c &&& 1 = s.ula_ctrl &&& 1)
    (hres : ∀ k, k < 16 → s.ula_pal k = ctrl_colour s s.ula_ctrl k) :
    ∀ k, k < 16 → (videoula_write a2 c (videoula_write a1 (c ^^^ 1) s)).ula_pal k = s.ula_pal k := by
  intro k hk
  have hc1 : c ^^^ 1 < 256 := Nat.xor_lt_two_pow (n := 8) hc (by decide)
  rw [videoula_write_ctrl_port a1 _ s h1, videoula_write_ctrl_port a2 _ _ h2,
    Nat.mod_eq_of_lt hc, Nat.mod_eq_of_lt hc1, videoula_write_ctrl_pal]
  obtain ⟨fpal, fflash, fcol, fctrl, -, -, -⟩ := videoula_write_ctrl_fields (c ^^^ 1) s
  have hx : ((videoula_write_ctrl (c ^^^ 1) s).ula_ctrl ^^^ c) &&& 1 ≠ 0 := by
    rw [fctrl, xor_one_xor_self]; decide
  rw [if_pos hx]
  simp only [hk, if_true]
  rw [hres k hk]
  exact ctrl_colour_congr s _ c s.ula_ctrl k fpal fflash fcol hbit

/-- Witness of C5 amended: the state reached from power-on by a NULA reset, a palette write
of 0x08 and a write of 0 and then 1 to the control register has a resolved map with the flash
bit set; toggle it with the control byte 0x9D and look at entries 0 and 15. -/
theorem flash_toggle_twice_keeps_resolved_map_witness :
    (videoula_write 0 0x9D (videoula_write 0 (0x9D ^^^ 1)
        (videoula_write 0 1 (videoula_write 0 0 (videoula_write 1 0x08
          (videoula_write 2 0x40 power_on)))))).ula_pal 0
        = (videoula_write 0 1 (videoula_write 0 0 (videoula_write 1 0x08
            (videoula_write 2 0x40 power_on)))).ula_pal 0
      ∧ (videoula_write 0 0x9D (videoula_write 0 (0x9D ^^^ 1)
        (videoula_write 0 1 (videoula_write 0 0 (videoula_write 1 0x08
          (videoula_write 2 0x40 power_on)))))).ula_pal 15
        = (videoula_write 0 1 (videoula_write 0 0 (videoula_write 1 0x08
            (videoula_write 2 0x40 power_on)))).ula_pal 15 :=
  have h := flash_toggle_twice_keeps_resolved_map
    (videoula_write 0 1 (videoula_write 0 0 (videoula_write 1 0x08
      (videoula_write 2 0x40 power_on)))) 0 0 0x9D
    (by decide) (by decide) (by decide) (by decide) (by decide)
  ⟨h 0 (by decide), h 15 (by decide)⟩

/-- C6, the code at the failing input: with the flash bit set, flash group 0 disabled and
flash group 7 enabled, a palette write of 0x08 stores white (0xFFFFFFFF) in `ula_pal[0]` and
8 in `ula_palbak[0]`, while the control-register flash recomputation assigns black
(0xFF000000) to an entry holding that backing code, both as the formula of the
recomputation loop and as the result of forcing the recomputation by two control writes. -/
theorem palette_write_flash_group_divergence :
    (videoula_write 1 0x08 (videoula_write 0 1 (videoula_write 2 0x80
        (videoula_write 2 0x40 power_on)))).ula_pal 0 = 0xFFFFFFFF
      ∧ (videoula_write 1 0x08 (videoula_write 0 1 (videoula_write 2 0x80
        (videoula_write 2 0x40 power_on)))).ula_palbak 0 = 8
      ∧ ctrl_colour (videoula_write 1 0x08 (videoula_write 0 1 (videoula_write 2 0x80
          (videoula_write 2 0x40 power_on)))) 1 0 = 0xFF000000
      ∧ (videoula_write 0 1 (videoula_write 0 0 (videoula_write 1 0x08 (videoula_write 0 1
          (videoula_write 2 0x80 (videoula_write 2 0x40 power_on)))))).ula_pal 0 = 0xFF000000 := by
  decide

/-! ## Teletext flash timer -/

theorem video_poll_flash_n_add (a b : Nat) :
    ∀ s : Video, video_poll_flash_n (a + b) s = video_poll_flash_n b (video_poll_flash_n a s) := by
  induction a with
  | zero => intro s; simp [video_poll_flash_n]
  | succ a ih =>
    intro s
    rw [Nat.add_right_comm]
    exact ih (video_poll_flash s)

theorem flash_off_phase (k : Nat) :
    ∀ s : Video, s.mode7_flashon = 0 → s.mode7_flashtime + k < 16 →
      (video_poll_flash_n k s).mode7_flashon = 0
        ∧ (video_poll_flash_n k s).mode7_flashtime = s.mode7_flashtime + k := by
  induction k with
  | zero => intro s h _; exact ⟨h, rfl⟩
  | succ k ih =>
    intro s hon ht
    have hstep : video_poll_flash s = { s with mode7_flashtime := s.mode7_flashtime + 1 } := by
      unfold video_poll_flash
      dsimp only
      rw [if_neg]
      rintro (⟨h, -⟩ | ⟨-, h⟩)
      · exact h hon
      · omega
    have := ih (video_poll_flash s) (by rw [hstep]; exact hon) (by rw [hstep]; dsimp only; omega)
    show (video_poll_flash_n k (video_poll_flash s)).mode7_flashon = _
      ∧ (video_poll_flash_n k (video_poll_flash s)).mode7_flashtime = _
    refine ⟨this.1, ?_⟩
    rw [this.2, hstep]
    dsimp only
    omega

theorem flash_on_phase (k : Nat) :
    ∀ s : Video, s.mode7_flashon = 1 → s.mode7_flashtime + k < 32 →
      (video_poll_flash_n k s).mode7_flashon = 1
        ∧ (video_poll_flash_n k s).mode7_flashtime = s.mode7_flashtime + k := by
  induction k with
  | zero => intro s h _; exact ⟨h, rfl⟩
  | succ k ih =>
    intro s hon ht
    have hstep : video_poll_flash s = { s with mode7_flashtime := s.mode7_flashtime + 1 } := by
      unfold video_poll_flash
      dsimp only
      rw [if_neg]
      rintro (⟨-, h⟩ | ⟨h, -⟩)
      · omega
      · rw [hon] at h; exact absurd h (by decide)
    have := ih (video_poll_flash s) (by rw [hstep]; exact hon) (by rw [hstep]; dsimp only; omega)
    show (video_poll_flash_n k (video_poll_flash s)).mode7_flashon = _
      ∧ (video_poll_flash_n k (video_poll_flash s)).mode7_flashtime = _
    refine ⟨this.1, ?_⟩
    rw [this.2, hstep]
    dsimp only
    omega

theorem flash_off_flip (s : Video) (hon : s.mode7_flashon = 0) (ht : s.mode7_flashtime = 15) :
    (video_poll_flash s).mode7_flashon = 1 ∧ (video_poll_flash s).mode7_flashtime = 0 := by
  simp [video_poll_flash, hon, ht]

theorem flash_on_flip (s : Video) (hon : s.mode7_flashon = 1) (ht : s.mode7_flashtime = 31) :
    (video_poll_flash s).mode7_flashon = 0 ∧ (video_poll_flash s).mode7_flashtime = 0 := by
  simp [video_poll_flash, hon, ht]

theorem flash_off_sixteen (s : Video) (hon : s.mode7_flashon = 0) (ht : s.mode7_flashtime = 0) :
    (video_poll_flash_n 16 s).mode7_flashon = 1 ∧ (video_poll_flash_n 16 s).mode7_flashtime = 0 := by
  have h15 := flash_off_phase 15 s hon (by omega)
  have e : video_poll_flash_n 16 s = video_poll_flash (video_poll_flash_n 15 s) :=
    video_poll_flash_n_add 15 1 s
  rw [e]
  exact flash_off_flip _ h15.1 (by rw [h15.2, ht])

theorem flash_on_thirtytwo (s : Video) (hon : s.mode7_flashon = 1) (ht : s.mode7_flashtime = 0) :
    (video_poll_flash_n 32 s).mode7_flashon = 0 ∧ (video_poll_flash_n 32 s).mode7_flashtime = 0 := by
  have h31 := flash_on_phase 31 s hon (by omega)
  have e : video_poll_flash_n 32 s = video_poll_flash (video_poll_flash_n 31 s) :=
    video_poll_flash_n_add 31 1 s
  rw [e]
  exact flash_on_flip _ h31.1 (by rw [h31.2, ht])

/-- C10: counting only the flash update of each vertical-sync event and starting with the
timer at 0: from `mode7_flashon = 0` the flag is 0 after each of the first 15 events and 1,
with the timer back at 0, after the 16th; from `mode7_flashon = 1` the flag is 1 after each
of the first 31 events and 0, with the timer back at 0, after the 32nd; in both cases the
flag and the timer are back at their starting values after 48 events. -/
theorem mode7_flash_timing (s : Video) (htime : s.mode7_flashtime = 0) :
    (s.mode7_flashon = 0 →
        (∀ n, n < 16 → (video_poll_flash_n n s).mode7_flashon = 0)
          ∧ (video_poll_flash_n 16 s).mode7_flashon = 1
          ∧ (video_poll_flash_n 16 s).mode7_flashtime = 0
          ∧ (video_poll_flash_n 48 s).mode7_flashon = 0
          ∧ (video_poll_flash_n 48 s).mode7_flashtime = 0)
      ∧ (s.mode7_flashon = 1 →
        (∀ n, n < 32 → (video_poll_flash_n n s).mode7_flashon = 1)
          ∧ (video_poll_flash_n 32 s).mode7_flashon = 0
          ∧ (video_poll_flash_n 32 s).mode7_flashtime = 0
          ∧ (video_poll_flash_n 48 s).mode7_flashon = 1
          ∧ (video_poll_flash_n 48 s).mode7_flashtime = 0) := by
  constructor
  · intro hon
    have h16 := flash_off_sixteen s hon htime
    have e : video_poll_flash_n 48 s = video_poll_flash_n 32 (video_poll_flash_n 16 s) :=
      video_poll_flash_n_add 16 32 s
    have h48 := flash_on_thirtytwo _ h16.1 h16.2
    rw [← e] at h48
    exact ⟨fun n hn => (flash_off_phase n s hon (by omega)).1, h16.1, h16.2, h48.1, h48.2⟩
  · intro hon
    have h32 := flash_on_thirtytwo s hon htime
    have e : video_poll_flash_n 48 s = video_poll_flash_n 16 (video_poll_flash_n 32 s) :=
      video_poll_flash_n_add 32 16 s
    have h48 := flash_off_sixteen _ h32.1 h32.2
    rw [← e] at h48
    exact ⟨fun n hn => (flash_on_phase n s hon (by omega)).1, h32.1, h32.2, h48.1, h48.2⟩

/-- Witness of C10: from power-on (flash off, timer 0) the flag is still 0 after 15 events
and 1 after the 16th. -/
theorem mode7_flash_timing_witness :
    (video_poll_flash_n 15 power_on).mode7_flashon = 0
      ∧ (video_poll_flash_n 16 power_on).mode7_flashon = 1 :=
  have h := (mode7_flash_timing power_on rfl).1 rfl
  ⟨h.1 15 (by decide), h.2.1⟩

/-! ## Memory fetch -/

theorem bit15_of_range (a : Nat) (h1 : 0x8000 ≤ a) (h2 : a < 0x10000) : a &&& 0x8000 ≠ 0 := by
  intro h
  have h3 : (a &&& 0x8000).testBit 15 = true := by
    rw [Nat.testBit_and, Nat.testBit_to_div_mod]
    have h4 : a / 32768 % 2 = 1 := by omega
    have h5 : Nat.testBit 0x8000 15 = true := by decide
    simp [h4, h5]
  rw [h] at h3
  simp at h3

/-- C13: for every state with bit 13 of `ma` clear and `vidbank = 0` (any `sc`, `interlline`,
`crtc[8]` and `scrsize`), the RAM index of the bitmap fetch is at most 0x7FFF; and when
`scrsize` selects the 0x2000-byte screen length and the unwrapped 16-bit address lies in
0x8000..0x9FFF, the index is that address minus 0x2000 and lies in 0x6000..0x7FFF. -/
theorem video_fetch_index_in_ram (s : Video) (hma : s.ma &&& 0x2000 = 0) (hbank : s.vidbank = 0) :
    video_fetch_index s ≤ 0x7FFF
      ∧ (s.scrsize = 2 → 0x8000 ≤ video_bitmap_addr s → video_bitmap_addr s ≤ 0x9FFF →
          video_fetch_index s = video_bitmap_addr s - 0x2000
            ∧ 0x6000 ≤ video_fetch_index s ∧ video_fetch_index s ≤ 0x7FFF) := by
  have hidx : ∀ a : Nat, (a &&& 0x7FFF) ||| s.vidbank = a % 32768 := by
    intro a
    rw [hbank, Nat.or_zero]
    exact Nat.and_pow_two_sub_one_eq_mod a 15
  constructor
  · unfold video_fetch_index
    rw [if_neg (by simp [hma])]
    dsimp only
    rw [hidx]
    omega
  · intro hsz hlo hhi
    have hbit := bit15_of_range _ hlo (by omega)
    have e : video_fetch_index s = video_bitmap_addr s - 0x2000 := by
      unfold video_fetch_index
      rw [if_neg (by simp [hma])]
      dsimp only
      rw [if_pos hbit, hidx, hsz]
      have : screenlen 2 = 0x2000 := by decide
      rw [this]
      omega
    rw [e]
    omega

/-- Witness of C13: `ma = 0x1000`, `sc = 3`, screen length 0x2000: address 0x8003, index
0x6003. -/
theorem video_fetch_index_in_ram_witness :
    video_fetch_index { power_on with ma := 0x1000, sc := 3, scrsize := 2 } ≤ 0x7FFF
      ∧ video_fetch_index { power_on with ma := 0x1000, sc := 3, scrsize := 2 }
          = video_bitmap_addr { power_on with ma := 0x1000, sc := 3, scrsize := 2 } - 0x2000 :=
  have h := video_fetch_index_in_ram { power_on with ma := 0x1000, sc := 3, scrsize := 2 }
    (by decide) rfl
  ⟨h.1, (h.2 rfl (by decide) (by decide)).1⟩

/-! ## Pixel output and state files -/

theorem or_shift8 (lo hi : Nat) (h : lo < 256) : lo ||| (hi <<< 8) = hi * 256 + lo := by
  rw [Nat.or_comm, Nat.shiftLeft_eq, Nat.mul_comm hi]
  exact (Nat.mul_add_lt_is_or (i := 8) h hi).symm

theorem word16_roundtrip (m : Nat) (h : m < 65536) :
    ((m % 256) % 256 ||| ((((m >>> 8) % 256) % 256) <<< 8)) % 65536 = m := by
  rw [or_shift8 _ _ (by omega), Nat.shiftRight_eq_div_pow]
  omega

theorem crtc_mask_or_compl (reg : Nat) : crtc_mask reg ||| (0xFF ^^^ crtc_mask reg) = 0xFF := by
  by_cases h : reg < 18
  · interval_cases reg <;> decide
  · rw [crtc_mask_of_ge (by omega)]; decide

theorem and_mask_of_MaskInv {s : Video} (h : MaskInv s) (i : Nat) (hi : i < 32) :
    s.crtc i &&& crtc_mask i = s.crtc i := by
  obtain ⟨h1, h2⟩ := h i hi
  have h3 : s.crtc i &&& 0xFF = s.crtc i :=
    Nat.and_pow_two_sub_one_of_lt_two_pow (n := 8) h2
  rw [← crtc_mask_or_compl i, Nat.and_or_distrib_left, h1, Nat.or_zero] at h3
  exact h3


theorem crtc_setreg_frame (reg val : Nat) (s : Video) :
    (crtc_setreg reg val s).vc = s.vc ∧ (crtc_setreg reg val s).sc = s.sc
      ∧ (crtc_setreg reg val s).hc = s.hc ∧ (crtc_setreg reg val s).ma = s.ma
      ∧ (crtc_setreg reg val s).maback = s.maback := by
  unfold crtc_setreg set_intern_dtype
  dsimp only
  split_ifs <;> simp

theorem crtc_load_loop (byte : Nat → Nat) (n : Nat) (s : Video) :
    ((List.range n).foldl (fun s c => crtc_setreg c (byte c) s) s).crtc
        = (fun k => if k < n then byte k &&& crtc_mask k else s.crtc k)
      ∧ ((List.range n).foldl (fun s c => crtc_setreg c (byte c) s) s).vc = s.vc
      ∧ ((List.range n).foldl (fun s c => crtc_setreg c (byte c) s) s).sc = s.sc
      ∧ ((List.range n).foldl (fun s c => crtc_setreg c (byte c) s) s).hc = s.hc
      ∧ ((List.range n).foldl (fun s c => crtc_setreg c (byte c) s) s).ma = s.ma
      ∧ ((List.range n).foldl (fun s c => crtc_setreg c (byte c) s) s).maback = s.maback := by
  induction n with
  | zero => simp
  | succ n ih =>
    rw [List.range_succ, List.foldl_append]
    simp only [List.foldl_cons, List.foldl_nil]
    obtain ⟨h1, h2, h3, h4, h5, h6⟩ := ih
    obtain ⟨f1, f2, f3, f4, f5⟩ := crtc_setreg_frame n (byte n)
      ((List.range n).foldl (fun s c => crtc_setreg c (byte c) s) s)
    refine ⟨?_, by rw [f1, h2], by rw [f2, h3], by rw [f3, h4], by rw [f4, h5], by rw [f5, h6]⟩
    rw [crtc_setreg_crtc, h1]
    funext k
    by_cases hk : k = n
    · subst hk; simp [setAt]
    · simp only [setAt, if_neg hk]
      split_ifs <;> first | rfl | omega

theorem crtc_loadstate_fields (bytes : Nat → Nat) (t : Video) :
    (crtc_loadstate bytes t).crtc
        = (fun k => if k < 18 then bytes k % 256 &&& crtc_mask k else t.crtc k)
      ∧ (crtc_loadstate bytes t).vc = bytes 18 % 256
      ∧ (crtc_loadstate bytes t).sc = bytes 19 % 256
      ∧ (crtc_loadstate bytes t).hc = bytes 20 % 256
      ∧ (crtc_loadstate bytes t).ma = (bytes 21 % 256 ||| ((bytes 22 % 256) <<< 8)) % 65536
      ∧ (crtc_loadstate bytes t).maback
          = (bytes 23 % 256 ||| ((bytes 24 % 256) <<< 8)) % 65536 := by
  unfold crtc_loadstate
  dsimp only
  refine ⟨?_, ?_, ?_, ?_, ?_, ?_⟩
  · rw [(crtc_load_loop _ 18 _).1]
  · rw [(crtc_load_loop _ 18 _).2.1]
  · rw [(crtc_load_loop _ 18 _).2.2.1]
  · rw [(crtc_load_loop _ 18 _).2.2.2.1]
  · rw [(crtc_load_loop _ 18 _).2.2.2.2.1]
  · rw [(crtc_load_loop _ 18 _).2.2.2.2.2]

theorem crtc_savestate_eq (s : Video) :
    crtc_savestate s
      = [s.crtc 0 % 256, s.crtc 1 % 256, s.crtc 2 % 256, s.crtc 3 % 256, s.crtc 4 % 256,
         s.crtc 5 % 256, s.crtc 6 % 256, s.crtc 7 % 256, s.crtc 8 % 256, s.crtc 9 % 256,
         s.crtc 10 % 256, s.crtc 11 % 256, s.crtc 12 % 256, s.crtc 13 % 256, s.crtc 14 % 256,
         s.crtc 15 % 256, s.crtc 16 % 256, s.crtc 17 % 256, s.vc % 256, s.sc % 256, s.hc % 256,
         s.ma % 256, (s.ma >>> 8) % 256, s.maback % 256, (s.maback >>> 8) % 256] := by
  rfl

/-- C19: `crtc_savestate` emits exactly 25 bytes, in the order `crtc[0..17]`, `vc`, `sc`, `hc`,
`ma` low, `ma` high, `maback` low, `maback` high; and for every state that satisfies the
register-mask invariant with `hc`, `vc`, `sc` below 256 (`ma` and `maback` being 16-bit),
`crtc_loadstate` applied to those bytes from any prior state `t` restores `crtc[0..17]`, `vc`,
`sc`, `hc`, `ma` and `maback`. -/
theorem crtc_state_roundtrip (s t : Video) (hmask : MaskInv s) (hvc : s.vc < 256)
    (hsc : s.sc < 256) (hhc : s.hc < 256) (hma : s.ma < 65536) (hmaback : s.maback < 65536) :
    (crtc_savestate s).length = 25
      ∧ (∀ c, c < 18 → (crtc_savestate s).getD c 0 = s.crtc c)
      ∧ (crtc_savestate s).getD 18 0 = s.vc ∧ (crtc_savestate s).getD 19 0 = s.sc
      ∧ (crtc_savestate s).getD 20 0 = s.hc
      ∧ (crtc_savestate s).getD 21 0 = s.ma % 256
      ∧ (crtc_savestate s).getD 22 0 = (s.ma >>> 8) % 256
      ∧ (crtc_savestate s).getD 23 0 = s.maback % 256
      ∧ (crtc_savestate s).getD 24 0 = (s.maback >>> 8) % 256
      ∧ (∀ c, c < 18 →
          (crtc_loadstate (file_bytes (crtc_savestate s)) t).crtc c = s.crtc c)
      ∧ (crtc_loadstate (file_bytes (crtc_savestate s)) t).vc = s.vc
      ∧ (crtc_loadstate (file_bytes (crtc_savestate s)) t).sc = s.sc
      ∧ (crtc_loadstate (file_bytes (crtc_savestate s)) t).hc = s.hc
      ∧ (crtc_loadstate (file_bytes (crtc_savestate s)) t).ma = s.ma
      ∧ (crtc_loadstate (file_bytes (crtc_savestate s)) t).maback = s.maback := by
  have hb : ∀ c, c < 18 → (crtc_savestate s).getD c 0 = s.crtc c := by
    intro c hc
    have := (hmask c (by omega)).2
    rw [crtc_savestate_eq]
    interval_cases c <;> simpa using Nat.mod_eq_of_lt this
  have b18 : (crtc_savestate s).getD 18 0 = s.vc := by
    rw [crtc_savestate_eq]; simpa using Nat.mod_eq_of_lt hvc
  have b19 : (crtc_savestate s).getD 19 0 = s.sc := by
    rw [crtc_savestate_eq]; simpa using Nat.mod_eq_of_lt hsc
  have b20 : (crtc_savestate s).getD 20 0 = s.hc := by
    rw [crtc_savestate_eq]; simpa using Nat.mod_eq_of_lt hhc
  have b21 : (crtc_savestate s).getD 21 0 = s.ma % 256 := by
    rw [crtc_savestate_eq]; simp
  have b22 : (crtc_savestate s).getD 22 0 = (s.ma >>> 8) % 256 := by
    rw [crtc_savestate_eq]; simp
  have b23 : (crtc_savestate s).getD 23 0 = s.maback % 256 := by
    rw [crtc_savestate_eq]; simp
  have b24 : (crtc_savestate s).getD 24 0 = (s.maback >>> 8) % 256 := by
    rw [crtc_savestate_eq]; simp
  obtain ⟨l1, l2, l3, l4, l5, l6⟩ := crtc_loadstate_fields (file_bytes (crtc_savestate s)) t
  refine ⟨rfl, hb, b18, b19, b20, b21, b22, b23, b24, ?_, ?_, ?_, ?_, ?_, ?_⟩
  · intro c hc
    rw [l1]
    simp only [hc, if_true, file_bytes, hb c hc]
    rw [Nat.mod_eq_of_lt (hmask c (by omega)).2]
    exact and_mask_of_MaskInv hmask c (by omega)
  · rw [l2]
    simp only [file_bytes, b18]
    exact Nat.mod_eq_of_lt hvc
  · rw [l3]
    simp only [file_bytes, b19]
    exact Nat.mod_eq_of_lt hsc
  · rw [l4]
    simp only [file_bytes, b20]
    exact Nat.mod_eq_of_lt hhc
  · rw [l5]
    simp only [file_bytes, b21, b22]
    have := word16_roundtrip s.ma hma
    rw [Nat.mod_mod, Nat.mod_mod] at this
    rw [Nat.mod_mod, Nat.mod_mod]
    exact this
  · rw [l6]
    simp only [file_bytes, b23, b24]
    have := word16_roundtrip s.maback hmaback
    rw [Nat.mod_mod, Nat.mod_mod] at this
    rw [Nat.mod_mod, Nat.mod_mod]
    exact this

/-- Witness of C19: the state after writing 0x55 to register 13, with `vc = 3` and
`ma = 0x1234`, saved and loaded over the power-on state. -/
theorem crtc_state_roundtrip_witness :
    (crtc_savestate (runCrtc [CrtcCall.write 0 13, CrtcCall.write 1 0x55]
        { power_on with vc := 3, ma := 0x1234 })).length = 25
      ∧ (crtc_loadstate (file_bytes (crtc_savestate (runCrtc [CrtcCall.write 0 13,
          CrtcCall.write 1 0x55] { power_on with vc := 3, ma := 0x1234 }))) power_on).crtc 13
          = 0x55
      ∧ (crtc_loadstate (file_bytes (crtc_savestate (runCrtc [CrtcCall.write 0 13,
          CrtcCall.write 1 0x55] { power_on with vc := 3, ma := 0x1234 }))) power_on).ma
          = 0x1234 :=
  have h := crtc_state_roundtrip
    (runCrtc [CrtcCall.write 0 13, CrtcCall.write 1 0x55] { power_on with vc := 3, ma := 0x1234 })
    power_on
    (MaskInv_runCrtc _ _ (fun _ _ => ⟨Nat.zero_and _, Nat.zero_lt_succ _⟩)) (by decide) (by decide) (by decide)
    (by decide) (by decide)
  ⟨h.1, h.2.2.2.2.2.2.2.2.2.1 13 (by decide), h.2.2.2.2.2.2.2.2.2.2.2.2.2.1⟩

theorem videoula_savestate_eq (s : Video) :
    videoula_savestate s
      = [s.ula_ctrl % 256, s.ula_palbak 0 % 256, s.ula_palbak 1 % 256, s.ula_palbak 2 % 256,
         s.ula_palbak 3 % 256, s.ula_palbak 4 % 256, s.ula_palbak 5 % 256, s.ula_palbak 6 % 256,
         s.ula_palbak 7 % 256, s.ula_palbak 8 % 256, s.ula_palbak 9 % 256, s.ula_palbak 10 % 256,
         s.ula_palbak 11 % 256, s.ula_palbak 12 % 256, s.ula_palbak 13 % 256,
         s.ula_palbak 14 % 256, s.ula_palbak 15 % 256, (s.nula_collook 0 >>> 16) &&& 0xff,
         (s.nula_collook 0 >>> 8) &&& 0xff, s.nula_collook 0 &&& 0xff,
         (s.nula_collook 0 >>> 24) &&& 0xff, (s.nula_collook 1 >>> 16) &&& 0xff,
         (s.nula_collook 1 >>> 8) &&& 0xff, s.nula_collook 1 &&& 0xff,
         (s.nula_collook 1 >>> 24) &&& 0xff, (s.nula_collook 2 >>> 16) &&& 0xff,
         (s.nula_collook 2 >>> 8) &&& 0xff, s.nula_collook 2 &&& 0xff,
         (s.nula_collook 2 >>> 24) &&& 0xff, (s.nula_collook 3 >>> 16) &&& 0xff,
         (s.nula_collook 3 >>> 8) &&& 0xff, s.nula_collook 3 &&& 0xff,
         (s.nula_collook 3 >>> 24) &&& 0xff, (s.nula_collook 4 >>> 16) &&& 0xff,
         (s.nula_collook 4 >>> 8) &&& 0xff, s.nula_collook 4 &&& 0xff,
         (s.nula_collook 4 >>> 24) &&& 0xff, (s.nula_collook 5 >>> 16) &&& 0xff,
         (s.nula_collook 5 >>> 8) &&& 0xff, s.nula_collook 5 &&& 0xff,
         (s.nula_collook 5 >>> 24) &&& 0xff, (s.nula_collook 6 >>> 16) &&& 0xff,
         (s.nula_collook 6 >>> 8) &&& 0xff, s.nula_collook 6 &&& 0xff,
         (s.nula_collook 6 >>> 24) &&& 0xff, (s.nula_collook 7 >>> 16) &&& 0xff,
         (s.nula_collook 7 >>> 8) &&& 0xff, s.nula_collook 7 &&& 0xff,
         (s.nula_collook 7 >>> 24) &&& 0xff, (s.nula_collook 8 >>> 16) &&& 0xff,
         (s.nula_collook 8 >>> 8) &&& 0xff, s.nula_collook 8 &&& 0xff,
         (s.nula_collook 8 >>> 24) &&& 0xff, (s.nula_collook 9 >>> 16) &&& 0xff,
         (s.nula_collook 9 >>> 8) &&& 0xff, s.nula_collook 9 &&& 0xff,
         (s.nula_collook 9 >>> 24) &&& 0xff, (s.nula_collook 10 >>> 16) &&& 0xff,
         (s.nula_collook 10 >>> 8) &&& 0xff, s.nula_collook 10 &&& 0xff,
         (s.nula_collook 10 >>> 24) &&& 0xff, (s.nula_collook 11 >>> 16) &&& 0xff,
         (s.nula_collook 11 >>> 8) &&& 0xff, s.nula_collook 11 &&& 0xff,
         (s.nula_collook 11 >>> 24) &&& 0xff, (s.nula_collook 12 >>> 16) &&& 0xff,
         (s.nula_collook 12 >>> 8) &&& 0xff, s.nula_collook 12 &&& 0xff,
         (s.nula_collook 12 >>> 24) &&& 0xff, (s.nula_collook 13 >>> 16) &&& 0xff,
         (s.nula_collook 13 >>> 8) &&& 0xff, s.nula_collook 13 &&& 0xff,
         (s.nula_collook 13 >>> 24) &&& 0xff, (s.nula_collook 14 >>> 16) &&& 0xff,
         (s.nula_collook 14 >>> 8) &&& 0xff, s.nula_collook 14 &&& 0xff,
         (s.nula_collook 14 >>> 24) &&& 0xff, (s.nula_collook 15 >>> 16) &&& 0xff,
         (s.nula_collook 15 >>> 8) &&& 0xff, s.nula_collook 15 &&& 0xff,
         (s.nula_collook 15 >>> 24) &&& 0xff, s.nula_pal_write_flag % 256,
         s.nula_pal_first_byte % 256, s.nula_flash 0 % 256, s.nula_flash 1 % 256,
         s.nula_flash 2 % 256, s.nula_flash 3 % 256, s.nula_flash 4 % 256, s.nula_flash 5 % 256,
         s.nula_flash 6 % 256, s.nula_flash 7 % 256, s.nula_palette_mode % 256,
         s.nula_horizontal_offset % 256, s.nula_left_blank % 256, s.nula_disable % 256,
         s.nula_attribute_mode % 256, s.nula_attribute_text % 256] := by
  rfl

theorem word32_roundtrip (v : Nat) (h : v < 2 ^ 32) :
    (((((v >>> 24) &&& 0xff) % 256) <<< 24) ||| ((((v >>> 16) &&& 0xff) % 256) <<< 16)
      ||| ((((v >>> 8) &&& 0xff) % 256) <<< 8) ||| ((v &&& 0xff) % 256)) = v := by
  have e : ∀ x : Nat, x &&& 0xff = x % 256 := fun x => Nat.and_pow_two_sub_one_eq_mod x 8
  simp only [e, Nat.mod_mod, Nat.shiftRight_eq_div_pow, Nat.shiftLeft_eq]
  have h1 : v / 2 ^ 24 % 256 * 2 ^ 24 ||| v / 2 ^ 16 % 256 * 2 ^ 16
      = 2 ^ 16 * (v / 2 ^ 24 % 256 * 256 + v / 2 ^ 16 % 256) := by
    have := Nat.mul_add_lt_is_or (i := 24) (b := v / 2 ^ 16 % 256 * 2 ^ 16) (by omega)
      (v / 2 ^ 24 % 256)
    rw [Nat.mul_comm _ (2 ^ 24), ← this]
    omega
  have h2 : 2 ^ 16 * (v / 2 ^ 24 % 256 * 256 + v / 2 ^ 16 % 256) ||| v / 2 ^ 8 % 256 * 2 ^ 8
      = 2 ^ 8 * ((v / 2 ^ 24 % 256 * 256 + v / 2 ^ 16 % 256) * 256 + v / 2 ^ 8 % 256) := by
    have := Nat.mul_add_lt_is_or (i := 16) (b := v / 2 ^ 8 % 256 * 2 ^ 8) (by omega)
      (v / 2 ^ 24 % 256 * 256 + v / 2 ^ 16 % 256)
    rw [← this]
    omega
  rw [h1, h2, ← Nat.mul_add_lt_is_or (i := 8) (by omega)]
  omega

theorem palette_byte_decode : ∀ c, c < 16 → ∀ b, b < 16 →
    ((b ||| (c <<< 4)) % 256) >>> 4 = c ∧ ((b ||| (c <<< 4)) % 256) &&& 15 = b := by
  decide


theorem collook_load_loop (f : Nat → Nat) (n : Nat) (s : Video) :
    (List.range n).foldl (fun s c => { s with nula_collook := setAt s.nula_collook c (f c) }) s
      = { s with nula_collook := fun k => if k < n then f k else s.nula_collook k } := by
  induction n with
  | zero => simp
  | succ n ih =>
    rw [List.range_succ, List.foldl_append, ih]
    simp only [List.foldl_cons, List.foldl_nil]
    congr 2
    funext k
    by_cases hk : k = n
    · subst hk; simp [setAt]
    · simp only [setAt, if_neg hk]
      split_ifs <;> first | rfl | omega

theorem flash_load_loop (f : Nat → Nat) (n : Nat) (s : Video) :
    (List.range n).foldl (fun s c => { s with nula_flash := setAt s.nula_flash c (f c) }) s
      = { s with nula_flash := fun k => if k < n then f k else s.nula_flash k } := by
  induction n with
  | zero => simp
  | succ n ih =>
    rw [List.range_succ, List.foldl_append, ih]
    simp only [List.foldl_cons, List.foldl_nil]
    congr 2
    funext k
    by_cases hk : k = n
    · subst hk; simp [setAt]
    · simp only [setAt, if_neg hk]
      split_ifs <;> first | rfl | omega

theorem videoula_write_pal_fields (val : Nat) (s : Video) :
    (videoula_write_pal val s).ula_palbak = setAt s.ula_palbak (val >>> 4) (val &&& 15)
      ∧ (videoula_write_pal val s).ula_ctrl = s.ula_ctrl := by
  unfold videoula_write_pal
  dsimp only
  split_ifs <;> exact ⟨rfl, rfl⟩

theorem palbak_load_loop (b : Nat → Nat) (n : Nat) (hn : n ≤ 16) (hb : ∀ c, c < n → b c < 16)
    (s : Video) :
    ((List.range n).foldl (fun s c => videoula_write 1 (b c ||| (c <<< 4)) s) s).ula_palbak
        = (fun k => if k < n then b k else s.ula_palbak k)
      ∧ ((List.range n).foldl (fun s c => videoula_write 1 (b c ||| (c <<< 4)) s) s).ula_ctrl
        = s.ula_ctrl := by
  induction n with
  | zero => simp
  | succ n ih =>
    rw [List.range_succ, List.foldl_append]
    simp only [List.foldl_cons, List.foldl_nil]
    obtain ⟨h1, h2⟩ := ih (by omega) (fun c hc => hb c (by omega))
    rw [videoula_write_pal_port 1 _ _ (by decide)]
    obtain ⟨f1, f2⟩ := videoula_write_pal_fields ((b n ||| (n <<< 4)) % 256)
      ((List.range n).foldl (fun s c => videoula_write 1 (b c ||| (c <<< 4)) s) s)
    obtain ⟨d1, d2⟩ := palette_byte_decode n (by omega) (b n) (hb n (by omega))
    refine ⟨?_, by rw [f2, h2]⟩
    rw [f1, h1, d1, d2]
    funext k
    by_cases hk : k = n
    · subst hk; simp [setAt]
    · simp only [setAt, if_neg hk]
      split_ifs <;> first | rfl | omega

theorem videoula_loadstate_fields (bytes : Nat → Nat) (hb : ∀ c, c < 16 → bytes (1 + c) % 256 < 16)
    (t : Video) :
    (videoula_loadstate bytes t).ula_ctrl = bytes 0 % 256
      ∧ (∀ c, c < 16 → (videoula_loadstate bytes t).ula_palbak c = bytes (1 + c) % 256)
      ∧ (∀ c, c < 16 → (videoula_loadstate bytes t).nula_collook c
          = ((bytes (17 + 4 * c + 3) % 256) <<< 24) ||| ((bytes (17 + 4 * c) % 256) <<< 16)
              ||| ((bytes (17 + 4 * c + 1) % 256) <<< 8) ||| (bytes (17 + 4 * c + 2) % 256))
      ∧ (videoula_loadstate bytes t).nula_pal_write_flag = bytes 81 % 256
      ∧ (videoula_loadstate bytes t).nula_pal_first_byte = bytes 82 % 256
      ∧ (∀ c, c < 8 → (videoula_loadstate bytes t).nula_flash c = bytes (83 + c) % 256)
      ∧ (videoula_loadstate bytes t).nula_palette_mode = bytes 91 % 256
      ∧ (videoula_loadstate bytes t).nula_horizontal_offset = bytes 92 % 256
      ∧ (videoula_loadstate bytes t).nula_left_blank = bytes 93 % 256
      ∧ (videoula_loadstate bytes t).nula_disable = bytes 94 % 256
      ∧ (videoula_loadstate bytes t).nula_attribute_mode = bytes 95 % 256
      ∧ (videoula_loadstate bytes t).nula_attribute_text = bytes 96 % 256 := by
  obtain ⟨p1, p2⟩ := palbak_load_loop (fun c => bytes (1 + c) % 256) 16 (le_refl _) hb
    (videoula_write 0 (bytes 0 % 256) t)
  have c0 : (videoula_write 0 (bytes 0 % 256) t).ula_ctrl = bytes 0 % 256 := by
    rw [videoula_write_ctrl_port 0 _ _ (by decide), Nat.mod_mod]
    exact (videoula_write_ctrl_fields _ _).2.2.2.1
  unfold videoula_loadstate
  simp only [collook_load_loop, flash_load_loop]
  refine ⟨by rw [p2, c0], ?_, ?_, ?_⟩
  · intro c hc
    rw [p1]
    simp [hc]
  · intro c hc
    simp [hc]
  · refine ⟨trivial, trivial, ?_, trivial, trivial, trivial, trivial, trivial, trivial⟩
    intro c hc
    simp [hc]


/-- C20: `videoula_savestate` emits exactly 97 bytes, in the order `ula_ctrl`,
`ula_palbak[0..15]`, 16 colour entries each as red, green, blue, alpha, the two-byte-protocol
flag, the buffered first byte, `nula_flash[0..7]`, then palette mode, horizontal offset, left
blank, disable, attribute mode, attribute text; and `videoula_loadstate` applied to those
bytes from any prior state `t` restores `ula_ctrl`, the 4-bit `ula_palbak`, `nula_collook`,
the protocol flag and first byte, `nula_flash` and the six feature flags. -/
theorem videoula_state_roundtrip (s t : Video) (hs : UlaWellTyped s) :
    (videoula_savestate s).length = 97
      ∧ (videoula_savestate s).getD 0 0 = s.ula_ctrl
      ∧ (∀ c, c < 16 → (videoula_savestate s).getD (1 + c) 0 = s.ula_palbak c)
      ∧ (∀ c, c < 16 →
          (videoula_savestate s).getD (17 + 4 * c) 0 = (s.nula_collook c >>> 16) &&& 0xff
            ∧ (videoula_savestate s).getD (17 + 4 * c + 1) 0 = (s.nula_collook c >>> 8) &&& 0xff
            ∧ (videoula_savestate s).getD (17 + 4 * c + 2) 0 = s.nula_collook c &&& 0xff
            ∧ (videoula_savestate s).getD (17 + 4 * c + 3) 0 = (s.nula_collook c >>> 24) &&& 0xff)
      ∧ (videoula_savestate s).getD 81 0 = s.nula_pal_write_flag
      ∧ (videoula_savestate s).getD 82 0 = s.nula_pal_first_byte
      ∧ (∀ c, c < 8 → (videoula_savestate s).getD (83 + c) 0 = s.nula_flash c)
      ∧ (videoula_savestate s).getD 91 0 = s.nula_palette_mode
      ∧ (videoula_savestate s).getD 92 0 = s.nula_horizontal_offset
      ∧ (videoula_savestate s).getD 93 0 = s.nula_left_blank
      ∧ (videoula_savestate s).getD 94 0 = s.nula_disable
      ∧ (videoula_savestate s).getD 95 0 = s.nula_attribute_mode
      ∧ (videoula_savestate s).getD 96 0 = s.nula_attribute_text
      ∧ (videoula_loadstate (file_bytes (videoula_savestate s)) t).ula_ctrl = s.ula_ctrl
      ∧ (∀ c, c < 16 →
          (videoula_loadstate (file_bytes (videoula_savestate s)) t).ula_palbak c = s.ula_palbak c)
      ∧ (∀ c, c < 16 →
          (videoula_loadstate (file_bytes (videoula_savestate s)) t).nula_collook c
            = s.nula_collook c)
      ∧ (videoula_loadstate (file_bytes (videoula_savestate s)) t).nula_pal_write_flag
          = s.nula_pal_write_flag
      ∧ (videoula_loadstate (file_bytes (videoula_savestate s)) t).nula_pal_first_byte
          = s.nula_pal_first_byte
      ∧ (∀ c, c < 8 →
          (videoula_loadstate (file_bytes (videoula_savestate s)) t).nula_flash c = s.nula_flash c)
      ∧ (videoula_loadstate (file_bytes (videoula_savestate s)) t).nula_palette_mode
          = s.nula_palette_mode
      ∧ (videoula_loadstate (file_bytes (videoula_savestate s)) t).nula_horizontal_offset
          = s.nula_horizontal_offset
      ∧ (videoula_loadstate (file_bytes (videoula_savestate s)) t).nula_left_blank
          = s.nula_left_blank
      ∧ (videoula_loadstate (file_bytes (videoula_savestate s)) t).nula_disable = s.nula_disable
      ∧ (videoula_loadstate (file_bytes (videoula_savestate s)) t).nula_attribute_mode
          = s.nula_attribute_mode
      ∧ (videoula_loadstate (file_bytes (videoula_savestate s)) t).nula_attribute_text
          = s.nula_attribute_text := by
  obtain ⟨w0, wpal, wcol, wflag, wfirst, wflash, wpm, who, wlb, wdis, wam, wat⟩ := hs
  have b0 : (videoula_savestate s).getD 0 0 = s.ula_ctrl := by
    rw [videoula_savestate_eq]; simpa using Nat.mod_eq_of_lt w0
  have bpal : ∀ c, c < 16 → (videoula_savestate s).getD (1 + c) 0 = s.ula_palbak c := by
    intro c hc
    have := wpal c hc
    rw [videoula_savestate_eq]
    interval_cases c <;> simp <;> omega
  have bcol : ∀ c, c < 16 →
      (videoula_savestate s).getD (17 + 4 * c) 0 = (s.nula_collook c >>> 16) &&& 0xff
        ∧ (videoula_savestate s).getD (17 + 4 * c + 1) 0 = (s.nula_collook c >>> 8) &&& 0xff
        ∧ (videoula_savestate s).getD (17 + 4 * c + 2) 0 = s.nula_collook c &&& 0xff
        ∧ (videoula_savestate s).getD (17 + 4 * c + 3) 0 = (s.nula_collook c >>> 24) &&& 0xff := by
    intro c hc
    rw [videoula_savestate_eq]
    interval_cases c <;> exact ⟨rfl, rfl, rfl, rfl⟩
  have b81 : (videoula_savestate s).getD 81 0 = s.nula_pal_write_flag := by
    rw [videoula_savestate_eq]; simpa using Nat.mod_eq_of_lt wflag
  have b82 : (videoula_savestate s).getD 82 0 = s.nula_pal_first_byte := by
    rw [videoula_savestate_eq]; simpa using Nat.mod_eq_of_lt wfirst
  have bflash : ∀ c, c < 8 → (videoula_savestate s).getD (83 + c) 0 = s.nula_flash c := by
    intro c hc
    have := wflash c hc
    rw [videoula_savestate_eq]
    interval_cases c <;> simp <;> omega
  have b91 : (videoula_savestate s).getD 91 0 = s.nula_palette_mode := by
    rw [videoula_savestate_eq]; simpa using Nat.mod_eq_of_lt wpm
  have b92 : (videoula_savestate s).getD 92 0 = s.nula_horizontal_offset := by
    rw [videoula_savestate_eq]; simpa using Nat.mod_eq_of_lt who
  have b93 : (videoula_savestate s).getD 93 0 = s.nula_left_blank := by
    rw [videoula_savestate_eq]; simpa using Nat.mod_eq_of_lt wlb
  have b94 : (videoula_savestate s).getD 94 0 = s.nula_disable := by
    rw [videoula_savestate_eq]; simpa using Nat.mod_eq_of_lt wdis
  have b95 : (videoula_savestate s).getD 95 0 = s.nula_attribute_mode := by
    rw [videoula_savestate_eq]; simpa using Nat.mod_eq_of_lt wam
  have b96 : (videoula_savestate s).getD 96 0 = s.nula_attribute_text := by
    rw [videoula_savestate_eq]; simpa using Nat.mod_eq_of_lt wat
  obtain ⟨l0, lpal, lcol, lflag, lfirst, lflash, lpm, lho, llb, ldis, lam, lat⟩ :=
    videoula_loadstate_fields (file_bytes (videoula_savestate s))
      (fun c hc => by
        show (videoula_savestate s).getD (1 + c) 0 % 256 < 16
        rw [bpal c hc]
        have := wpal c hc
        omega) t
  refine ⟨rfl, b0, bpal, bcol, b81, b82, bflash, b91, b92, b93, b94, b95, b96, ?_, ?_, ?_, ?_,
    ?_, ?_, ?_, ?_, ?_, ?_, ?_, ?_⟩
  · rw [l0]; show (videoula_savestate s).getD 0 0 % 256 = _
    rw [b0]; exact Nat.mod_eq_of_lt w0
  · intro c hc
    rw [lpal c hc]; show (videoula_savestate s).getD (1 + c) 0 % 256 = _
    rw [bpal c hc]; have := wpal c hc; omega
  · intro c hc
    rw [lcol c hc]
    show (((videoula_savestate s).getD (17 + 4 * c + 3) 0 % 256) <<< 24)
      ||| (((videoula_savestate s).getD (17 + 4 * c) 0 % 256) <<< 16)
      ||| (((videoula_savestate s).getD (17 + 4 * c + 1) 0 % 256) <<< 8)
      ||| ((videoula_savestate s).getD (17 + 4 * c + 2) 0 % 256) = _
    obtain ⟨e0, e1, e2, e3⟩ := bcol c hc
    rw [e0, e1, e2, e3]
    exact word32_roundtrip _ (wcol c hc)
  · rw [lflag]; show (videoula_savestate s).getD 81 0 % 256 = _
    rw [b81]; exact Nat.mod_eq_of_lt wflag
  · rw [lfirst]; show (videoula_savestate s).getD 82 0 % 256 = _
    rw [b82]; exact Nat.mod_eq_of_lt wfirst
  · intro c hc
    rw [lflash c hc]; show (videoula_savestate s).getD (83 + c) 0 % 256 = _
    rw [bflash c hc]; exact Nat.mod_eq_of_lt (wflash c hc)
  · rw [lpm]; show (videoula_savestate s).getD 91 0 % 256 = _
    rw [b91]; exact Nat.mod_eq_of_lt wpm
  · rw [lho]; show (videoula_savestate s).getD 92 0 % 256 = _
    rw [b92]; exact Nat.mod_eq_of_lt who
  · rw [llb]; show (videoula_savestate s).getD 93 0 % 256 = _
    rw [b93]; exact Nat.mod_eq_of_lt wlb
  · rw [ldis]; show (videoula_savestate s).getD 94 0 % 256 = _
    rw [b94]; exact Nat.mod_eq_of_lt wdis
  · rw [lam]; show (videoula_savestate s).getD 95 0 % 256 = _
    rw [b95]; exact Nat.mod_eq_of_lt wam
  · rw [lat]; show (videoula_savestate s).getD 96 0 % 256 = _
    rw [b96]; exact Nat.mod_eq_of_lt wat

/-- Witness of C20: the state after a NULA reset, the palette commit 0x1A, 0xBC and a palette
write of 0x3D, saved and loaded over the power-on state. -/
theorem videoula_state_roundtrip_witness :
    (videoula_savestate (videoula_write 1 0x3D (videoula_write 3 0xBC (videoula_write 3 0x1A
        (videoula_write 2 0x40 power_on))))).length = 97
      ∧ (videoula_loadstate (file_bytes (videoula_savestate (videoula_write 1 0x3D
          (videoula_write 3 0xBC (videoula_write 3 0x1A (videoula_write 2 0x40 power_on))))))
          power_on).nula_collook 1 = 0xFFAABBCC
      ∧ (videoula_loadstate (file_bytes (videoula_savestate (videoula_write 1 0x3D
          (videoula_write 3 0xBC (videoula_write 3 0x1A (videoula_write 2 0x40 power_on))))))
          power_on).ula_palbak 3 = 13 :=
  have h := videoula_state_roundtrip
    (videoula_write 1 0x3D (videoula_write 3 0xBC (videoula_write 3 0x1A
      (videoula_write 2 0x40 power_on)))) power_on (by unfold UlaWellTyped; decide)
  ⟨h.1, (h.2.2.2.2.2.2.2.2.2.2.2.2.2.2.2.1 1 (by decide)).trans (by decide),
    (h.2.2.2.2.2.2.2.2.2.2.2.2.2.2.1 3 (by decide)).trans (by decide)⟩

/-! ## The teletext renderer -/

theorem gen_inner_loop (i j n : Nat) (s : Video) :
    (List.range n).foldl (fun s weight =>
        let col := mode7_blend s.nula_collook i j weight
        { s with mode7_lookup := setAt3 s.mode7_lookup i j weight col }) s
      = { s with mode7_lookup := fun x y z =>
            if x = i ∧ y = j ∧ z < n then mode7_blend s.nula_collook i j z
            else s.mode7_lookup x y z } := by
  induction n with
  | zero => simp
  | succ n ih =>
    rw [List.range_succ (n := n), List.foldl_append, ih]
    simp only [List.foldl_cons, List.foldl_nil]
    congr 2
    funext x y z
    simp only [setAt3]
    by_cases hx : x = i <;> by_cases hy : y = j <;> by_cases hz : z = n <;>
      simp [hx, hy, hz] <;> (try (split_ifs <;> first | rfl | omega))

theorem gen_middle_loop (i n : Nat) (s : Video) :
    (List.range n).foldl (fun s bg_ix =>
        (List.range 16).foldl (fun s weight =>
          let col := mode7_blend s.nula_collook i bg_ix weight
          { s with mode7_lookup := setAt3 s.mode7_lookup i bg_ix weight col }) s) s
      = { s with mode7_lookup := fun x y z =>
            if x = i ∧ y < n ∧ z < 16 then mode7_blend s.nula_collook i y z
            else s.mode7_lookup x y z } := by
  induction n with
  | zero => simp
  | succ n ih =>
    rw [List.range_succ (n := n), List.foldl_append, ih]
    simp only [List.foldl_cons, List.foldl_nil]
    rw [gen_inner_loop]
    congr 2
    funext x y z
    by_cases hx : x = i <;> by_cases hy : y = n <;> by_cases hz : z < 16 <;>
      simp [hx, hy, hz] <;> (try (split_ifs <;> first | rfl | omega))

theorem gen_outer_loop (n : Nat) (s : Video) :
    (List.range n).foldl (fun s fg_ix =>
        (List.range 8).foldl (fun s bg_ix =>
          (List.range 16).foldl (fun s weight =>
            let col := mode7_blend s.nula_collook fg_ix bg_ix weight
            { s with mode7_lookup := setAt3 s.mode7_lookup fg_ix bg_ix weight col }) s) s) s
      = { s with mode7_lookup := fun x y z =>
            if x < n ∧ y < 8 ∧ z < 16 then mode7_blend s.nula_collook x y z
            else s.mode7_lookup x y z } := by
  induction n with
  | zero => simp
  | succ n ih =>
    rw [List.range_succ (n := n), List.foldl_append, ih]
    simp only [List.foldl_cons, List.foldl_nil]
    rw [gen_middle_loop]
    congr 2
    funext x y z
    by_cases hx : x = n <;> by_cases hy : y < 8 <;> by_cases hz : z < 16 <;>
      simp [hx, hy, hz] <;> (try (split_ifs <;> first | rfl | omega))

theorem mode7_gen_nula_lookup_eq (s : Video) :
    mode7_gen_nula_lookup s
      = { s with
          mode7_lookup := fun x y z =>
            if x < 8 ∧ y < 8 ∧ z < 16 then mode7_blend s.nula_collook x y z
            else s.mode7_lookup x y z
          mode7_need_new_lookup := 0 } := by
  unfold mode7_gen_nula_lookup
  rw [gen_outer_loop]

theorem mode7_fields_trans {s r t : Video} (h1 : r = mode7_fields r s)
    (h2 : t = mode7_fields t r) : t = mode7_fields t s :=
  calc t = mode7_fields t r := h2
    _ = mode7_fields t (mode7_fields r s) := by rw [← h1]
    _ = mode7_fields t s := rfl

theorem mode7_control_frame (s : Video) (l : Mode7Cell) :
    (mode7_control s l).1 = mode7_fields (mode7_control s l).1 s := by
  unfold mode7_control
  split <;> dsimp only <;> (try split_ifs) <;> rfl

theorem mode7_decode_frame (dblx : Nat) (s : Video) (l : Mode7Cell) :
    (mode7_decode dblx s l).1 = mode7_fields (mode7_decode dblx s l).1 s := by
  unfold mode7_decode
  split_ifs
  · exact mode7_control_frame s l
  · rfl
  · rfl

theorem mode7_cell_frame (dat mcolx flashx dblx : Nat) (s : Video) :
    mode7_cell dat mcolx flashx dblx s = mode7_fields (mode7_cell dat mcolx flashx dblx s) s := by
  unfold mode7_cell
  split_ifs
  · rfl
  · have h := mode7_decode_frame dblx s
      { dat := dat, px0 := s.mode7_p0, px1 := s.mode7_p1, mcolx := mcolx, holdoff := 0,
        holdclear := 0 }
    dsimp only
    split_ifs <;> exact mode7_fields_trans h rfl

theorem mode7_push_frame (d : Nat) (s : Video) : mode7_push d s = mode7_fields (mode7_push d s) s := by
  unfold mode7_push
  dsimp only
  split_ifs
  · rw [mode7_gen_nula_lookup_eq]; rfl
  · rfl

theorem mode7_push_buf (d : Nat) (s : Video) :
    (mode7_push d s).mode7_buf 0 = s.mode7_buf 1 ∧ (mode7_push d s).mode7_buf 1 = d % 256 := by
  unfold mode7_push
  dsimp only
  split_ifs
  · rw [mode7_gen_nula_lookup_eq]; simp [setAt]
  · simp [setAt]

theorem mode7_render_eq (d : Nat) (s : Video) (h : s.scrx < 1280 - 32) :
    mode7_render d s
      = mode7_cell (s.mode7_buf 0) s.mode7_col s.mode7_flash s.mode7_dbl (mode7_push d s) := by
  unfold mode7_render mode7_push
  dsimp only
  rw [if_pos h]
  split_ifs
  · rw [mode7_gen_nula_lookup_eq]
  · rfl

theorem mode7_render_frame (d : Nat) (s : Video) :
    mode7_render d s = mode7_fields (mode7_render d s) s := by
  by_cases h : s.scrx < 1280 - 32
  · rw [mode7_render_eq d s h]
    exact mode7_fields_trans (mode7_push_frame d s) (mode7_cell_frame _ _ _ _ _)
  · unfold mode7_render
    dsimp only
    rw [if_neg h]
    rfl

theorem mode7_control_buf (s : Video) (l : Mode7Cell) :
    (mode7_control s l).1.mode7_buf = s.mode7_buf := by
  unfold mode7_control
  split <;> dsimp only <;> (try split_ifs) <;> rfl

theorem mode7_decode_buf (dblx : Nat) (s : Video) (l : Mode7Cell) :
    (mode7_decode dblx s l).1.mode7_buf = s.mode7_buf := by
  unfold mode7_decode
  split_ifs
  · exact mode7_control_buf s l
  · rfl
  · rfl

theorem mode7_cell_buf (dat mcolx flashx dblx : Nat) (s : Video) :
    (mode7_cell dat mcolx flashx dblx s).mode7_buf = s.mode7_buf := by
  unfold mode7_cell
  split_ifs
  · rfl
  · have h := mode7_decode_buf dblx s
      { dat := dat, px0 := s.mode7_p0, px1 := s.mode7_p1, mcolx := mcolx, holdoff := 0,
        holdclear := 0 }
    dsimp only
    split_ifs <;> exact h

theorem mode7_render_scrx (d : Nat) (s : Video) : (mode7_render d s).scrx = s.scrx := by
  rw [mode7_render_frame]; rfl

theorem mode7_render_buf (d : Nat) (s : Video) (h : s.scrx < 1280 - 32) :
    (mode7_render d s).mode7_buf 0 = s.mode7_buf 1 ∧ (mode7_render d s).mode7_buf 1 = d % 256 := by
  rw [mode7_render_eq d s h, mode7_cell_buf]
  exact mode7_push_buf d s

/-- C14, counterexample: the flash control code 8 passed to the first call is not decoded by
the call that follows it (flash is still 0 after the second call) but by the third call. -/
theorem mode7_render_one_cell_delay_counterexample :
    (mode7_render 0x20 (mode7_render 8 power_on)).mode7_flash = 0
      ∧ (mode7_render 0x20 (mode7_render 0x20 (mode7_render 8 power_on))).mode7_flash = 1 := by
  decide

/-- C14, amended: with `scrx < 1248` the byte passed to a call is buffered in `mode7_buf[1]`,
and the byte a call decodes and draws is the one passed two calls earlier: the second call
decodes what was in `mode7_buf[1]` before the first, the third call decodes the byte of the
first, while the bytes of the second and third are only in the buffer. -/
theorem mode7_render_two_cell_delay (s : Video) (d1 d2 d3 : Nat) (h : s.scrx < 1280 - 32) :
    (mode7_render d1 s).mode7_buf 1 = d1 % 256
      ∧ mode7_render d2 (mode7_render d1 s)
          = mode7_cell (s.mode7_buf 1) (mode7_render d1 s).mode7_col
              (mode7_render d1 s).mode7_flash (mode7_render d1 s).mode7_dbl
              (mode7_push d2 (mode7_render d1 s))
      ∧ mode7_render d3 (mode7_render d2 (mode7_render d1 s))
          = mode7_cell (d1 % 256) (mode7_render d2 (mode7_render d1 s)).mode7_col
              (mode7_render d2 (mode7_render d1 s)).mode7_flash
              (mode7_render d2 (mode7_render d1 s)).mode7_dbl
              (mode7_push d3 (mode7_render d2 (mode7_render d1 s)))
      ∧ (mode7_push d3 (mode7_render d2 (mode7_render d1 s))).mode7_buf 0 = d2 % 256
      ∧ (mode7_push d3 (mode7_render d2 (mode7_render d1 s))).mode7_buf 1 = d3 % 256 := by
  have h1 : (mode7_render d1 s).scrx < 1280 - 32 := by rw [mode7_render_scrx]; exact h
  have h2 : (mode7_render d2 (mode7_render d1 s)).scrx < 1280 - 32 := by
    rw [mode7_render_scrx]; exact h1
  obtain ⟨b10, b11⟩ := mode7_render_buf d1 s h
  obtain ⟨b20, b21⟩ := mode7_render_buf d2 _ h1
  obtain ⟨p0, p1⟩ := mode7_push_buf d3 (mode7_render d2 (mode7_render d1 s))
  refine ⟨b11, ?_, ?_, by rw [p0, b21], p1⟩
  · rw [mode7_render_eq d2 _ h1, b10]
  · rw [mode7_render_eq d3 _ h2, b20, b11]

theorem mode7_render_two_cell_delay_witness :
    power_on.scrx < 1280 - 32
      ∧ (mode7_render 0x41 power_on).mode7_buf 1 = 0x41 % 256
      ∧ mode7_render 0x42 (mode7_render 0x41 power_on)
          = mode7_cell (power_on.mode7_buf 1) (mode7_render 0x41 power_on).mode7_col
              (mode7_render 0x41 power_on).mode7_flash (mode7_render 0x41 power_on).mode7_dbl
              (mode7_push 0x42 (mode7_render 0x41 power_on))
      ∧ mode7_render 0x43 (mode7_render 0x42 (mode7_render 0x41 power_on))
          = mode7_cell (0x41 % 256) (mode7_render 0x42 (mode7_render 0x41 power_on)).mode7_col
              (mode7_render 0x42 (mode7_render 0x41 power_on)).mode7_flash
              (mode7_render 0x42 (mode7_render 0x41 power_on)).mode7_dbl
              (mode7_push 0x43 (mode7_render 0x42 (mode7_render 0x41 power_on)))
      ∧ (mode7_push 0x43 (mode7_render 0x42 (mode7_render 0x41 power_on))).mode7_buf 0 = 0x42 % 256
      ∧ (mode7_push 0x43 (mode7_render 0x42 (mode7_render 0x41 power_on))).mode7_buf 1
          = 0x43 % 256 :=
  ⟨by decide, mode7_render_two_cell_delay power_on 0x41 0x42 0x43 (by decide)⟩

theorem mode7_push_eq (d : Nat) (s : Video) :
    mode7_push d s
      = { s with
          mode7_lookup :=
            if s.mode7_need_new_lookup ≠ 0 then
              fun x y z =>
                if x < 8 ∧ y < 8 ∧ z < 16 then mode7_blend s.nula_collook x y z
                else s.mode7_lookup x y z
            else s.mode7_lookup
          mode7_need_new_lookup := if s.mode7_need_new_lookup ≠ 0 then 0 else s.mode7_need_new_lookup
          mode7_buf := setAt (setAt s.mode7_buf 0 (s.mode7_buf 1)) 1 (d % 256) } := by
  unfold mode7_push
  dsimp only
  split_ifs
  · rw [mode7_gen_nula_lookup_eq]
  · rfl

theorem mode7_cell_eq (dat mcolx flashx dblx : Nat) (s : Video) (h : dat ≠ 255) :
    mode7_cell dat mcolx flashx dblx s
      = { (mode7_decode dblx s (mode7_cell_init dat mcolx s)).1 with
          region := (List.range 16).foldl
            (fun r c => put_pixel ((mode7_decode dblx s (mode7_cell_init dat mcolx s)).1.scrx + c + 16)
              (mode7_decode dblx s (mode7_cell_init dat mcolx s)).1.scry
              (mode7_pixel flashx dblx (mode7_decode dblx s (mode7_cell_init dat mcolx s)).1
                (mode7_decode dblx s (mode7_cell_init dat mcolx s)).2 c) r)
            (mode7_decode dblx s (mode7_cell_init dat mcolx s)).1.region
          mode7_holdchar :=
            if (mode7_decode dblx s (mode7_cell_init dat mcolx s)).2.holdoff ≠ 0 then 0
            else (mode7_decode dblx s (mode7_cell_init dat mcolx s)).1.mode7_holdchar
          mode7_heldchar :=
            if (mode7_decode dblx s (mode7_cell_init dat mcolx s)).2.holdoff ≠ 0
                ∨ (mode7_decode dblx s (mode7_cell_init dat mcolx s)).2.holdclear ≠ 0 then 32
            else (mode7_decode dblx s (mode7_cell_init dat mcolx s)).1.mode7_heldchar } := by
  unfold mode7_cell
  rw [if_neg h]
  dsimp only
  unfold mode7_cell_init
  split_ifs <;> first | rfl | (exfalso; simp_all)

theorem mode7_control_13 (s : Video) (l : Mode7Cell) (h : l.dat = 13) :
    mode7_control s l = ({ s with mode7_dbl := 1, mode7_wasdbl := 1 }, l) := by
  unfold mode7_control
  rw [h]
  rfl

theorem mode7_control_12 (s : Video) (l : Mode7Cell) (h : l.dat = 12) :
    mode7_control s l = ({ s with mode7_dbl := 0 }, l) := by
  unfold mode7_control
  rw [h]
  rfl

theorem mode7_decode_control (dblx : Nat) (s : Video) (l : Mode7Cell) (h : l.dat < 0x20) :
    (mode7_decode dblx s l).1 = (mode7_control s l).1 := by
  unfold mode7_decode
  rw [if_pos h]

/-- C16, counterexample: decoding control code 12 leaves double height off (`mode7_dbl = 0`,
`mode7_wasdbl = 0`), and a double-height cell drawn at `sc = 6` with `mode7_nextdbl = 0` uses
glyph row 3, not row 8. -/
theorem mode7_double_height_counterexample :
    (mode7_render 0x20 (mode7_render 0x20 (mode7_render 12 power_on))).mode7_dbl = 0
      ∧ (mode7_render 0x20 (mode7_render 0x20 (mode7_render 12 power_on))).mode7_wasdbl = 0
      ∧ mode7_offset 1 { power_on with sc := 6 } 0x41 = (0x41 - 0x20) * 16 * 10 + 3 * 16 := by
  decide

/-- C16, amended: with `scrx < 1248`, decoding control code 13 turns double height on
(`mode7_dbl = 1`, `mode7_wasdbl = 1`), decoding 12 turns it off and leaves `mode7_wasdbl`; for a
double-height cell the glyph row is `sc >> 1`, plus 5 exactly when `mode7_nextdbl` is set,
whatever the value of `sc`. -/
theorem mode7_double_height (s : Video) (d : Nat) (h : s.scrx < 1280 - 32) :
    (s.mode7_buf 0 = 13 → (mode7_render d s).mode7_dbl = 1 ∧ (mode7_render d s).mode7_wasdbl = 1)
      ∧ (s.mode7_buf 0 = 12 →
          (mode7_render d s).mode7_dbl = 0 ∧ (mode7_render d s).mode7_wasdbl = s.mode7_wasdbl)
      ∧ (∀ dblx dat, dblx ≠ 0 →
          mode7_offset dblx s dat
            = ((dat : Int) - 0x20) * 16 * 10
                + (((s.sc >>> 1 : Nat) : Int) + (if s.mode7_nextdbl = 0 then 0 else 5)) * 16) := by
  refine ⟨fun h13 => ?_, fun h12 => ?_, fun dblx dat hd => ?_⟩
  · rw [mode7_render_eq d s h, h13, mode7_cell_eq _ _ _ _ _ (by decide)]
    show (mode7_decode _ _ _).1.mode7_dbl = 1 ∧ (mode7_decode _ _ _).1.mode7_wasdbl = 1
    rw [mode7_decode_control _ _ _ (show (13 : Nat) < 0x20 by decide), mode7_control_13 _ _ rfl]
    exact ⟨rfl, rfl⟩
  · rw [mode7_render_eq d s h, h12, mode7_cell_eq _ _ _ _ _ (by decide)]
    show (mode7_decode _ _ _).1.mode7_dbl = 0 ∧ (mode7_decode _ _ _).1.mode7_wasdbl = _
    rw [mode7_decode_control _ _ _ (show (12 : Nat) < 0x20 by decide), mode7_control_12 _ _ rfl,
      mode7_push_eq]
    exact ⟨rfl, rfl⟩
  · unfold mode7_offset
    split_ifs <;> first | omega | (exfalso; simp_all)

theorem mode7_double_height_witness :
    ({ power_on with mode7_buf := fun _ => 13 } : Video).scrx < 1280 - 32
      ∧ (mode7_render 0x41 { power_on with mode7_buf := fun _ => 13 }).mode7_dbl = 1
      ∧ (mode7_render 0x41 { power_on with mode7_buf := fun _ => 13 }).mode7_wasdbl = 1 :=
  ⟨by decide, (mode7_double_height { power_on with mode7_buf := fun _ => 13 } 0x41 (by decide)).1 rfl⟩

theorem mode7_control_lookup (s : Video) (l : Mode7Cell) :
    (mode7_control s l).1.mode7_lookup = s.mode7_lookup := by
  unfold mode7_control
  split <;> dsimp only <;> (try split_ifs) <;> rfl

theorem mode7_decode_lookup (dblx : Nat) (s : Video) (l : Mode7Cell) :
    (mode7_decode dblx s l).1.mode7_lookup = s.mode7_lookup := by
  unfold mode7_decode
  split_ifs
  · exact mode7_control_lookup s l
  · rfl
  · rfl

theorem fold_put_pixel (x y : Nat) (f : Nat → Nat) (n : Nat) (r : Region) (c : Nat) (hc : c < n) :
    (List.range n).foldl (fun r c => put_pixel (x + c + 16) y (f c) r) r (x + c + 16) y = f c := by
  induction n with
  | zero => omega
  | succ n ih =>
    rw [List.range_succ, List.foldl_append]
    simp only [List.foldl_cons, List.foldl_nil, put_pixel]
    by_cases hcn : c = n
    · subst hcn; simp
    · rw [if_neg (by omega)]
      exact ih (by omega)

theorem mode7_blend_same (collook : Nat → Nat) (b w : Nat) :
    mode7_blend collook b b w
      = makecol ((collook b >>> 16) &&& 0xff) ((collook b >>> 8) &&& 0xff) (collook b &&& 0xff) := by
  simp [mode7_blend]

theorem mode7_blend_zero (collook : Nat → Nat) (f b : Nat) :
    mode7_blend collook f b 0
      = makecol ((collook b >>> 16) &&& 0xff) ((collook b >>> 8) &&& 0xff) (collook b &&& 0xff) := by
  simp [mode7_blend]

theorem mode7_push_current (d : Nat) (s : Video)
    (hcur : s.mode7_need_new_lookup ≠ 0 ∨ Mode7LookupCurrent s) :
    Mode7LookupCurrent (mode7_push d s) := by
  intro fg bg w hfg hbg hw
  rw [mode7_push_eq]
  dsimp only
  by_cases hn : s.mode7_need_new_lookup ≠ 0
  · rw [if_pos hn]
    simp [hfg, hbg, hw]
  · rw [if_neg hn]
    rcases hcur with h | h
    · exact absurd h hn
    · exact h fg bg w hfg hbg hw

theorem and_seven_lt (n : Nat) : n &&& 7 < 8 := by
  have := Nat.and_le_right (n := n) (m := 7)
  omega

theorem and_fifteen_lt (n : Nat) : n &&& 15 < 16 := by
  have := Nat.and_le_right (n := n) (m := 15)
  omega

theorem mode7_push_collook (d : Nat) (s : Video) :
    (mode7_push d s).nula_collook = s.nula_collook := by
  rw [mode7_push_frame]; rfl

theorem mode7_decode_collook (dblx : Nat) (s : Video) (l : Mode7Cell) :
    (mode7_decode dblx s l).1.nula_collook = s.nula_collook := by
  rw [mode7_decode_frame]; rfl

theorem mode7_pixel_suppressed (flashx dblx : Nat) (s : Video) (l : Mode7Cell) (c : Nat)
    (hcur : Mode7LookupCurrent s) (hn : s.mode7_nextdbl ≠ 0) (hd : s.mode7_dbl = 0) :
    mode7_pixel flashx dblx s l c = mode7_bg_colour s := by
  have hon : mode7_on s l.mcolx = s.mode7_lookup (s.mode7_bg &&& 7) (s.mode7_bg &&& 7) := by
    unfold mode7_on
    rw [if_pos ⟨hd, hn⟩]
  unfold mode7_pixel mode7_bg_colour
  dsimp only
  rw [hon]
  split_ifs
  · rw [hcur _ _ _ (by decide) (and_seven_lt _) (by decide), mode7_blend_zero]
  all_goals rw [hcur _ _ _ (and_seven_lt _) (and_seven_lt _) (and_fifteen_lt _), mode7_blend_same]

theorem mode7_suppressed_cell (s : Video) (d c : Nat) (h : s.scrx < 1280 - 32)
    (hn : s.mode7_nextdbl ≠ 0) (h255 : s.mode7_buf 0 ≠ 255)
    (hcur : s.mode7_need_new_lookup ≠ 0 ∨ Mode7LookupCurrent s)
    (hd : (mode7_render d s).mode7_dbl = 0) (hc : c < 16) :
    (mode7_render d s).region (s.scrx + c + 16) s.scry = mode7_bg_colour (mode7_render d s) := by
  have hP := mode7_push_current d s hcur
  rw [mode7_render_eq d s h, mode7_cell_eq _ _ _ _ _ h255] at hd ⊢
  have hD := mode7_decode_frame s.mode7_dbl (mode7_push d s)
    (mode7_cell_init (s.mode7_buf 0) s.mode7_col (mode7_push d s))
  have hL := mode7_decode_lookup s.mode7_dbl (mode7_push d s)
    (mode7_cell_init (s.mode7_buf 0) s.mode7_col (mode7_push d s))
  have hPf := mode7_push_frame d s
  generalize mode7_decode s.mode7_dbl (mode7_push d s)
    (mode7_cell_init (s.mode7_buf 0) s.mode7_col (mode7_push d s)) = D at hd hD hL ⊢
  have hx : D.1.scrx = s.scrx := by rw [hD, hPf]; rfl
  have hy : D.1.scry = s.scry := by rw [hD, hPf]; rfl
  have hnd : D.1.mode7_nextdbl = s.mode7_nextdbl := by rw [hD, hPf]; rfl
  have hcl : D.1.nula_collook = (mode7_push d s).nula_collook := by rw [hD]; rfl
  have hDcur : Mode7LookupCurrent D.1 := by
    intro fg bg w hfg hbg hw
    rw [hL, hcl]
    exact hP fg bg w hfg hbg hw
  have hpix := mode7_pixel_suppressed s.mode7_flash s.mode7_dbl D.1 D.2 c hDcur
    (by rw [hnd]; exact hn) hd
  unfold mode7_bg_colour at hpix ⊢
  dsimp only
  rw [← hx, ← hy, fold_put_pixel _ _ _ _ _ _ hc]
  exact hpix

/-! ## Conditionals over the state record

A conditional between a state built field by field and another state is the state whose fields
are conditionals; with these equations `simp` brings a block of `video_poll` to one record. -/

theorem ite_CrtcRegs (c : Prop) [Decidable c] (a0 : Bool) (a1 : Nat → Nat) (a2 : Nat) (a3 : Nat)
    (a4 : Nat) (a5 : vid_disptype) (a6 : vid_disptype) (s : CrtcRegs) :
    (if c then CrtcRegs.mk a0 a1 a2 a3 a4 a5 a6 else s)
      = CrtcRegs.mk (if c then a0 else s.master_bplus) (if c then a1 else s.crtc)
          (if c then a2 else s.crtc_i) (if c then a3 else s.ttxbank) (if c then a4 else s.crtc_mode)
          (if c then a5 else s.vid_dtype_user) (if c then a6 else s.vid_dtype_intern) := by
  split_ifs <;> rfl

theorem ite_CrtcCounters (c : Prop) [Decidable c] (a0 : Nat) (a1 : Nat) (a2 : Nat) (a3 : Nat)
    (s : CrtcCounters) :
    (if c then CrtcCounters.mk a0 a1 a2 a3 else s)
      = CrtcCounters.mk (if c then a0 else s.hc) (if c then a1 else s.vc) (if c then a2 else s.sc)
          (if c then a3 else s.vadj) := by
  split_ifs <;> rfl

theorem ite_FieldState (c : Prop) [Decidable c] (a0 : Nat) (a1 : Nat) (a2 : Nat) (a3 : Nat)
    (a4 : Nat) (a5 : Nat) (a6 : Nat) (s : FieldState) :
    (if c then FieldState.mk a0 a1 a2 a3 a4 a5 a6 else s)
      = FieldState.mk (if c then a0 else s.interline) (if c then a1 else s.interlline)
          (if c then a2 else s.frameodd) (if c then a3 else s.vsynctime) (if c then a4 else s.oldr8)
          (if c then a5 else s.ccount) (if c then a6 else s.vid_cleared) := by
  split_ifs <;> rfl

theorem ite_UlaState (c : Prop) [Decidable c] (a0 : Nat) (a1 : Nat → Nat) (a2 : Nat → Nat)
    (a3 : Nat) (a4 : Nat → Nat → Nat → Nat) (a5 : Nat) (a6 : Nat) (s : UlaState) :
    (if c then UlaState.mk a0 a1 a2 a3 a4 a5 a6 else s)
      = UlaState.mk (if c then a0 else s.ula_ctrl) (if c then a1 else s.ula_pal)
          (if c then a2 else s.ula_palbak) (if c then a3 else s.ula_mode)
          (if c then a4 else s.table4bpp) (if c then a5 else s.colblack)
          (if c then a6 else s.colwhite) := by
  split_ifs <;> rfl

theorem ite_NulaState (c : Prop) [Decidable c] (a0 : Nat → Nat) (a1 : Nat) (a2 : Nat)
    (a3 : Nat → Nat) (a4 : Nat) (a5 : Nat) (a6 : Nat) (a7 : Nat) (a8 : Nat) (a9 : Nat) (a10 : Nat)
    (a11 : Nat) (s : NulaState) :
    (if c then NulaState.mk a0 a1 a2 a3 a4 a5 a6 a7 a8 a9 a10 a11 else s)
      = NulaState.mk (if c then a0 else s.nula_collook) (if c then a1 else s.nula_pal_write_flag)
          (if c then a2 else s.nula_pal_first_byte) (if c then a3 else s.nula_flash)
          (if c then a4 else s.nula_palette_mode) (if c then a5 else s.nula_horizontal_offset)
          (if c then a6 else s.nula_left_blank) (if c then a7 else s.nula_disable)
          (if c then a8 else s.nula_attribute_mode) (if c then a9 else s.nula_attribute_text)
          (if c then a10 else s.nula_left_cut) (if c then a11 else s.nula_left_edge) := by
  split_ifs <;> rfl

theorem ite_Mode7Cells (c : Prop) [Decidable c] (a0 : Nat) (a1 : Nat → Nat → Nat → Nat) (a2 : Nat)
    (a3 : Nat) (a4 : Nat) (a5 : Nat) (a6 : Nat) (a7 : Nat) (a8 : Nat) (a9 : Nat → Nat)
    (a10 : Mode7Table) (a11 : Mode7Table) (a12 : Nat) (a13 : Nat) (a14 : Mode7Table)
    (a15 : Mode7Table) (s : Mode7Cells) :
    (if c then Mode7Cells.mk a0 a1 a2 a3 a4 a5 a6 a7 a8 a9 a10 a11 a12 a13 a14 a15 else s)
      = Mode7Cells.mk (if c then a0 else s.mode7_need_new_lookup) (if c then a1 else s.mode7_lookup)
          (if c then a2 else s.mode7_col) (if c then a3 else s.mode7_bg)
          (if c then a4 else s.mode7_sep) (if c then a5 else s.mode7_dbl)
          (if c then a6 else s.mode7_wasdbl) (if c then a7 else s.mode7_gfx)
          (if c then a8 else s.mode7_flash) (if c then a9 else s.mode7_buf)
          (if c then a10 else s.mode7_p0) (if c then a11 else s.mode7_p1)
          (if c then a12 else s.mode7_heldchar) (if c then a13 else s.mode7_holdchar)
          (if c then a14 else s.mode7_heldp0) (if c then a15 else s.mode7_heldp1) := by
  split_ifs <;> rfl

theorem ite_Mode7Rows (c : Prop) [Decidable c] (a0 : Nat) (a1 : Nat) (a2 : Nat)
    (a3 : Mode7Table → Int → Nat) (s : Mode7Rows) :
    (if c then Mode7Rows.mk a0 a1 a2 a3 else s)
      = Mode7Rows.mk (if c then a0 else s.mode7_nextdbl) (if c then a1 else s.mode7_flashon)
          (if c then a2 else s.mode7_flashtime) (if c then a3 else s.mode7_glyphs) := by
  split_ifs <;> rfl

theorem ite_ScanState (c : Prop) [Decidable c] (a0 : Nat) (a1 : Nat) (a2 : Nat) (a3 : Nat)
    (a4 : Nat) (s : ScanState) :
    (if c then ScanState.mk a0 a1 a2 a3 a4 else s)
      = ScanState.mk (if c then a0 else s.scrx) (if c then a1 else s.scry)
          (if c then a2 else s.hvblcount) (if c then a3 else s.vidclocks)
          (if c then a4 else s.oddclock) := by
  split_ifs <;> rfl

theorem ite_FetchState (c : Prop) [Decidable c] (a0 : Nat) (a1 : Nat) (a2 : Nat) (a3 : Nat)
    (a4 : Nat) (a5 : Nat) (a6 : Nat) (a7 : Nat) (a8 : Nat) (a9 : Nat) (a10 : Nat) (a11 : Nat)
    (a12 : Nat) (a13 : Nat) (a14 : Nat) (s : FetchState) :
    (if c then FetchState.mk a0 a1 a2 a3 a4 a5 a6 a7 a8 a9 a10 a11 a12 a13 a14 else s)
      = FetchState.mk (if c then a0 else s.ma) (if c then a1 else s.maback)
          (if c then a2 else s.vdispen) (if c then a3 else s.dispen) (if c then a4 else s.vidbytes)
          (if c then a5 else s.charsleft) (if c then a6 else s.con) (if c then a7 else s.cdraw)
          (if c then a8 else s.coff) (if c then a9 else s.cursoron) (if c then a10 else s.frcount)
          (if c then a11 else s.lasthc0) (if c then a12 else s.lasthc)
          (if c then a13 else s.firstdispen) (if c then a14 else s.vidbank) := by
  split_ifs <;> rfl

theorem ite_Video (c : Prop) [Decidable c] (a0 : CrtcRegs) (a1 : CrtcCounters) (a2 : FieldState)
    (a3 : UlaState) (a4 : NulaState) (a5 : Mode7Cells) (a6 : Mode7Rows) (a7 : ScanState)
    (a8 : FetchState) (a9 : Nat) (a10 : Nat → Nat) (a11 : Nat) (a12 : Nat) (a13 : Region)
    (a14 : List ExtCall) (s : Video) :
    (if c then Video.mk a0 a1 a2 a3 a4 a5 a6 a7 a8 a9 a10 a11 a12 a13 a14 else s)
      = Video.mk (if c then a0 else s.toCrtcRegs) (if c then a1 else s.toCrtcCounters)
          (if c then a2 else s.toFieldState) (if c then a3 else s.toUlaState)
          (if c then a4 else s.toNulaState) (if c then a5 else s.toMode7Cells)
          (if c then a6 else s.toMode7Rows) (if c then a7 else s.toScanState)
          (if c then a8 else s.toFetchState) (if c then a9 else s.scrsize)
          (if c then a10 else s.ram) (if c then a11 else s.motor) (if c then a12 else s.fasttape)
          (if c then a13 else s.region) (if c then a14 else s.calls) := by
  split_ifs <;> rfl

/-! ## End of scanline and row boundary -/

theorem nula_delay_loop (n : Nat) (s : Video) :
    (List.range n).foldl (fun s _ =>
        let s : Video :=
          { s with region := put_pixel (s.scrx + s.crtc_mode * 8) s.scry s.colblack s.region }
        { s with scrx := s.scrx + 1 }) s
      = { s with
          scrx := s.scrx + n
          region := ((List.range n).foldl (fun s _ =>
            let s : Video :=
              { s with region := put_pixel (s.scrx + s.crtc_mode * 8) s.scry s.colblack s.region }
            { s with scrx := s.scrx + 1 }) s).region } := by
  induction n with
  | zero => rfl
  | succ n ih =>
    rw [List.range_succ, List.foldl_append, ih]
    rfl

theorem nula_delay_eq (s : Video) :
    nula_delay s
      = { s with
          scrx := s.scrx + s.nula_horizontal_offset * s.crtc_mode
          region := nula_delay_region s } := by
  unfold nula_delay_region nula_delay
  exact nula_delay_loop _ s

theorem video_poll_row_nextdbl (te : Nat) (s : Video) :
    (video_poll_row te s).toMode7Rows.mode7_nextdbl
      = if s.mode7_nextdbl ≠ 0 then 0 else s.mode7_wasdbl := by
  unfold video_poll_row video_poll_vsync video_poll_flash
  simp only [ite_Video, ite_CrtcRegs, ite_CrtcCounters, ite_FieldState, ite_UlaState, ite_NulaState,
    ite_Mode7Cells, ite_Mode7Rows, ite_ScanState, ite_FetchState, ite_self]

theorem video_poll_eol_nextdbl (te : Nat) (s : Video) :
    (video_poll_eol te s).toMode7Rows.mode7_nextdbl
      = if s.vadj = 0 ∧ (s.sc = s.crtc 9 ∨ (s.crtc 8 &&& 3 = 3 ∧ s.sc = s.crtc 9 >>> 1)) then
          if s.mode7_nextdbl ≠ 0 then 0 else s.mode7_wasdbl
        else s.mode7_nextdbl := by
  unfold video_poll_eol
  simp only [nula_delay_eq, ite_Video, ite_CrtcRegs, ite_CrtcCounters, ite_FieldState, ite_UlaState,
    ite_NulaState, ite_Mode7Cells, ite_Mode7Rows, ite_ScanState, ite_FetchState, ite_self,
    apply_ite Video.toMode7Rows, apply_ite Mode7Rows.mode7_nextdbl, video_poll_row_nextdbl]
  split_ifs <;> simp_all

theorem video_poll_hc_nextdbl (te : Nat) (s : Video) :
    (video_poll_hc te s).toMode7Rows.mode7_nextdbl
      = if ¬(s.interline ≠ 0 ∧ s.hc = s.crtc 0 >>> 1) ∧ s.hc = s.crtc 0 ∧ s.vadj = 0
            ∧ (s.sc = s.crtc 9 ∨ (s.crtc 8 &&& 3 = 3 ∧ s.sc = s.crtc 9 >>> 1)) then
          if s.mode7_nextdbl ≠ 0 then 0 else s.mode7_wasdbl
        else s.mode7_nextdbl := by
  unfold video_poll_hc
  simp only [ite_Video, ite_CrtcRegs, ite_CrtcCounters, ite_FieldState, ite_UlaState, ite_NulaState,
    ite_Mode7Cells, ite_Mode7Rows, ite_ScanState, ite_FetchState, ite_self,
    apply_ite Video.toMode7Rows, apply_ite Mode7Rows.mode7_nextdbl, video_poll_eol_nextdbl]
  split_ifs <;> first | rfl | (exfalso; tauto)

/-! ## Double-height rows -/

theorem mode7_push_region (d : Nat) (s : Video) :
    (mode7_push d s).region = s.region ∧ (mode7_push d s).scrx = s.scrx
      ∧ (mode7_push d s).scry = s.scry ∧ (mode7_push d s).colblack = s.colblack := by
  rw [mode7_push_eq]
  exact ⟨rfl, rfl, rfl, rfl⟩

/-- The filler cell: when the byte taken out of the pipeline buffer is 255, `mode7_render`
stores `colblack` in the 16 pixels of the cell. -/
theorem mode7_render_filler (d : Nat) (s : Video) (c : Nat) (h : s.scrx < 1280 - 32)
    (h255 : s.mode7_buf 0 = 255) (hc : c < 16) :
    (mode7_render d s).region (s.scrx + c + 16) s.scry = s.colblack := by
  obtain ⟨p1, p2, p3, p4⟩ := mode7_push_region d s
  rw [mode7_render_eq d s h, h255]
  unfold mode7_cell
  rw [if_pos rfl]
  dsimp only
  rw [p1, p2, p3, p4]
  exact fold_put_pixel s.scrx s.scry (fun _ => s.colblack) 16 s.region c hc

theorem mode7_render_split (d : Nat) (s : Video) :
    mode7_render d s
      = { s with toMode7Cells := mode7_render_cells d s, region := mode7_render_region d s } := by
  unfold mode7_render_cells mode7_render_region
  exact mode7_render_frame d s

theorem video_poll_display_frame (s : Video) :
    video_poll_display s = mid_fields (video_poll_display s) s := by
  unfold video_poll_display video_poll_cursor mid_fields
  simp only [mode7_render_split, ite_Video, ite_CrtcRegs, ite_CrtcCounters, ite_FieldState,
    ite_UlaState, ite_NulaState, ite_Mode7Cells, ite_Mode7Rows, ite_ScanState, ite_FetchState,
    ite_self]

theorem video_poll_blank_frame (s : Video) :
    video_poll_blank s = mid_fields (video_poll_blank s) s := by
  unfold video_poll_blank video_poll_cursor mid_fields
  simp only [mode7_render_split, ite_Video, ite_CrtcRegs, ite_CrtcCounters, ite_FieldState,
    ite_UlaState, ite_NulaState, ite_Mode7Cells, ite_Mode7Rows, ite_ScanState, ite_FetchState,
    ite_self]

theorem video_poll_hdisp_frame (s : Video) :
    video_poll_hdisp s = { s with toFetchState := (video_poll_hdisp s).toFetchState } := by
  unfold video_poll_hdisp
  simp only [ite_Video, ite_CrtcRegs, ite_CrtcCounters, ite_FieldState,
    ite_UlaState, ite_NulaState, ite_Mode7Cells, ite_Mode7Rows, ite_ScanState, ite_FetchState,
    ite_self]

theorem video_poll_hsync_eq (s : Video) :
    video_poll_hsync s
      = { s with
          scrx := if s.hc = s.crtc 2 then
              (if s.ula_ctrl &&& 0x10 ≠ 0 then 128 - ((s.crtc 3 &&& 15) * 4)
               else 128 - ((s.crtc 3 &&& 15) * 8))
            else s.scrx
          scry := if s.hc = s.crtc 2 then (if s.scry + 1 ≥ 384 then 0 else s.scry + 1) else s.scry
          calls := if s.hc = s.crtc 2 then
              (if s.scry + 1 ≥ 384 then s.calls ++ [ExtCall.video_doblit s.crtc_mode (s.crtc 4)]
               else s.calls)
            else s.calls } := by
  unfold video_poll_hsync
  simp only [ite_Video, ite_CrtcRegs, ite_CrtcCounters, ite_FieldState,
    ite_UlaState, ite_NulaState, ite_Mode7Cells, ite_Mode7Rows, ite_ScanState, ite_FetchState,
    ite_self]

theorem video_poll_scry_in_eq (s : Video) :
    video_poll_scry_in s
      = { s with
          scry := if s.vid_dtype_intern = vid_disptype.VDT_INTERLACE then (s.scry <<< 1) + s.interlline
            else if s.vid_dtype_intern = vid_disptype.VDT_LINEDOUBLE then s.scry <<< 1
            else s.scry } := by
  unfold video_poll_scry_in
  simp only [ite_Video, ite_CrtcRegs, ite_CrtcCounters, ite_FieldState,
    ite_UlaState, ite_NulaState, ite_Mode7Cells, ite_Mode7Rows, ite_ScanState, ite_FetchState,
    ite_self]

theorem video_poll_scry_out_eq (s : Video) :
    video_poll_scry_out s
      = { s with
          scry := if s.vid_dtype_intern = vid_disptype.VDT_INTERLACE then s.scry >>> 1
            else if s.vid_dtype_intern = vid_disptype.VDT_LINEDOUBLE then s.scry >>> 1
            else s.scry } := by
  unfold video_poll_scry_out
  simp only [ite_Video, ite_CrtcRegs, ite_CrtcCounters, ite_FieldState,
    ite_UlaState, ite_NulaState, ite_Mode7Cells, ite_Mode7Rows, ite_ScanState, ite_FetchState,
    ite_self]

theorem video_poll_hvbl_eq (te : Nat) (s : Video) :
    video_poll_hvbl te s
      = { s with
          hvblcount := if s.hvblcount ≠ 0 then s.hvblcount - 1 else s.hvblcount
          calls := if s.hvblcount ≠ 0 then
              (if s.hvblcount - 1 = 0 ∧ te ≠ 0 then s.calls ++ [ExtCall.sysvia_set_ca1 0]
               else s.calls)
            else s.calls } := by
  unfold video_poll_hvbl
  simp only [ite_Video, ite_CrtcRegs, ite_CrtcCounters, ite_FieldState,
    ite_UlaState, ite_NulaState, ite_Mode7Cells, ite_Mode7Rows, ite_ScanState, ite_FetchState,
    ite_self]

theorem video_poll_vsync_eq (te : Nat) (s : Video) :
    video_poll_vsync te s
      = { s with
          interline := if s.frameodd ^^^ 1 ≠ 0 then s.crtc 8 &&& 1 else s.interline
          interlline := if s.frameodd ^^^ 1 ≠ 0 ∧ s.crtc 8 &&& 1 ≠ 0 then 1 else 0
          frameodd := s.frameodd ^^^ 1
          vsynctime := if s.crtc 3 >>> 4 = 0 then 17 else (s.crtc 3 >>> 4) + 1
          oldr8 := s.crtc 8 &&& 1
          ccount := if s.ccount + 1 = 10 ∨ s.motor = 0 ∨ s.fasttape = 0 then 0 else s.ccount + 1
          vid_cleared :=
            if s.vidclocks > 1024 ∧ s.ccount = 0 then 0
            else if s.vidclocks ≤ 1024 ∧ s.vid_cleared = 0 then 1 else s.vid_cleared
          mode7_flashon := (video_poll_flash s).mode7_flashon
          mode7_flashtime := (video_poll_flash s).mode7_flashtime
          scry := 0
          vidclocks := 0
          vidbytes := 0
          region :=
            if s.vidclocks > 1024 ∧ s.ccount = 0 then
              if s.crtc 8 &&& 1 = 0 ∧ s.oldr8 ≠ 0 then fun _ _ => 0xFF000000 else s.region
            else
              if s.vidclocks ≤ 1024 ∧ s.vid_cleared = 0 then fun _ _ => 0xFF000000
              else if s.crtc 8 &&& 1 = 0 ∧ s.oldr8 ≠ 0 then fun _ _ => 0xFF000000 else s.region
          calls :=
            if te ≠ 0 then
              (if s.vidclocks > 1024 ∧ s.ccount = 0 then
                  s.calls ++ [ExtCall.video_doblit s.crtc_mode (s.crtc 4)]
                else
                  if s.vidclocks ≤ 1024 ∧ s.vid_cleared = 0 then
                    s.calls ++ [ExtCall.video_doblit s.crtc_mode (s.crtc 4)]
                  else s.calls) ++ [ExtCall.sysvia_set_ca1 1]
            else
              if s.vidclocks > 1024 ∧ s.ccount = 0 then
                s.calls ++ [ExtCall.video_doblit s.crtc_mode (s.crtc 4)]
              else
                if s.vidclocks ≤ 1024 ∧ s.vid_cleared = 0 then
                  s.calls ++ [ExtCall.video_doblit s.crtc_mode (s.crtc 4)]
                else s.calls } := by
  unfold video_poll_vsync video_poll_flash
  simp only [ite_Video, ite_CrtcRegs, ite_CrtcCounters, ite_FieldState,
    ite_UlaState, ite_NulaState, ite_Mode7Cells, ite_Mode7Rows, ite_ScanState, ite_FetchState,
    ite_self]


theorem and_three_ne_of_even (x : Nat) (h : x &&& 1 = 0) : ¬(x &&& 3 = 3) := by
  intro h3
  have h1 : (x &&& 3) &&& 1 = x &&& 1 := by
    rw [Nat.and_assoc]
    rfl
  rw [h3, h] at h1
  exact absurd h1 (by decide)

set_option maxHeartbeats 1000000 in
theorem video_poll_hc_counters (te : Nat) (p : Video) (hi : p.interline = 0) (hv : p.vadj = 0)
    (h5 : p.crtc 5 = 0) (h8 : p.crtc 8 &&& 1 = 0) :
    (video_poll_hc te p).toCrtcRegs = p.toCrtcRegs
      ∧ (video_poll_hc te p).toUlaState = p.toUlaState
      ∧ (video_poll_hc te p).interline = 0
      ∧ (video_poll_hc te p).toCrtcCounters
          = { hc := if p.hc = p.crtc 0 then 0 else (p.hc + 1) &&& 255
              vc := if p.hc = p.crtc 0 ∧ p.sc = p.crtc 9 then
                  (if p.vc = p.crtc 4 then 0 else (p.vc + 1) &&& 127)
                else p.vc
              sc := if p.hc = p.crtc 0 then (if p.sc = p.crtc 9 then 0 else (p.sc + 1) &&& 31)
                else p.sc
              vadj := 0 } := by
  have h83 := and_three_ne_of_even _ h8
  unfold video_poll_hc video_poll_eol video_poll_row
  simp only [video_poll_vsync_eq, nula_delay_eq, ite_Video, ite_CrtcRegs, ite_CrtcCounters,
    ite_FieldState, ite_UlaState, ite_NulaState, ite_Mode7Cells, ite_Mode7Rows, ite_ScanState,
    ite_FetchState,
    ite_self, hi, hv, h5, h8, h83]
  simp only [ne_eq, not_true_eq_false, false_and, if_false, or_false, and_true, true_and]
  refine ⟨?_, ?_⟩
  · split_ifs <;> rfl
  · split_ifs <;> first | rfl | (exfalso; tauto)

theorem video_poll_draw_eq (te : Nat) (s : Video) :
    video_poll_draw te s
      = { s with
          toMode7Cells := (video_poll_draw te s).toMode7Cells
          toFetchState := (video_poll_draw te s).toFetchState
          region := (video_poll_draw te s).region
          scrx := (video_poll_hsync s).scrx
          scry := (video_poll_scry_out (video_poll_scry_in (video_poll_hsync s))).scry
          hvblcount := (video_poll_hvbl te s).hvblcount
          calls := (video_poll_hvbl te (video_poll_hsync s)).calls } := by
  unfold video_poll_draw
  simp only []
  rw [video_poll_display_frame, video_poll_blank_frame]
  simp only [mid_fields, video_poll_hvbl_eq, video_poll_scry_out_eq, video_poll_scry_in_eq,
    video_poll_hsync_eq, video_poll_hdisp, ite_Video, ite_CrtcRegs, ite_CrtcCounters, ite_FieldState,
    ite_UlaState, ite_NulaState, ite_Mode7Cells, ite_Mode7Rows, ite_ScanState, ite_FetchState,
    ite_self]

/-! ## Counters over a frame -/

theorem video_poll_succ_last (n te : Nat) (s : Video) :
    video_poll (n + 1) te s = video_poll_tick te (video_poll n te s) := by
  induction n generalizing s with
  | zero => rfl
  | succ n ih =>
    show video_poll (n + 1) te (video_poll_tick te s) = _
    rw [ih]
    rfl

theorem video_poll_add (a b te : Nat) (s : Video) :
    video_poll (a + b) te s = video_poll b te (video_poll a te s) := by
  induction a generalizing s with
  | zero => rw [Nat.zero_add]; rfl
  | succ a ih =>
    rw [Nat.succ_add]
    exact ih (video_poll_tick te s)

theorem succ_div_mod (A n : Nat) (hA : 0 < A) :
    (n + 1) % A = (if n % A = A - 1 then 0 else n % A + 1)
      ∧ (n + 1) / A = (if n % A = A - 1 then n / A + 1 else n / A) := by
  have hr := Nat.mod_lt n hA
  have hn : n + 1 = (n % A + 1) + A * (n / A) := by
    have := Nat.div_add_mod n A
    omega
  rw [hn, Nat.add_mul_mod_self_left, Nat.add_mul_div_left _ _ hA]
  by_cases h : n % A = A - 1
  · have hA1 : n % A + 1 = A := by omega
    rw [if_pos h, if_pos h, hA1, Nat.mod_self, Nat.div_self hA]
    omega
  · have hlt : n % A + 1 < A := by omega
    rw [if_neg h, if_neg h, Nat.mod_eq_of_lt hlt, Nat.div_eq_of_lt hlt]
    omega

theorem and_255_of_lt (x : Nat) (h : x < 256) : x &&& 255 = x := by
  have := Nat.and_pow_two_sub_one_eq_mod x 8
  norm_num at this
  rw [this]
  exact Nat.mod_eq_of_lt h

theorem and_127_of_lt (x : Nat) (h : x < 128) : x &&& 127 = x := by
  have := Nat.and_pow_two_sub_one_eq_mod x 7
  norm_num at this
  rw [this]
  exact Nat.mod_eq_of_lt h

theorem and_31_of_lt (x : Nat) (h : x < 32) : x &&& 31 = x := by
  have := Nat.and_pow_two_sub_one_eq_mod x 5
  norm_num at this
  rw [this]
  exact Nat.mod_eq_of_lt h

theorem video_poll_draw_regs (te : Nat) (s : Video) :
    (video_poll_draw te s).toCrtcRegs = s.toCrtcRegs := by
  rw [video_poll_draw_eq]

theorem video_poll_draw_counters (te : Nat) (s : Video) :
    (video_poll_draw te s).toCrtcCounters = s.toCrtcCounters := by
  rw [video_poll_draw_eq]

theorem video_poll_draw_field (te : Nat) (s : Video) :
    (video_poll_draw te s).toFieldState = s.toFieldState := by
  rw [video_poll_draw_eq]

theorem video_poll_draw_ula (te : Nat) (s : Video) :
    (video_poll_draw te s).toUlaState = s.toUlaState := by
  rw [video_poll_draw_eq]

theorem video_poll_tick_eq (te : Nat) (s : Video) (hclk : s.ula_ctrl &&& 0x10 ≠ 0) :
    video_poll_tick te s = video_poll_hc te (video_poll_draw te (video_poll_clock s)) := by
  unfold video_poll_tick
  dsimp only
  rw [if_neg (fun h => hclk h.1)]
  rfl

theorem video_poll_tick_counters (te : Nat) (s : Video) (hclk : s.ula_ctrl &&& 0x10 ≠ 0)
    (hi : s.interline = 0) (hv : s.vadj = 0) (h5 : s.crtc 5 = 0) (h8 : s.crtc 8 &&& 1 = 0) :
    (video_poll_tick te s).toCrtcRegs = s.toCrtcRegs
      ∧ (video_poll_tick te s).toUlaState = s.toUlaState
      ∧ (video_poll_tick te s).interline = 0
      ∧ (video_poll_tick te s).toCrtcCounters
          = { hc := if s.hc = s.crtc 0 then 0 else (s.hc + 1) &&& 255
              vc := if s.hc = s.crtc 0 ∧ s.sc = s.crtc 9 then
                  (if s.vc = s.crtc 4 then 0 else (s.vc + 1) &&& 127)
                else s.vc
              sc := if s.hc = s.crtc 0 then (if s.sc = s.crtc 9 then 0 else (s.sc + 1) &&& 31)
                else s.sc
              vadj := 0 } := by
  have e1 : (video_poll_draw te (video_poll_clock s)).toCrtcRegs = s.toCrtcRegs := by
    rw [video_poll_draw_regs]; rfl
  have e2 : (video_poll_draw te (video_poll_clock s)).toCrtcCounters = s.toCrtcCounters := by
    rw [video_poll_draw_counters]; rfl
  have e3 : (video_poll_draw te (video_poll_clock s)).toFieldState = s.toFieldState := by
    rw [video_poll_draw_field]; rfl
  have e4 : (video_poll_draw te (video_poll_clock s)).toUlaState = s.toUlaState := by
    rw [video_poll_draw_ula]; rfl
  have key := video_poll_hc_counters te (video_poll_draw te (video_poll_clock s))
    (by show (video_poll_draw te (video_poll_clock s)).toFieldState.interline = 0
        rw [e3]; exact hi)
    (by show (video_poll_draw te (video_poll_clock s)).toCrtcCounters.vadj = 0
        rw [e2]; exact hv)
    (by show (video_poll_draw te (video_poll_clock s)).toCrtcRegs.crtc 5 = 0
        rw [e1]; exact h5)
    (by show (video_poll_draw te (video_poll_clock s)).toCrtcRegs.crtc 8 &&& 1 = 0
        rw [e1]; exact h8)
  rw [video_poll_tick_eq te s hclk]
  obtain ⟨k1, k2, k3, k4⟩ := key
  refine ⟨k1.trans e1, k2.trans e4, k3, ?_⟩
  rw [k4]
  show CrtcCounters.mk _ _ _ _ = CrtcCounters.mk _ _ _ _
  simp only [show ∀ v : Video, v.hc = v.toCrtcCounters.hc from fun _ => rfl,
    show ∀ v : Video, v.sc = v.toCrtcCounters.sc from fun _ => rfl,
    show ∀ v : Video, v.vc = v.toCrtcCounters.vc from fun _ => rfl,
    show ∀ v : Video, v.crtc = v.toCrtcRegs.crtc from fun _ => rfl, e1, e2]


theorem counters_step (R0 R9 R4 n : Nat) (h0 : R0 < 256) (h9 : R9 < 32) (h4 : R4 < 128) :
    (if n % (R0 + 1) = R0 then 0 else (n % (R0 + 1) + 1) &&& 255) = (n + 1) % (R0 + 1)
      ∧ (if n % (R0 + 1) = R0 then
            (if n / (R0 + 1) % (R9 + 1) = R9 then 0 else (n / (R0 + 1) % (R9 + 1) + 1) &&& 31)
          else n / (R0 + 1) % (R9 + 1)) = (n + 1) / (R0 + 1) % (R9 + 1)
      ∧ (if n % (R0 + 1) = R0 ∧ n / (R0 + 1) % (R9 + 1) = R9 then
            (if n / (R0 + 1) / (R9 + 1) % (R4 + 1) = R4 then 0
             else (n / (R0 + 1) / (R9 + 1) % (R4 + 1) + 1) &&& 127)
          else n / (R0 + 1) / (R9 + 1) % (R4 + 1))
          = (n + 1) / (R0 + 1) / (R9 + 1) % (R4 + 1) := by
  obtain ⟨a1, a2⟩ := succ_div_mod (R0 + 1) n (Nat.succ_pos _)
  obtain ⟨b1, b2⟩ := succ_div_mod (R9 + 1) (n / (R0 + 1)) (Nat.succ_pos _)
  obtain ⟨c1, -⟩ := succ_div_mod (R4 + 1) (n / (R0 + 1) / (R9 + 1)) (Nat.succ_pos _)
  have ha : n % (R0 + 1) < R0 + 1 := Nat.mod_lt n (Nat.succ_pos R0)
  have hb : n / (R0 + 1) % (R9 + 1) < R9 + 1 := Nat.mod_lt _ (Nat.succ_pos R9)
  have hc : n / (R0 + 1) / (R9 + 1) % (R4 + 1) < R4 + 1 := Nat.mod_lt _ (Nat.succ_pos R4)
  rw [Nat.add_sub_cancel] at a1 a2 b1 b2 c1
  rw [a1, a2]
  clear a1 a2
  by_cases hA : n % (R0 + 1) = R0
  · simp only [if_pos hA, true_and, b1, b2]
    clear b1 b2
    by_cases hB : n / (R0 + 1) % (R9 + 1) = R9
    · simp only [if_pos hB, c1, true_and, hA]
      clear c1
      by_cases hC : n / (R0 + 1) / (R9 + 1) % (R4 + 1) = R4
      · simp only [if_pos hC]
      · simp only [if_neg hC]
        exact and_127_of_lt _ (by omega)
    · simp only [if_neg hB, hA, hB, and_false, if_false, and_true]
      exact and_31_of_lt _ (by omega)
  · simp only [if_neg hA, hA, false_and, if_false, and_true]
    exact and_255_of_lt _ (by omega)


theorem video_poll_counters (te : Nat) (s : Video) (hclk : s.ula_ctrl &&& 0x10 ≠ 0)
    (hi : s.interline = 0) (hv : s.vadj = 0) (h5 : s.crtc 5 = 0) (h8 : s.crtc 8 &&& 1 = 0)
    (h0 : s.crtc 0 < 256) (h9 : s.crtc 9 < 32) (h4 : s.crtc 4 < 128)
    (hhc : s.hc = 0) (hsc : s.sc = 0) (hvc : s.vc = 0) (n : Nat) :
    (video_poll n te s).toCrtcRegs = s.toCrtcRegs
      ∧ (video_poll n te s).toUlaState = s.toUlaState
      ∧ (video_poll n te s).interline = 0
      ∧ (video_poll n te s).toCrtcCounters
          = { hc := n % (s.crtc 0 + 1)
              vc := n / (s.crtc 0 + 1) / (s.crtc 9 + 1) % (s.crtc 4 + 1)
              sc := n / (s.crtc 0 + 1) % (s.crtc 9 + 1)
              vadj := 0 } := by
  induction n with
  | zero =>
    refine ⟨rfl, rfl, hi, ?_⟩
    show s.toCrtcCounters = _
    simp only [Nat.zero_mod, Nat.zero_div]
    have e : s.toCrtcCounters = { hc := s.hc, vc := s.vc, sc := s.sc, vadj := s.vadj } := rfl
    rw [e, hhc, hvc, hsc, hv]
  | succ n ih =>
    obtain ⟨i1, i2, i3, i4⟩ := ih
    have tcrtc : (video_poll n te s).crtc = s.crtc := congrArg CrtcRegs.crtc i1
    have tula : (video_poll n te s).ula_ctrl = s.ula_ctrl := congrArg UlaState.ula_ctrl i2
    have thc : (video_poll n te s).hc = n % (s.crtc 0 + 1) := congrArg CrtcCounters.hc i4
    have tvc : (video_poll n te s).vc = n / (s.crtc 0 + 1) / (s.crtc 9 + 1) % (s.crtc 4 + 1) :=
      congrArg CrtcCounters.vc i4
    have tsc : (video_poll n te s).sc = n / (s.crtc 0 + 1) % (s.crtc 9 + 1) :=
      congrArg CrtcCounters.sc i4
    have tvadj : (video_poll n te s).vadj = 0 := congrArg CrtcCounters.vadj i4
    obtain ⟨k1, k2, k3, k4⟩ := video_poll_tick_counters te (video_poll n te s)
      (by rw [tula]; exact hclk) i3 tvadj (by rw [tcrtc]; exact h5) (by rw [tcrtc]; exact h8)
    rw [video_poll_succ_last]
    refine ⟨k1.trans i1, k2.trans i2, k3, ?_⟩
    rw [k4, thc, tvc, tsc, tcrtc]
    obtain ⟨c1, c2, c3⟩ := counters_step (s.crtc 0) (s.crtc 9) (s.crtc 4) n h0 h9 h4
    rw [c1, c2, c3]

/-! ## Blits and the vertical sync interrupt -/

set_option maxHeartbeats 1000000 in
theorem video_poll_hc_no_vsync (te : Nat) (p : Video) (hi : p.interline = 0) (hv : p.vadj = 0)
    (h8 : p.crtc 8 &&& 1 = 0) (hvs : p.vsynctime = 0)
    (hnv : ¬(p.hc = p.crtc 0 ∧ p.sc = p.crtc 9
              ∧ (if p.vc = p.crtc 4 then 0 else (p.vc + 1) &&& 127) = p.crtc 7)) :
    (video_poll_hc te p).toFieldState = p.toFieldState
      ∧ (video_poll_hc te p).scry = p.scry
      ∧ (video_poll_hc te p).hvblcount = p.hvblcount
      ∧ (video_poll_hc te p).vidclocks = p.vidclocks
      ∧ (video_poll_hc te p).calls = p.calls := by
  have h83 := and_three_ne_of_even _ h8
  unfold video_poll_hc video_poll_eol video_poll_row
  simp only [video_poll_vsync_eq, nula_delay_eq, ite_Video, ite_CrtcRegs, ite_CrtcCounters,
    ite_FieldState, ite_UlaState, ite_NulaState, ite_Mode7Cells, ite_Mode7Rows, ite_ScanState,
    ite_FetchState,
    ite_self, hi, hv, h8, h83, hvs]
  simp only [ne_eq, not_true_eq_false, false_and, if_false, or_false, and_true, true_and]
  have e : p.toFieldState
      = { interline := 0, interlline := p.interlline, frameodd := p.frameodd, vsynctime := 0,
          oldr8 := p.oldr8, ccount := p.ccount, vid_cleared := p.vid_cleared } := by
    have e0 : p.toFieldState
        = { interline := p.interline, interlline := p.interlline, frameodd := p.frameodd,
            vsynctime := p.vsynctime, oldr8 := p.oldr8, ccount := p.ccount,
            vid_cleared := p.vid_cleared } := rfl
    rw [e0, hi, hvs]
  rw [e]
  by_cases h1 : p.hc = p.crtc 0
  · by_cases h2 : p.sc = p.crtc 9
    · have h3 : ¬((if p.vc = p.crtc 4 then 0 else (p.vc + 1) &&& 127) = p.crtc 7) :=
        fun h => hnv ⟨h1, h2, h⟩
      simp only [if_pos h1, if_pos h2, if_neg h3, not_true_eq_false, if_false, and_self]
    · simp only [if_pos h1, if_neg h2, not_true_eq_false, if_false, and_self]
  · simp only [if_neg h1, and_self]


set_option maxHeartbeats 1000000 in
theorem video_poll_hc_vsync_calls (te : Nat) (p : Video) (hi : p.interline = 0) (hv : p.vadj = 0)
    (h8 : p.crtc 8 &&& 1 = 0) (hte : te ≠ 0) (h1 : p.hc = p.crtc 0) (h2 : p.sc = p.crtc 9)
    (h3 : (if p.vc = p.crtc 4 then 0 else (p.vc + 1) &&& 127) = p.crtc 7)
    (hclk : p.vidclocks > 1024) :
    (video_poll_hc te p).calls
      = (if p.ccount = 0 then p.calls ++ [ExtCall.video_doblit p.crtc_mode (p.crtc 4)]
         else p.calls) ++ [ExtCall.sysvia_set_ca1 1] := by
  have h83 := and_three_ne_of_even _ h8
  have hle : ¬(p.vidclocks ≤ 1024) := by omega
  unfold video_poll_hc video_poll_eol video_poll_row
  simp only [video_poll_vsync_eq, nula_delay_eq, ite_Video, ite_CrtcRegs, ite_CrtcCounters,
    ite_FieldState, ite_UlaState, ite_NulaState, ite_Mode7Cells, ite_Mode7Rows, ite_ScanState,
    ite_FetchState,
    ite_self, hi, hv, h8, h83]
  simp only [ne_eq, not_true_eq_false, false_and, if_false, or_false, and_true, true_and]
  simp only [if_pos h1, if_pos h2, if_pos h3, hclk, hle, true_and, false_and, if_false]
  rw [if_pos hte]

theorem shift_roundtrip (x il : Nat) (h : il ≤ 1) : ((x <<< 1) + il) >>> 1 = x := by
  rw [Nat.shiftLeft_eq, Nat.shiftRight_eq_div_pow]
  omega

theorem shift_roundtrip_zero (x : Nat) : (x <<< 1) >>> 1 = x := by
  rw [Nat.shiftLeft_eq, Nat.shiftRight_eq_div_pow]
  omega

theorem video_poll_draw_scan (te : Nat) (c : Video) (hh : c.hvblcount = 0) (hil : c.interlline ≤ 1) :
    (video_poll_draw te c).scry
        = (if c.hc = c.crtc 2 then (if c.scry + 1 ≥ 384 then 0 else c.scry + 1) else c.scry)
      ∧ (video_poll_draw te c).calls
        = (if c.hc = c.crtc 2 then
            (if c.scry + 1 ≥ 384 then c.calls ++ [ExtCall.video_doblit c.crtc_mode (c.crtc 4)]
             else c.calls)
           else c.calls)
      ∧ (video_poll_draw te c).hvblcount = 0
      ∧ (video_poll_draw te c).vidclocks = c.vidclocks := by
  rw [video_poll_draw_eq]
  simp only [video_poll_hvbl_eq, video_poll_scry_out_eq, video_poll_scry_in_eq,
    video_poll_hsync_eq, hh, ne_eq, not_true_eq_false, if_false, and_true, true_and]
  split_ifs <;> first | rfl | exact shift_roundtrip _ _ hil | exact shift_roundtrip_zero _

/-! ## One frame of the scenario -/

theorem frame_start_scenario : FrameScenario frame_start := by
  refine ⟨rfl, rfl, rfl, rfl, rfl, ?_, by decide, rfl, rfl, rfl, rfl, rfl⟩
  intro i h0 h1 h4 h6 h9
  show [63, 40, 0, 0, 38, 0, 32, 0, 0, 9].getD i 0 = 0
  rcases i with _ | _ | _ | _ | _ | _ | _ | _ | _ | _ | i <;> first | rfl | contradiction

theorem frame_scenario_counters {s : Video} (h : FrameScenario s) (te n : Nat) :
    (video_poll n te s).toCrtcRegs = s.toCrtcRegs
      ∧ (video_poll n te s).toUlaState = s.toUlaState
      ∧ (video_poll n te s).interline = 0
      ∧ (video_poll n te s).toCrtcCounters
          = { hc := n % 64, vc := n / 64 / 10 % 39, sc := n / 64 % 10, vadj := 0 } := by
  obtain ⟨h0, -, h4, -, h9, hz, hclk, hhc, hvc, hsc, hv, hi⟩ := h
  have h5 : s.crtc 5 = 0 := hz 5 (by decide) (by decide) (by decide) (by decide) (by decide)
  have h8 : s.crtc 8 = 0 := hz 8 (by decide) (by decide) (by decide) (by decide) (by decide)
  have := video_poll_counters te s hclk hi hv h5 (by rw [h8]; rfl) (by omega) (by omega) (by omega)
    hhc hsc hvc n
  rw [h0, h9, h4] at this
  exact this

/-- C11: with the high-frequency clock, no interlace (`interline = 0`, `crtc[8] & 1 = 0`), no
vertical adjust (`vadj = 0`, `crtc[5] = 0`), registers 0, 9 and 4 within their masks and the
counters at 0, `video_poll` brings `hc`, `sc` and `vc` back to 0 after
`(R0+1)*(R9+1)*(R4+1)` ticks; before that the counters are the digits of the tick number, so
they are not all 0 at any earlier tick and `vc = k`, not 0, at the `k`-th row boundary. With
`crtc[0] = 63`, `crtc[9] = 9`, `crtc[4] = 38` the counters are 0 after 24960 ticks. -/
theorem video_poll_frame_period (te : Nat) (s : Video) (hclk : s.ula_ctrl &&& 0x10 ≠ 0)
    (hi : s.interline = 0) (hv : s.vadj = 0) (h5 : s.crtc 5 = 0) (h8 : s.crtc 8 &&& 1 = 0)
    (h0 : s.crtc 0 < 256) (h9 : s.crtc 9 < 32) (h4 : s.crtc 4 < 128)
    (hhc : s.hc = 0) (hsc : s.sc = 0) (hvc : s.vc = 0) :
    ((video_poll ((s.crtc 0 + 1) * (s.crtc 9 + 1) * (s.crtc 4 + 1)) te s).hc = 0
        ∧ (video_poll ((s.crtc 0 + 1) * (s.crtc 9 + 1) * (s.crtc 4 + 1)) te s).sc = 0
        ∧ (video_poll ((s.crtc 0 + 1) * (s.crtc 9 + 1) * (s.crtc 4 + 1)) te s).vc = 0)
      ∧ (∀ n, n < (s.crtc 0 + 1) * (s.crtc 9 + 1) * (s.crtc 4 + 1) →
          (video_poll n te s).hc = n % (s.crtc 0 + 1)
            ∧ (video_poll n te s).sc = n / (s.crtc 0 + 1) % (s.crtc 9 + 1)
            ∧ (video_poll n te s).vc = n / ((s.crtc 0 + 1) * (s.crtc 9 + 1)))
      ∧ (∀ k, 0 < k → k < s.crtc 4 + 1 →
          (video_poll (k * ((s.crtc 0 + 1) * (s.crtc 9 + 1))) te s).vc = k)
      ∧ (s.crtc 0 = 63 → s.crtc 9 = 9 → s.crtc 4 = 38 →
          (video_poll 24960 te s).vc = 0 ∧ (video_poll 24960 te s).hc = 0
            ∧ (video_poll 24960 te s).sc = 0) := by
  have key := fun n => (video_poll_counters te s hclk hi hv h5 h8 h0 h9 h4 hhc hsc hvc n).2.2.2
  have khc : ∀ n, (video_poll n te s).hc = n % (s.crtc 0 + 1) := fun n =>
    congrArg CrtcCounters.hc (key n)
  have ksc : ∀ n, (video_poll n te s).sc = n / (s.crtc 0 + 1) % (s.crtc 9 + 1) := fun n =>
    congrArg CrtcCounters.sc (key n)
  have kvc : ∀ n, (video_poll n te s).vc
      = n / (s.crtc 0 + 1) / (s.crtc 9 + 1) % (s.crtc 4 + 1) := fun n =>
    congrArg CrtcCounters.vc (key n)
  have hA : 0 < s.crtc 0 + 1 := Nat.succ_pos _
  have hB : 0 < s.crtc 9 + 1 := Nat.succ_pos _
  have hC : 0 < s.crtc 4 + 1 := Nat.succ_pos _
  have full : (video_poll ((s.crtc 0 + 1) * (s.crtc 9 + 1) * (s.crtc 4 + 1)) te s).hc = 0
      ∧ (video_poll ((s.crtc 0 + 1) * (s.crtc 9 + 1) * (s.crtc 4 + 1)) te s).sc = 0
      ∧ (video_poll ((s.crtc 0 + 1) * (s.crtc 9 + 1) * (s.crtc 4 + 1)) te s).vc = 0 := by
    rw [khc, ksc, kvc, Nat.mul_assoc, Nat.mul_div_cancel_left _ hA, Nat.mul_div_cancel_left _ hB]
    refine ⟨Nat.mul_mod_right _ _, Nat.mul_mod_right _ _, Nat.mod_self _⟩
  refine ⟨full, ?_, ?_, ?_⟩
  · intro n hn
    rw [khc, ksc, kvc, Nat.div_div_eq_div_mul]
    refine ⟨rfl, rfl, Nat.mod_eq_of_lt ?_⟩
    rw [Nat.div_lt_iff_lt_mul (Nat.mul_pos hA hB)]
    rw [Nat.mul_comm]
    exact hn
  · intro k _ hk
    rw [kvc, Nat.div_div_eq_div_mul, Nat.mul_div_cancel _ (Nat.mul_pos hA hB)]
    exact Nat.mod_eq_of_lt hk
  · intro e0 e9 e4
    rw [e0, e9, e4, show (63 + 1) * (9 + 1) * (38 + 1) = 24960 from rfl] at full
    exact ⟨full.2.2, full.1, full.2.1⟩

theorem video_poll_frame_period_witness :
    (video_poll 24960 1 frame_start).vc = 0 ∧ (video_poll 24960 1 frame_start).hc = 0
      ∧ (video_poll 24960 1 frame_start).sc = 0 :=
  (video_poll_frame_period 1 frame_start (by decide) rfl rfl rfl rfl (by decide) (by decide)
    (by decide) rfl rfl rfl).2.2.2 rfl rfl rfl

theorem video_poll_tick_no_vsync (te : Nat) (t : Video) (hclk : t.ula_ctrl &&& 0x10 ≠ 0)
    (hi : t.interline = 0) (hv : t.vadj = 0) (h8 : t.crtc 8 &&& 1 = 0) (hvs : t.vsynctime = 0)
    (hh : t.hvblcount = 0) (hil : t.interlline ≤ 1)
    (hnv : ¬(t.hc = t.crtc 0 ∧ t.sc = t.crtc 9
              ∧ (if t.vc = t.crtc 4 then 0 else (t.vc + 1) &&& 127) = t.crtc 7)) :
    (video_poll_tick te t).toFieldState = t.toFieldState
      ∧ (video_poll_tick te t).scry
          = (if t.hc = t.crtc 2 then (if t.scry + 1 ≥ 384 then 0 else t.scry + 1) else t.scry)
      ∧ (video_poll_tick te t).hvblcount = 0
      ∧ (video_poll_tick te t).vidclocks = t.vidclocks + 1
      ∧ (video_poll_tick te t).calls
          = (if t.hc = t.crtc 2 then
              (if t.scry + 1 ≥ 384 then t.calls ++ [ExtCall.video_doblit t.crtc_mode (t.crtc 4)]
               else t.calls)
             else t.calls) := by
  have e1 : (video_poll_draw te (video_poll_clock t)).toCrtcRegs = t.toCrtcRegs := by
    rw [video_poll_draw_regs]; rfl
  have e2 : (video_poll_draw te (video_poll_clock t)).toCrtcCounters = t.toCrtcCounters := by
    rw [video_poll_draw_counters]; rfl
  have e3 : (video_poll_draw te (video_poll_clock t)).toFieldState = t.toFieldState := by
    rw [video_poll_draw_field]; rfl
  obtain ⟨d1, d2, d3, d4⟩ := video_poll_draw_scan te (video_poll_clock t) hh hil
  have pcrtc : (video_poll_draw te (video_poll_clock t)).crtc = t.crtc := congrArg CrtcRegs.crtc e1
  have phc : (video_poll_draw te (video_poll_clock t)).hc = t.hc := congrArg CrtcCounters.hc e2
  have psc : (video_poll_draw te (video_poll_clock t)).sc = t.sc := congrArg CrtcCounters.sc e2
  have pvc : (video_poll_draw te (video_poll_clock t)).vc = t.vc := congrArg CrtcCounters.vc e2
  have pvadj : (video_poll_draw te (video_poll_clock t)).vadj = t.vadj :=
    congrArg CrtcCounters.vadj e2
  have pint : (video_poll_draw te (video_poll_clock t)).interline = t.interline :=
    congrArg FieldState.interline e3
  have pvs : (video_poll_draw te (video_poll_clock t)).vsynctime = t.vsynctime :=
    congrArg FieldState.vsynctime e3
  obtain ⟨k1, k2, k3, k4, k5⟩ := video_poll_hc_no_vsync te (video_poll_draw te (video_poll_clock t))
    (pint.trans hi) (pvadj.trans hv) (by rw [pcrtc]; exact h8) (pvs.trans hvs)
    (by rw [phc, psc, pvc, pcrtc]; exact hnv)
  rw [video_poll_tick_eq te t hclk]
  refine ⟨k1.trans e3, k2.trans d1, k3.trans d3, k4.trans d4, k5.trans d2⟩

theorem video_poll_tick_vsync_calls (te : Nat) (t : Video) (hclk : t.ula_ctrl &&& 0x10 ≠ 0)
    (hi : t.interline = 0) (hv : t.vadj = 0) (h8 : t.crtc 8 &&& 1 = 0)
    (hh : t.hvblcount = 0) (hil : t.interlline ≤ 1) (hte : te ≠ 0)
    (h1 : t.hc = t.crtc 0) (h2 : t.sc = t.crtc 9)
    (h3 : (if t.vc = t.crtc 4 then 0 else (t.vc + 1) &&& 127) = t.crtc 7)
    (hsync : t.hc ≠ t.crtc 2) (hvid : t.vidclocks + 1 > 1024) :
    (video_poll_tick te t).calls
      = (if t.ccount = 0 then t.calls ++ [ExtCall.video_doblit t.crtc_mode (t.crtc 4)]
         else t.calls) ++ [ExtCall.sysvia_set_ca1 1] := by
  have e1 : (video_poll_draw te (video_poll_clock t)).toCrtcRegs = t.toCrtcRegs := by
    rw [video_poll_draw_regs]; rfl
  have e2 : (video_poll_draw te (video_poll_clock t)).toCrtcCounters = t.toCrtcCounters := by
    rw [video_poll_draw_counters]; rfl
  have e3 : (video_poll_draw te (video_poll_clock t)).toFieldState = t.toFieldState := by
    rw [video_poll_draw_field]; rfl
  obtain ⟨-, d2, -, d4⟩ := video_poll_draw_scan te (video_poll_clock t) hh hil
  have pcrtc : (video_poll_draw te (video_poll_clock t)).crtc = t.crtc := congrArg CrtcRegs.crtc e1
  have pmode : (video_poll_draw te (video_poll_clock t)).crtc_mode = t.crtc_mode :=
    congrArg CrtcRegs.crtc_mode e1
  have phc : (video_poll_draw te (video_poll_clock t)).hc = t.hc := congrArg CrtcCounters.hc e2
  have psc : (video_poll_draw te (video_poll_clock t)).sc = t.sc := congrArg CrtcCounters.sc e2
  have pvc : (video_poll_draw te (video_poll_clock t)).vc = t.vc := congrArg CrtcCounters.vc e2
  have pvadj : (video_poll_draw te (video_poll_clock t)).vadj = t.vadj :=
    congrArg CrtcCounters.vadj e2
  have pint : (video_poll_draw te (video_poll_clock t)).interline = t.interline :=
    congrArg FieldState.interline e3
  have pcc : (video_poll_draw te (video_poll_clock t)).ccount = t.ccount :=
    congrArg FieldState.ccount e3
  have key := video_poll_hc_vsync_calls te (video_poll_draw te (video_poll_clock t))
    (pint.trans hi) (pvadj.trans hv) (by rw [pcrtc]; exact h8) hte
    (by rw [phc, pcrtc]; exact h1) (by rw [psc, pcrtc]; exact h2)
    (by rw [pvc, pcrtc]; exact h3) (by rw [d4]; exact hvid)
  rw [video_poll_tick_eq te t hclk, key, pcc, pmode, pcrtc, d2]
  have hc' : (video_poll_clock t).hc = t.hc := rfl
  have hcr : (video_poll_clock t).crtc = t.crtc := rfl
  rw [hc', hcr, if_neg hsync]
  rfl

theorem frame_scenario_scan {s : Video} (h : FrameScenario s) (te : Nat) (hy : s.scry = 0)
    (hvs : s.vsynctime = 0) (hh : s.hvblcount = 0) (hil : s.interlline ≤ 1) (n : Nat)
    (hn : n ≤ 24959) :
    (video_poll n te s).toFieldState = s.toFieldState
      ∧ (video_poll n te s).scry
          = (if (n + 63) / 64 < 384 then (n + 63) / 64 else (n + 63) / 64 - 384)
      ∧ (video_poll n te s).hvblcount = 0
      ∧ (video_poll n te s).vidclocks = s.vidclocks + n
      ∧ (video_poll n te s).calls
          = s.calls ++ (if 384 ≤ (n + 63) / 64 then [ExtCall.video_doblit s.crtc_mode 38] else []) := by
  induction n with
  | zero =>
    refine ⟨rfl, ?_, hh, rfl, ?_⟩
    · show s.scry = _
      rw [hy]
      rfl
    · show s.calls = _
      simp
  | succ n ih =>
    obtain ⟨i1, i2, i3, i4, i5⟩ := ih (by omega)
    obtain ⟨c1, c2, c3, c4⟩ := frame_scenario_counters h te n
    obtain ⟨h0, -, h4, -, h9, hz, hclk, -, -, -, -, hi⟩ := h
    have h2 : s.crtc 2 = 0 := hz 2 (by decide) (by decide) (by decide) (by decide) (by decide)
    have h7 : s.crtc 7 = 0 := hz 7 (by decide) (by decide) (by decide) (by decide) (by decide)
    have h8 : s.crtc 8 = 0 := hz 8 (by decide) (by decide) (by decide) (by decide) (by decide)
    have tcrtc : (video_poll n te s).crtc = s.crtc := congrArg CrtcRegs.crtc c1
    have tmode : (video_poll n te s).crtc_mode = s.crtc_mode := congrArg CrtcRegs.crtc_mode c1
    have tula : (video_poll n te s).ula_ctrl = s.ula_ctrl := congrArg UlaState.ula_ctrl c2
    have thc : (video_poll n te s).hc = n % 64 := congrArg CrtcCounters.hc c4
    have tvc : (video_poll n te s).vc = n / 64 / 10 % 39 := congrArg CrtcCounters.vc c4
    have tsc : (video_poll n te s).sc = n / 64 % 10 := congrArg CrtcCounters.sc c4
    have tvadj : (video_poll n te s).vadj = 0 := congrArg CrtcCounters.vadj c4
    have tvs : (video_poll n te s).vsynctime = 0 := (congrArg FieldState.vsynctime i1).trans hvs
    have til : (video_poll n te s).interlline ≤ 1 := by
      rw [show (video_poll n te s).interlline = s.interlline from
        congrArg FieldState.interlline i1]
      exact hil
    obtain ⟨k1, k2, k3, k4, k5⟩ := video_poll_tick_no_vsync te (video_poll n te s)
      (by rw [tula]; exact hclk) c3 tvadj (by rw [tcrtc, h8]; rfl) tvs i3 til
      (by
        rw [thc, tsc, tvc, tcrtc, h0, h9, h4, h7]
        rintro ⟨a1, a2, a3⟩
        by_cases hv38 : n / 64 / 10 % 39 = 38
        · omega
        · rw [if_neg hv38, and_127_of_lt _ (by omega)] at a3
          omega)
    rw [video_poll_succ_last]
    refine ⟨k1.trans i1, ?_, k3, ?_, ?_⟩
    · rw [k2, thc, tcrtc, h2, i2]
      split_ifs <;> omega
    · rw [k4, i4]
      omega
    · rw [k5, thc, tcrtc, h2, i2, i5, tmode, h4]
      by_cases hm : n % 64 = 0
      · rw [if_pos hm]
        by_cases hl : (n + 63) / 64 < 384
        · rw [if_pos hl]
          by_cases hl2 : (n + 63) / 64 + 1 ≥ 384
          · rw [if_pos hl2, if_neg (by omega), if_pos (by omega), List.append_nil]
          · rw [if_neg hl2, if_neg (by omega), if_neg (by omega)]
        · rw [if_neg hl, if_neg (by omega), if_pos (by omega), if_pos (by omega)]
      · rw [if_neg hm]
        have e : (n + 1 + 63) / 64 = (n + 63) / 64 := by omega
        rw [e]

theorem frame_scenario_calls {s : Video} (h : FrameScenario s) (te : Nat) (hy : s.scry = 0)
    (hvs : s.vsynctime = 0) (hh : s.hvblcount = 0) (hil : s.interlline ≤ 1) (hte : te ≠ 0) :
    (video_poll 24960 te s).calls
      = (if s.ccount = 0 then
          s.calls ++ [ExtCall.video_doblit s.crtc_mode 38, ExtCall.video_doblit s.crtc_mode 38]
         else s.calls ++ [ExtCall.video_doblit s.crtc_mode 38]) ++ [ExtCall.sysvia_set_ca1 1] := by
  obtain ⟨i1, -, i3, i4, i5⟩ := frame_scenario_scan h te hy hvs hh hil 24959 (le_refl _)
  obtain ⟨c1, c2, c3, c4⟩ := frame_scenario_counters h te 24959
  obtain ⟨h0, -, h4, -, h9, hz, hclk, -, -, -, -, hi⟩ := h
  have h2 : s.crtc 2 = 0 := hz 2 (by decide) (by decide) (by decide) (by decide) (by decide)
  have h7 : s.crtc 7 = 0 := hz 7 (by decide) (by decide) (by decide) (by decide) (by decide)
  have h8 : s.crtc 8 = 0 := hz 8 (by decide) (by decide) (by decide) (by decide) (by decide)
  have tcrtc : (video_poll 24959 te s).crtc = s.crtc := congrArg CrtcRegs.crtc c1
  have tmode : (video_poll 24959 te s).crtc_mode = s.crtc_mode := congrArg CrtcRegs.crtc_mode c1
  have tula : (video_poll 24959 te s).ula_ctrl = s.ula_ctrl := congrArg UlaState.ula_ctrl c2
  have thc : (video_poll 24959 te s).hc = 63 := congrArg CrtcCounters.hc c4
  have tvc : (video_poll 24959 te s).vc = 38 := congrArg CrtcCounters.vc c4
  have tsc : (video_poll 24959 te s).sc = 9 := congrArg CrtcCounters.sc c4
  have tvadj : (video_poll 24959 te s).vadj = 0 := congrArg CrtcCounters.vadj c4
  have tcc : (video_poll 24959 te s).ccount = s.ccount := congrArg FieldState.ccount i1
  have til : (video_poll 24959 te s).interlline ≤ 1 := by
    rw [show (video_poll 24959 te s).interlline = s.interlline from
      congrArg FieldState.interlline i1]
    exact hil
  have key := video_poll_tick_vsync_calls te (video_poll 24959 te s)
    (by rw [tula]; exact hclk) c3 tvadj (by rw [tcrtc, h8]; rfl) i3 til hte
    (by rw [thc, tcrtc, h0]) (by rw [tsc, tcrtc, h9])
    (by rw [tvc, tcrtc, h4, h7]; rfl) (by rw [thc, tcrtc, h2]; decide) (by rw [i4]; omega)
  rw [show (24960 : Nat) = 24959 + 1 from rfl, video_poll_succ_last, key, tcc, i5, tmode, tcrtc, h4]
  have e384 : 384 ≤ (24959 + 63) / 64 := by decide
  rw [if_pos e384]
  by_cases hcc : s.ccount = 0
  · rw [if_pos hcc, if_pos hcc]
    simp only [List.append_assoc, List.cons_append, List.nil_append]
  · rw [if_neg hcc, if_neg hcc]

theorem count_doblit_append (a b : List ExtCall) :
    count_doblit (a ++ b) = count_doblit a + count_doblit b := by
  induction a with
  | nil => simp [count_doblit]
  | cons x a ih =>
    cases x with
    | video_doblit m v =>
      show count_doblit (a ++ b) + 1 = count_doblit a + 1 + count_doblit b
      rw [ih]
      omega
    | sysvia_set_ca1 v => exact ih

theorem count_ca1_append (level : Nat) (a b : List ExtCall) :
    count_ca1 level (a ++ b) = count_ca1 level a + count_ca1 level b := by
  induction a with
  | nil => simp [count_ca1]
  | cons x a ih =>
    cases x with
    | video_doblit m v => exact ih
    | sysvia_set_ca1 v =>
      show count_ca1 level (a ++ b) + (if v = level then 1 else 0)
        = count_ca1 level a + (if v = level then 1 else 0) + count_ca1 level b
      rw [ih]
      omega

/-- C12, counterexample: from power-on with the registers of the scenario programmed,
`scry = 0` and `timer_enable` set, the 24960 ticks of one frame call `video_doblit` twice: at
the horizontal sync of the 384th scanline and at the vertical sync position on the last
tick. -/
theorem video_poll_frame_blit_counterexample :
    (video_poll 24960 1 frame_start).calls
        = [ExtCall.video_doblit 0 38, ExtCall.video_doblit 0 38, ExtCall.sysvia_set_ca1 1]
      ∧ count_doblit (video_poll 24960 1 frame_start).calls = 2 := by
  have h := frame_scenario_calls frame_start_scenario 1 rfl rfl rfl (by decide) (by decide)
  have hcc : frame_start.ccount = 0 := rfl
  rw [if_pos hcc] at h
  rw [h]
  exact ⟨rfl, rfl⟩

/-- C12, amended: in the scenario, with `scry = 0`, `vsynctime = 0`, `hvblcount = 0`,
`interlline` 0 or 1 and `timer_enable` set, the 24960 ticks of one frame append to the external
calls one `video_doblit` (horizontal sync of the 384th scanline), a second `video_doblit` when
`ccount = 0` (vertical sync position, last tick), and one `sysvia_set_ca1(1)`; so
`sysvia_set_ca1(1)` is called exactly once and `video_doblit` twice when `ccount = 0`. -/
theorem video_poll_frame_calls (te : Nat) (s : Video) (h : FrameScenario s) (hy : s.scry = 0)
    (hvs : s.vsynctime = 0) (hh : s.hvblcount = 0) (hil : s.interlline ≤ 1) (hte : te ≠ 0) :
    (video_poll 24960 te s).calls
        = (if s.ccount = 0 then
            s.calls ++ [ExtCall.video_doblit s.crtc_mode 38, ExtCall.video_doblit s.crtc_mode 38]
           else s.calls ++ [ExtCall.video_doblit s.crtc_mode 38]) ++ [ExtCall.sysvia_set_ca1 1]
      ∧ count_doblit (video_poll 24960 te s).calls
          = count_doblit s.calls + (if s.ccount = 0 then 2 else 1)
      ∧ count_ca1 1 (video_poll 24960 te s).calls = count_ca1 1 s.calls + 1 := by
  have hc := frame_scenario_calls h te hy hvs hh hil hte
  refine ⟨hc, ?_, ?_⟩
  · rw [hc]
    split_ifs <;> simp only [count_doblit_append, count_doblit]
  · rw [hc]
    split_ifs <;> simp only [count_ca1_append, count_ca1, if_true, Nat.add_zero, Nat.zero_add]

theorem video_poll_frame_calls_witness :
    (video_poll 24960 1 frame_start).calls
        = (if frame_start.ccount = 0 then
            frame_start.calls
              ++ [ExtCall.video_doblit frame_start.crtc_mode 38,
                  ExtCall.video_doblit frame_start.crtc_mode 38]
           else frame_start.calls ++ [ExtCall.video_doblit frame_start.crtc_mode 38])
          ++ [ExtCall.sysvia_set_ca1 1]
      ∧ count_doblit (video_poll 24960 1 frame_start).calls
          = count_doblit frame_start.calls + (if frame_start.ccount = 0 then 2 else 1)
      ∧ count_ca1 1 (video_poll 24960 1 frame_start).calls = count_ca1 1 frame_start.calls + 1 :=
  video_poll_frame_calls 1 frame_start frame_start_scenario rfl rfl rfl (by decide) (by decide)

/-! ## Control codes in reachable states -/

theorem mode7_control_heldchar (s : Video) (l : Mode7Cell) :
    (mode7_control s l).1.mode7_heldchar = s.mode7_heldchar
      ∧ (mode7_control s l).1.mode7_heldp0 = s.mode7_heldp0
      ∧ (mode7_control s l).1.mode7_heldp1 = s.mode7_heldp1 := by
  unfold mode7_control
  split <;> dsimp only <;> (try split_ifs) <;> exact ⟨rfl, rfl, rfl⟩

theorem mode7_control_dat (s : Video) (l : Mode7Cell) :
    (mode7_control s l).2.dat = l.dat := by
  unfold mode7_control
  split <;> rfl

/-- The glyph code chosen for a control-code cell. -/
theorem mode7_decode_control_glyph (dblx : Nat) (s : Video) (l : Mode7Cell) (h : l.dat < 0x20) :
    (mode7_decode dblx s l).2.dat = 0x20
      ∨ ((mode7_decode dblx s l).1.mode7_holdchar ≠ 0
          ∧ (mode7_decode dblx s l).2.dat = s.mode7_heldchar) := by
  obtain ⟨hc, -, -⟩ := mode7_control_heldchar s l
  unfold mode7_decode
  rw [if_pos h]
  dsimp only
  generalize mode7_control s l = ctl at hc
  split_ifs <;> first | exact Or.inl rfl | exact Or.inr ⟨by assumption, hc⟩

theorem mode7_decode_heldchar (dblx : Nat) (s : Video) (l : Mode7Cell)
    (hh : 0x20 ≤ s.mode7_heldchar) : 0x20 ≤ (mode7_decode dblx s l).1.mode7_heldchar := by
  unfold mode7_decode
  split_ifs with h1 h2
  · rw [(mode7_control_heldchar s l).1]
    exact hh
  · show 0x20 ≤ l.dat
    omega
  · exact hh

theorem mode7_cell_heldchar (dat mcolx flashx dblx : Nat) (s : Video)
    (hh : 0x20 ≤ s.mode7_heldchar) :
    0x20 ≤ (mode7_cell dat mcolx flashx dblx s).mode7_heldchar := by
  by_cases h : dat = 255
  · unfold mode7_cell
    rw [if_pos h]
    exact hh
  · rw [mode7_cell_eq _ _ _ _ _ h]
    dsimp only
    split_ifs
    · decide
    · exact mode7_decode_heldchar _ _ _ hh

theorem mode7_push_heldchar (d : Nat) (s : Video) :
    (mode7_push d s).mode7_heldchar = s.mode7_heldchar := by
  rw [mode7_push_eq]

theorem mode7_render_heldchar (d : Nat) (s : Video) (hh : 0x20 ≤ s.mode7_heldchar) :
    0x20 ≤ (mode7_render d s).mode7_heldchar := by
  by_cases h : s.scrx < 1280 - 32
  · rw [mode7_render_eq d s h]
    exact mode7_cell_heldchar _ _ _ _ _ (by rw [mode7_push_heldchar]; exact hh)
  · unfold mode7_render
    dsimp only
    rw [if_neg h]
    exact hh

theorem crtc_write_keeps (addr val : Nat) (s : Video) :
    (crtc_write addr val s).mode7_heldchar = s.mode7_heldchar
      ∧ (crtc_write addr val s).dispen = s.dispen
      ∧ (crtc_write addr val s).charsleft = s.charsleft := by
  unfold crtc_write crtc_setreg set_intern_dtype
  simp only [ite_Video, ite_CrtcRegs, ite_CrtcCounters, ite_FieldState, ite_UlaState, ite_NulaState,
    ite_Mode7Cells, ite_Mode7Rows, ite_ScanState, ite_FetchState, ite_self]
  exact ⟨trivial, by split_ifs <;> rfl, by split_ifs <;> rfl⟩

theorem videoula_write_keeps (addr val : Nat) (s : Video) :
    (videoula_write addr val s).mode7_heldchar = s.mode7_heldchar
      ∧ (videoula_write addr val s).dispen = s.dispen
      ∧ (videoula_write addr val s).charsleft = s.charsleft := by
  unfold videoula_write
  dsimp only
  split
  · unfold videoula_write_ctrl set_intern_dtype
    simp only [ctrl_flash_on_loop, ctrl_flash_off_loop, ite_Video, ite_CrtcRegs, ite_CrtcCounters,
      ite_FieldState, ite_UlaState, ite_NulaState, ite_Mode7Cells, ite_Mode7Rows, ite_ScanState,
      ite_FetchState, ite_self, and_self]
  · unfold videoula_write_pal
    simp only [ite_Video, ite_CrtcRegs, ite_CrtcCounters,
      ite_FieldState, ite_UlaState, ite_NulaState, ite_Mode7Cells, ite_Mode7Rows, ite_ScanState,
      ite_FetchState, ite_self, and_self]
  · unfold videoula_write_nula_ctrl
    dsimp only
    split <;> exact ⟨rfl, rfl, rfl⟩
  · unfold videoula_write_nula_pal
    simp only [nula_commit_loop, ite_Video, ite_CrtcRegs, ite_CrtcCounters,
      ite_FieldState, ite_UlaState, ite_NulaState, ite_Mode7Cells, ite_Mode7Rows, ite_ScanState,
      ite_FetchState, ite_self, and_self]

theorem video_poll_hdisp_held (s : Video) (h : HeldInv s) :
    (video_poll_hdisp s).mode7_heldchar = s.mode7_heldchar
      ∧ HeldInv (video_poll_hdisp s)
      ∧ ((video_poll_hdisp s).dispen ≠ 0 ∨ (video_poll_hdisp s).charsleft ≠ 0 →
          0x20 ≤ s.mode7_heldchar) := by
  unfold HeldInv at h ⊢
  unfold video_poll_hdisp
  simp only [ite_Video, ite_CrtcRegs, ite_CrtcCounters, ite_FieldState, ite_UlaState, ite_NulaState,
    ite_Mode7Cells, ite_Mode7Rows, ite_ScanState, ite_FetchState, ite_self, true_and]
  split_ifs <;> simp_all
  tauto

theorem video_poll_display_held (s : Video) (hh : 0x20 ≤ s.mode7_heldchar) :
    0x20 ≤ (video_poll_display s).mode7_heldchar := by
  unfold video_poll_display video_poll_cursor
  simp only [mode7_render_split, ite_Video, ite_CrtcRegs, ite_CrtcCounters, ite_FieldState,
    ite_UlaState, ite_NulaState, ite_Mode7Cells, ite_Mode7Rows, ite_ScanState, ite_FetchState,
    ite_self, apply_ite Mode7Cells.mode7_heldchar]
  split_ifs <;> first | exact hh | exact mode7_render_heldchar _ _ hh

theorem video_poll_blank_held (s : Video) (hc : s.charsleft ≠ 0 → 0x20 ≤ s.mode7_heldchar)
    (h : HeldInv s) : HeldInv (video_poll_blank s) := by
  unfold HeldInv at h ⊢
  by_cases h0 : 0x20 ≤ s.mode7_heldchar
  · left
    unfold video_poll_blank video_poll_cursor
    simp only [mode7_render_split, ite_Video, ite_CrtcRegs, ite_CrtcCounters, ite_FieldState,
      ite_UlaState, ite_NulaState, ite_Mode7Cells, ite_Mode7Rows, ite_ScanState, ite_FetchState,
      ite_self, apply_ite Mode7Cells.mode7_heldchar]
    split_ifs <;> first | exact h0 | exact mode7_render_heldchar _ _ h0
  · have hcl : s.charsleft = 0 := by
      by_contra hne
      exact h0 (hc hne)
    have hd : s.dispen = 0 := by
      rcases h with h | h
      · exact absurd h h0
      · exact h.1
    right
    unfold video_poll_blank video_poll_cursor
    simp only [mode7_render_split, ite_Video, ite_CrtcRegs, ite_CrtcCounters, ite_FieldState,
      ite_UlaState, ite_NulaState, ite_Mode7Cells, ite_Mode7Rows, ite_ScanState, ite_FetchState,
      ite_self, hcl, hd, ne_eq, not_true_eq_false, if_false, and_self]

theorem video_poll_draw_held (te : Nat) (s : Video) (h : HeldInv s) :
    HeldInv (video_poll_draw te s) := by
  obtain ⟨a1, a2, a3⟩ := video_poll_hdisp_held s h
  have key : HeldInv
      (if (video_poll_scry_in (video_poll_hsync (video_poll_hdisp s))).dispen ≠ 0 then
        video_poll_display (video_poll_scry_in (video_poll_hsync (video_poll_hdisp s)))
       else video_poll_blank (video_poll_scry_in (video_poll_hsync (video_poll_hdisp s)))) := by
    have e1 : (video_poll_scry_in (video_poll_hsync (video_poll_hdisp s))).toMode7Cells
        = (video_poll_hdisp s).toMode7Cells := by
      rw [video_poll_scry_in_eq, video_poll_hsync_eq]
    have e2 : (video_poll_scry_in (video_poll_hsync (video_poll_hdisp s))).toFetchState
        = (video_poll_hdisp s).toFetchState := by
      rw [video_poll_scry_in_eq, video_poll_hsync_eq]
    have f1 : (video_poll_scry_in (video_poll_hsync (video_poll_hdisp s))).mode7_heldchar
        = s.mode7_heldchar := (congrArg Mode7Cells.mode7_heldchar e1).trans a1
    have f2 : (video_poll_scry_in (video_poll_hsync (video_poll_hdisp s))).dispen
        = (video_poll_hdisp s).dispen := congrArg FetchState.dispen e2
    have f3 : (video_poll_scry_in (video_poll_hsync (video_poll_hdisp s))).charsleft
        = (video_poll_hdisp s).charsleft := congrArg FetchState.charsleft e2
    have hq : HeldInv (video_poll_scry_in (video_poll_hsync (video_poll_hdisp s))) := by
      unfold HeldInv at a2 ⊢
      rw [f1, f2, f3, ← a1]
      exact a2
    split_ifs with hd
    · left
      apply video_poll_display_held
      rw [f1]
      exact a3 (Or.inl (by rw [← f2]; exact hd))
    · apply video_poll_blank_held _ _ hq
      intro hc
      rw [f1]
      exact a3 (Or.inr (by rw [← f3]; exact hc))
  have e : video_poll_draw te s
      = video_poll_hvbl te (video_poll_scry_out
          (if (video_poll_scry_in (video_poll_hsync (video_poll_hdisp s))).dispen ≠ 0 then
            video_poll_display (video_poll_scry_in (video_poll_hsync (video_poll_hdisp s)))
           else video_poll_blank (video_poll_scry_in (video_poll_hsync (video_poll_hdisp s))))) := rfl
  rw [e]
  generalize (if (video_poll_scry_in (video_poll_hsync (video_poll_hdisp s))).dispen ≠ 0 then
            video_poll_display (video_poll_scry_in (video_poll_hsync (video_poll_hdisp s)))
           else video_poll_blank (video_poll_scry_in (video_poll_hsync (video_poll_hdisp s)))) = d
    at key
  unfold HeldInv at key ⊢
  rw [video_poll_hvbl_eq, video_poll_scry_out_eq]
  exact key

set_option maxHeartbeats 1000000 in
theorem video_poll_hc_held (te : Nat) (p : Video) (h : HeldInv p) :
    HeldInv (video_poll_hc te p) := by
  unfold HeldInv at h ⊢
  unfold video_poll_hc video_poll_eol video_poll_row
  simp only [video_poll_vsync_eq, nula_delay_eq, ite_Video, ite_CrtcRegs, ite_CrtcCounters,
    ite_FieldState, ite_UlaState, ite_NulaState, ite_Mode7Cells, ite_Mode7Rows, ite_ScanState,
    ite_FetchState, ite_self]
  by_cases h1 : p.interline ≠ 0 ∧ p.hc = p.crtc 0 >>> 1
  · simp only [if_pos h1]
    exact h
  · simp only [if_neg h1]
    by_cases h2 : p.hc = p.crtc 0
    · simp only [if_pos h2]
      left
      exact le_refl _
    · simp only [if_neg h2]
      exact h

theorem video_poll_tick_held (te : Nat) (s : Video) (h : HeldInv s) :
    HeldInv (video_poll_tick te s) := by
  have hc : HeldInv (video_poll_clock s) := h
  unfold video_poll_tick
  dsimp only
  split_ifs
  · exact hc
  · exact video_poll_hc_held te _ (video_poll_draw_held te _ hc)

theorem reach_held {s : Video} (h : Reach s) : HeldInv s := by
  induction h with
  | init ram glyphs table black white mb => exact Or.inr ⟨rfl, rfl⟩
  | poll te _ ih => exact video_poll_tick_held te _ ih
  | crtc addr val _ ih =>
    obtain ⟨k1, k2, k3⟩ := crtc_write_keeps addr val _
    unfold HeldInv at ih ⊢
    rw [k1, k2, k3]
    exact ih
  | ula addr val _ ih =>
    obtain ⟨k1, k2, k3⟩ := videoula_write_keeps addr val _
    unfold HeldInv at ih ⊢
    rw [k1, k2, k3]
    exact ih
  | mem ram _ ih => exact ih
  | tape motor fasttape _ ih => exact ih

theorem video_poll_renders_held (s : Video) (h : HeldInv s) (hcall : video_poll_renders s) :
    0x20 ≤ (video_poll_render_state s).mode7_heldchar := by
  have hc : HeldInv (video_poll_clock s) := h
  obtain ⟨a1, -, a3⟩ := video_poll_hdisp_held _ hc
  have e1 : (video_poll_scry_in (video_poll_hsync (video_poll_hdisp (video_poll_clock s)))).toMode7Cells
      = (video_poll_hdisp (video_poll_clock s)).toMode7Cells := by
    rw [video_poll_scry_in_eq, video_poll_hsync_eq]
  have e2 : (video_poll_scry_in (video_poll_hsync (video_poll_hdisp (video_poll_clock s)))).toFetchState
      = (video_poll_hdisp (video_poll_clock s)).toFetchState := by
    rw [video_poll_scry_in_eq, video_poll_hsync_eq]
  have f1 : (video_poll_render_state s).mode7_heldchar = s.mode7_heldchar := by
    unfold video_poll_render_state
    dsimp only
    split_ifs <;> exact (congrArg Mode7Cells.mode7_heldchar e1).trans a1
  have f2 : (video_poll_render_state s).dispen
      = (video_poll_hdisp (video_poll_clock s)).dispen := by
    unfold video_poll_render_state
    dsimp only
    split_ifs <;> first
      | exact congrArg FetchState.dispen e2
      | (refine Eq.trans ?_ (congrArg FetchState.dispen e2); rfl)
  have f3 : (video_poll_render_state s).dispen = 0 → (video_poll_render_state s).charsleft
      = (video_poll_hdisp (video_poll_clock s)).charsleft := by
    intro hd
    rw [f2] at hd
    unfold video_poll_render_state
    dsimp only
    rw [if_neg (by rw [congrArg FetchState.dispen e2]; exact fun h => h hd)]
    exact congrArg FetchState.charsleft e2
  rw [f1]
  obtain ⟨-, hsite⟩ := hcall
  by_cases hd : (video_poll_render_state s).dispen ≠ 0
  · exact a3 (Or.inl (by rw [← f2]; exact hd))
  · rw [if_neg hd] at hsite
    have hd0 : (video_poll_render_state s).dispen = 0 := by
      by_contra hne
      exact hd hne
    exact a3 (Or.inr (by rw [← f3 hd0]; exact hsite.1))

theorem reach_example_reach : Reach reach_example :=
  Reach.poll 1 (Reach.ula 0 0x12 (Reach.crtc 1 40 (Reach.crtc 0 1
    (Reach.init (fun _ => 0) (fun _ _ => 0) (fun _ _ _ => 0) 0xFF000000 0xFFFFFFFF false))))

theorem mode7_decode_flags (dblx : Nat) (s : Video) (l : Mode7Cell) (h : l.dat < 0x20) :
    (mode7_decode dblx s l).2.holdoff = (mode7_control s l).2.holdoff
      ∧ (mode7_decode dblx s l).2.holdclear = (mode7_control s l).2.holdclear := by
  unfold mode7_decode
  rw [if_pos h]
  dsimp only
  split_ifs <;> exact ⟨rfl, rfl⟩

theorem mode7_render_control_cell (d : Nat) (q : Video) (hx : q.scrx < 1280 - 32)
    (hctl : q.mode7_buf 0 < 0x20) :
    (∀ c, c < 16 →
        (mode7_render d q).region (q.scrx + c + 16) q.scry
          = mode7_pixel q.mode7_flash q.mode7_dbl (mode7_render_decode d q).1
              (mode7_render_decode d q).2 c)
      ∧ (mode7_render_decode d q).1 = (mode7_render_control d q).1
      ∧ mode7_render d q
          = { (mode7_render_control d q).1 with
              region := (mode7_render d q).region
              mode7_holdchar :=
                if (mode7_render_control d q).2.holdoff ≠ 0 then 0
                else (mode7_render_control d q).1.mode7_holdchar
              mode7_heldchar :=
                if (mode7_render_control d q).2.holdoff ≠ 0
                    ∨ (mode7_render_control d q).2.holdclear ≠ 0 then 32
                else (mode7_render_control d q).1.mode7_heldchar } := by
  have h255 : q.mode7_buf 0 ≠ 255 := by omega
  have hd : (mode7_cell_init (q.mode7_buf 0) q.mode7_col (mode7_push d q)).dat < 0x20 := hctl
  have e1 : (mode7_render_decode d q).1 = (mode7_render_control d q).1 :=
    mode7_decode_control _ _ _ hd
  obtain ⟨g1, g2⟩ := mode7_decode_flags q.mode7_dbl (mode7_push d q) _ hd
  have hD := mode7_decode_frame q.mode7_dbl (mode7_push d q)
    (mode7_cell_init (q.mode7_buf 0) q.mode7_col (mode7_push d q))
  have hPf := mode7_push_frame d q
  have hx' : (mode7_render_decode d q).1.scrx = q.scrx := by
    unfold mode7_render_decode
    rw [hD, hPf]
    rfl
  have hy' : (mode7_render_decode d q).1.scry = q.scry := by
    unfold mode7_render_decode
    rw [hD, hPf]
    rfl
  have hr : mode7_render d q
      = { (mode7_render_decode d q).1 with
          region := (List.range 16).foldl
            (fun r c => put_pixel ((mode7_render_decode d q).1.scrx + c + 16)
              (mode7_render_decode d q).1.scry
              (mode7_pixel q.mode7_flash q.mode7_dbl (mode7_render_decode d q).1
                (mode7_render_decode d q).2 c) r)
            (mode7_render_decode d q).1.region
          mode7_holdchar :=
            if (mode7_render_decode d q).2.holdoff ≠ 0 then 0
            else (mode7_render_decode d q).1.mode7_holdchar
          mode7_heldchar :=
            if (mode7_render_decode d q).2.holdoff ≠ 0
                ∨ (mode7_render_decode d q).2.holdclear ≠ 0 then 32
            else (mode7_render_decode d q).1.mode7_heldchar } := by
    rw [mode7_render_eq d q hx, mode7_cell_eq _ _ _ _ _ h255]
    rfl
  refine ⟨?_, e1, ?_⟩
  · intro c hc
    rw [hr]
    dsimp only
    rw [hx', hy', fold_put_pixel _ _ _ _ _ _ hc]
  · have g1' : (mode7_render_decode d q).2.holdoff = (mode7_render_control d q).2.holdoff := g1
    have g2' : (mode7_render_decode d q).2.holdclear = (mode7_render_control d q).2.holdclear := g2
    rw [hr]
    dsimp only
    rw [g1', g2', e1]

theorem video_poll_display_cells (c : Video) :
    (c.scrx < 1280 - 16 →
      ¬(c.crtc 8 &&& 0x30 = 0x30 ∨ (c.sc &&& 8 ≠ 0 ∧ c.ula_ctrl &&& 2 = 0)) → c.crtc_mode = 0 →
      (video_poll_display c).toMode7Cells
        = (mode7_render ((c.ram (video_fetch_index
              (if (c.ma ^^^ (c.crtc 15 ||| (c.crtc 14 <<< 8))) &&& 0x3FFF = 0 ∧ c.con ≠ 0 then
                { c with cdraw := cdrawlook (c.crtc 8 >>> 6) }
               else c)) % 256) &&& 0x7F)
            (if (c.ma ^^^ (c.crtc 15 ||| (c.crtc 14 <<< 8))) &&& 0x3FFF = 0 ∧ c.con ≠ 0 then
              { c with cdraw := cdrawlook (c.crtc 8 >>> 6) }
             else c)).toMode7Cells) := by
  intro h1 h2 h3
  unfold video_poll_display video_poll_cursor
  by_cases hcur : (c.ma ^^^ (c.crtc 15 ||| (c.crtc 14 <<< 8))) &&& 0x3FFF = 0 ∧ c.con ≠ 0
  · simp only [if_pos hcur, if_pos h1, if_neg h2, if_pos h3, mode7_render_split, ite_Video, ite_CrtcRegs,
      ite_CrtcCounters, ite_FieldState, ite_UlaState, ite_NulaState, ite_Mode7Cells, ite_Mode7Rows,
      ite_ScanState, ite_FetchState, ite_self]
  · simp only [if_neg hcur, if_pos h1, if_neg h2, if_pos h3, mode7_render_split, ite_Video, ite_CrtcRegs,
      ite_CrtcCounters, ite_FieldState, ite_UlaState, ite_NulaState, ite_Mode7Cells, ite_Mode7Rows,
      ite_ScanState, ite_FetchState, ite_self]

theorem video_poll_blank_cells (c : Video) (h1 : c.charsleft ≠ 0) (h2 : c.charsleft ≠ 1) :
    (video_poll_blank c).toMode7Cells = (mode7_render 255 c).toMode7Cells := by
  unfold video_poll_blank video_poll_cursor
  simp only [if_pos h1, if_pos h2, mode7_render_split, ite_Video, ite_CrtcRegs,
    ite_CrtcCounters, ite_FieldState, ite_UlaState, ite_NulaState, ite_Mode7Cells, ite_Mode7Rows,
    ite_ScanState, ite_FetchState, ite_self]

theorem video_poll_tick_render (te : Nat) (s : Video) (hcall : video_poll_renders s) :
    video_poll_tick te s = video_poll_hc te (video_poll_draw te (video_poll_clock s))
      ∧ (video_poll_draw te (video_poll_clock s)).toMode7Cells
          = (mode7_render (video_poll_render_arg s) (video_poll_render_state s)).toMode7Cells := by
  obtain ⟨hgate, hsite⟩ := hcall
  refine ⟨?_, ?_⟩
  · unfold video_poll_tick
    dsimp only
    rw [if_neg hgate]
    rfl
  · have e : (video_poll_draw te (video_poll_clock s)).toMode7Cells
        = (if (video_poll_scry_in (video_poll_hsync (video_poll_hdisp (video_poll_clock s)))).dispen
              ≠ 0 then
            video_poll_display
              (video_poll_scry_in (video_poll_hsync (video_poll_hdisp (video_poll_clock s))))
           else video_poll_blank
              (video_poll_scry_in (video_poll_hsync (video_poll_hdisp (video_poll_clock s))))).toMode7Cells := by
      unfold video_poll_draw
      dsimp only
      rw [video_poll_hvbl_eq, video_poll_scry_out_eq]
    rw [e]
    unfold video_poll_render_arg
    unfold video_poll_render_state at hsite ⊢
    dsimp only at hsite ⊢
    generalize video_poll_scry_in (video_poll_hsync (video_poll_hdisp (video_poll_clock s))) = c
      at hsite ⊢
    by_cases hd : c.dispen ≠ 0
    · simp only [if_pos hd] at hsite ⊢
      have hq : (if (c.ma ^^^ (c.crtc 15 ||| (c.crtc 14 <<< 8))) &&& 0x3FFF = 0 ∧ c.con ≠ 0 then
            ({ c with cdraw := cdrawlook (c.crtc 8 >>> 6) } : Video)
          else c).dispen ≠ 0 := by
        split_ifs <;> exact hd
      rw [if_pos hq] at hsite ⊢
      obtain ⟨h1, h2, h3⟩ := hsite
      have k1 : c.scrx < 1280 - 16 := by
        split_ifs at h1 <;> exact h1
      have k2 : ¬(c.crtc 8 &&& 0x30 = 0x30 ∨ (c.sc &&& 8 ≠ 0 ∧ c.ula_ctrl &&& 2 = 0)) := by
        split_ifs at h2 <;> exact h2
      have k3 : c.crtc_mode = 0 := by
        split_ifs at h3 <;> exact h3
      rw [video_poll_display_cells c k1 k2 k3]
      congr 2
      split_ifs <;> rfl
    · simp only [if_neg hd] at hsite ⊢
      exact video_poll_blank_cells c hsite.1 hsite.2

theorem video_poll_display_fetch (s : Video) :
    (video_poll_display s).vdispen = s.vdispen ∧ (video_poll_display s).maback = s.maback
      ∧ (video_poll_display s).ma = (s.ma + 1) % 65536 := by
  unfold video_poll_display video_poll_cursor
  simp only [mode7_render_split, ite_Video, ite_CrtcRegs, ite_CrtcCounters, ite_FieldState,
    ite_UlaState, ite_NulaState, ite_Mode7Cells, ite_Mode7Rows, ite_ScanState, ite_FetchState,
    ite_self, and_self]

theorem video_poll_blank_fetch (s : Video) :
    (video_poll_blank s).vdispen = s.vdispen ∧ (video_poll_blank s).maback = s.maback
      ∧ (video_poll_blank s).ma = s.ma := by
  unfold video_poll_blank video_poll_cursor
  simp only [mode7_render_split, ite_Video, ite_CrtcRegs, ite_CrtcCounters, ite_FieldState,
    ite_UlaState, ite_NulaState, ite_Mode7Cells, ite_Mode7Rows, ite_ScanState, ite_FetchState,
    ite_self, and_self]

theorem video_poll_hdisp_fetch (s : Video) :
    (video_poll_hdisp s).vdispen = s.vdispen ∧ (video_poll_hdisp s).maback = s.maback
      ∧ (video_poll_hdisp s).ma = s.ma := by
  unfold video_poll_hdisp
  simp only [ite_Video, ite_CrtcRegs, ite_CrtcCounters, ite_FieldState,
    ite_UlaState, ite_NulaState, ite_Mode7Cells, ite_Mode7Rows, ite_ScanState, ite_FetchState,
    ite_self, and_self]

theorem video_poll_draw_fetch (te : Nat) (s : Video) :
    (video_poll_draw te s).vdispen = s.vdispen ∧ (video_poll_draw te s).maback = s.maback
      ∧ ((video_poll_draw te s).ma = s.ma ∨ (video_poll_draw te s).ma = (s.ma + 1) % 65536) := by
  obtain ⟨a1, a2, a3⟩ := video_poll_hdisp_fetch s
  have e : (video_poll_scry_in (video_poll_hsync (video_poll_hdisp s))).toFetchState
      = (video_poll_hdisp s).toFetchState := by
    rw [video_poll_scry_in_eq, video_poll_hsync_eq]
  have e1 := congrArg FetchState.vdispen e
  have e2 := congrArg FetchState.maback e
  have e3 := congrArg FetchState.ma e
  obtain ⟨b1, b2, b3⟩ := video_poll_display_fetch
    (video_poll_scry_in (video_poll_hsync (video_poll_hdisp s)))
  obtain ⟨c1, c2, c3⟩ := video_poll_blank_fetch
    (video_poll_scry_in (video_poll_hsync (video_poll_hdisp s)))
  have o : ∀ x : Video, (video_poll_hvbl te (video_poll_scry_out x)).toFetchState
      = x.toFetchState := by
    intro x
    rw [video_poll_hvbl_eq, video_poll_scry_out_eq]
  unfold video_poll_draw
  simp only []
  by_cases hd : (video_poll_scry_in (video_poll_hsync (video_poll_hdisp s))).dispen ≠ 0
  · rw [if_pos hd]
    have o1 := o (video_poll_display (video_poll_scry_in (video_poll_hsync (video_poll_hdisp s))))
    refine ⟨(congrArg FetchState.vdispen o1).trans (b1.trans (e1.trans a1)),
      (congrArg FetchState.maback o1).trans (b2.trans (e2.trans a2)), Or.inr ?_⟩
    refine (congrArg FetchState.ma o1).trans (b3.trans ?_)
    rw [show (video_poll_scry_in (video_poll_hsync (video_poll_hdisp s))).ma = s.ma
      from e3.trans a3]
  · rw [if_neg hd]
    have o1 := o (video_poll_blank (video_poll_scry_in (video_poll_hsync (video_poll_hdisp s))))
    exact ⟨(congrArg FetchState.vdispen o1).trans (c1.trans (e1.trans a1)),
      (congrArg FetchState.maback o1).trans (c2.trans (e2.trans a2)),
      Or.inl ((congrArg FetchState.ma o1).trans (c3.trans (e3.trans a3)))⟩

theorem video_poll_draw_scry_raw (te : Nat) (c : Video) :
    (video_poll_draw te c).scry
      = (video_poll_scry_out (video_poll_scry_in (video_poll_hsync c))).scry := by
  rw [video_poll_draw_eq]

theorem video_poll_draw_scry (te : Nat) (c : Video) (hil : c.interlline ≤ 1) :
    (video_poll_draw te c).scry
        = (if c.hc = c.crtc 2 then (if c.scry + 1 ≥ 384 then 0 else c.scry + 1) else c.scry) := by
  rw [video_poll_draw_scry_raw]
  simp only [video_poll_scry_out_eq, video_poll_scry_in_eq, video_poll_hsync_eq]
  split_ifs <;> first | exact shift_roundtrip _ _ hil | exact shift_roundtrip_zero _ | rfl

theorem video_poll_tick_cases (te : Nat) (s : Video) :
    video_poll_tick te s = video_poll_clock s
      ∨ video_poll_tick te s = video_poll_hc te (video_poll_draw te (video_poll_clock s)) := by
  unfold video_poll_tick video_poll_char
  dsimp only
  split_ifs
  · exact Or.inl rfl
  · exact Or.inr rfl

set_option maxHeartbeats 1000000 in
theorem video_poll_hc_bounds (te : Nat) (p : Video) (hvc : p.vc ≤ 127)
    (hsc : p.sc ≤ 31) (hv : p.vadj ≤ 31) (h5 : p.crtc 5 ≤ 31) :
    (video_poll_hc te p).hc ≤ 255 ∧ (video_poll_hc te p).vc ≤ 127
      ∧ (video_poll_hc te p).sc ≤ 31 ∧ (video_poll_hc te p).vadj ≤ 31
      ∧ (video_poll_hc te p).toCrtcRegs = p.toCrtcRegs := by
  have a255 : ∀ x : Nat, x &&& 255 ≤ 255 := fun x => Nat.and_le_right
  have a127 : ∀ x : Nat, x &&& 127 ≤ 127 := fun x => Nat.and_le_right
  have a31 : ∀ x : Nat, x &&& 31 ≤ 31 := fun x => Nat.and_le_right
  unfold video_poll_hc video_poll_eol video_poll_row
  simp only [video_poll_vsync_eq, nula_delay_eq, ite_Video, ite_CrtcRegs, ite_CrtcCounters,
    ite_FieldState, ite_UlaState, ite_NulaState, ite_Mode7Cells, ite_Mode7Rows, ite_ScanState,
    ite_FetchState, ite_self, and_true]
  refine ⟨?_, ?_, ?_, ?_⟩
  · split_ifs <;> first | omega | exact a255 _
  · split_ifs <;> first | omega | exact a127 _
  · split_ifs <;> first | omega | exact a31 _
  · split_ifs <;> omega


set_option maxHeartbeats 1000000 in
theorem video_poll_hc_address (te : Nat) (p : Video) :
    ((video_poll_hc te p).ma = p.ma ∨ (video_poll_hc te p).ma = p.maback
        ∨ (video_poll_hc te p).ma = (p.crtc 13 ||| (p.crtc 12 <<< 8)) &&& 0x3FFF)
      ∧ ((video_poll_hc te p).maback = p.ma ∨ (video_poll_hc te p).maback = p.maback
        ∨ (video_poll_hc te p).maback = (p.crtc 13 ||| (p.crtc 12 <<< 8)) &&& 0x3FFF)
      ∧ (p.vdispen = 0 → (video_poll_hc te p).vdispen ≠ 0 →
          (video_poll_hc te p).vdispen = 1
            ∧ (video_poll_hc te p).ma = (p.crtc 13 ||| (p.crtc 12 <<< 8)) &&& 0x3FFF
            ∧ (video_poll_hc te p).maback = (p.crtc 13 ||| (p.crtc 12 <<< 8)) &&& 0x3FFF) := by
  unfold video_poll_hc video_poll_eol video_poll_row
  simp only [video_poll_vsync_eq, nula_delay_eq, ite_Video, ite_CrtcRegs, ite_CrtcCounters,
    ite_FieldState, ite_UlaState, ite_NulaState, ite_Mode7Cells, ite_Mode7Rows, ite_ScanState,
    ite_FetchState, ite_self, and_true]
  refine ⟨?_, ?_, ?_⟩
  · split_ifs <;> simp
  · split_ifs <;> simp
  · intro h0
    rw [h0]
    split_ifs <;> simp

set_option maxHeartbeats 1000000 in
theorem video_poll_hc_scry (te : Nat) (p : Video) (hy : p.scry < 384) (hil : p.interlline ≤ 1) :
    (video_poll_hc te p).scry < 384 ∧ (video_poll_hc te p).interlline ≤ 1
      ∧ (video_poll_hc te p).vid_dtype_intern = p.vid_dtype_intern := by
  unfold video_poll_hc video_poll_eol video_poll_row
  simp only [video_poll_vsync_eq, nula_delay_eq, ite_Video, ite_CrtcRegs, ite_CrtcCounters,
    ite_FieldState, ite_UlaState, ite_NulaState, ite_Mode7Cells, ite_Mode7Rows, ite_ScanState,
    ite_FetchState, ite_self, and_true]
  refine ⟨?_, ?_⟩
  · split_ifs <;> omega
  · split_ifs <;> first | omega | (dsimp only; omega)

/-! ## Invariants of the states reached from start-up -/

theorem videoula_write_frame (addr val : Nat) (s : Video) :
    (videoula_write addr val s).toCrtcCounters = s.toCrtcCounters
      ∧ (videoula_write addr val s).crtc = s.crtc
      ∧ (videoula_write addr val s).toFetchState = s.toFetchState
      ∧ (videoula_write addr val s).scry = s.scry
      ∧ (videoula_write addr val s).interlline = s.interlline := by
  unfold videoula_write
  dsimp only
  split
  · unfold videoula_write_ctrl set_intern_dtype
    simp only [ctrl_flash_on_loop, ctrl_flash_off_loop, ite_Video, ite_CrtcRegs, ite_CrtcCounters,
      ite_FieldState, ite_UlaState, ite_NulaState, ite_Mode7Cells, ite_Mode7Rows, ite_ScanState,
      ite_FetchState, ite_self, and_self]
  · unfold videoula_write_pal
    simp only [ite_Video, ite_CrtcRegs, ite_CrtcCounters,
      ite_FieldState, ite_UlaState, ite_NulaState, ite_Mode7Cells, ite_Mode7Rows, ite_ScanState,
      ite_FetchState, ite_self, and_self]
  · unfold videoula_write_nula_ctrl
    dsimp only
    split <;> exact ⟨rfl, rfl, rfl, rfl, rfl⟩
  · unfold videoula_write_nula_pal
    simp only [nula_commit_loop, ite_Video, ite_CrtcRegs, ite_CrtcCounters,
      ite_FieldState, ite_UlaState, ite_NulaState, ite_Mode7Cells, ite_Mode7Rows, ite_ScanState,
      ite_FetchState, ite_self, and_self]

theorem crtc_write_frame (addr val : Nat) (s : Video) :
    (crtc_write addr val s).toCrtcCounters = s.toCrtcCounters
      ∧ (crtc_write addr val s).ma = s.ma
      ∧ (crtc_write addr val s).maback = s.maback
      ∧ (crtc_write addr val s).scry = s.scry
      ∧ (crtc_write addr val s).interlline = s.interlline
      ∧ (s.vdispen = 0 → (crtc_write addr val s).vdispen = 0) := by
  unfold crtc_write crtc_setreg set_intern_dtype
  simp only [ite_Video, ite_CrtcRegs, ite_CrtcCounters, ite_FieldState, ite_UlaState, ite_NulaState,
    ite_Mode7Cells, ite_Mode7Rows, ite_ScanState, ite_FetchState, ite_self, true_and]
  refine ⟨by split_ifs <;> rfl, by split_ifs <;> rfl, ?_⟩
  intro h
  split_ifs <;> first | rfl | exact h

theorem crtc_write_vadj_reg (addr val : Nat) (s : Video) (h5 : s.crtc 5 ≤ 31) :
    (crtc_write addr val s).crtc 5 ≤ 31 := by
  unfold crtc_write
  dsimp only
  split_ifs
  · exact h5
  · rw [crtc_setreg_crtc]
    unfold setAt
    split_ifs with h
    · rw [← h]
      exact Nat.and_le_right
    · exact h5

theorem video_poll_tick_bounds (te : Nat) (s : Video) (hhc : s.hc ≤ 255) (hvc : s.vc ≤ 127)
    (hsc : s.sc ≤ 31) (hv : s.vadj ≤ 31) (h5 : s.crtc 5 ≤ 31) :
    (video_poll_tick te s).hc ≤ 255 ∧ (video_poll_tick te s).vc ≤ 127
      ∧ (video_poll_tick te s).sc ≤ 31 ∧ (video_poll_tick te s).vadj ≤ 31
      ∧ (video_poll_tick te s).crtc 5 ≤ 31 := by
  rcases video_poll_tick_cases te s with e | e
  · rw [e]
    exact ⟨hhc, hvc, hsc, hv, h5⟩
  · rw [e]
    have c : (video_poll_draw te (video_poll_clock s)).toCrtcCounters = s.toCrtcCounters :=
      video_poll_draw_counters te _
    have r : (video_poll_draw te (video_poll_clock s)).toCrtcRegs = s.toCrtcRegs :=
      video_poll_draw_regs te _
    have c2 := congrArg CrtcCounters.vc c
    have c3 := congrArg CrtcCounters.sc c
    have c4 := congrArg CrtcCounters.vadj c
    have r5 := congrFun (congrArg CrtcRegs.crtc r) 5
    obtain ⟨b1, b2, b3, b4, b5⟩ := video_poll_hc_bounds te (video_poll_draw te (video_poll_clock s))
      (c2.trans_le hvc) (c3.trans_le hsc) (c4.trans_le hv) (r5.trans_le h5)
    refine ⟨b1, b2, b3, b4, ?_⟩
    exact ((congrFun (congrArg CrtcRegs.crtc b5) 5).trans r5).trans_le h5

/-- The range invariant of the CRTC counters. -/
theorem steps_counters {s t : Video} (h : Steps s t) (hhc : s.hc ≤ 255) (hvc : s.vc ≤ 127)
    (hsc : s.sc ≤ 31) (hv : s.vadj ≤ 31) (h5 : s.crtc 5 ≤ 31) :
    t.hc ≤ 255 ∧ t.vc ≤ 127 ∧ t.sc ≤ 31 ∧ t.vadj ≤ 31 ∧ t.crtc 5 ≤ 31 := by
  induction h with
  | start => exact ⟨hhc, hvc, hsc, hv, h5⟩
  | poll te _ ih =>
    obtain ⟨a1, a2, a3, a4, a5⟩ := ih
    exact video_poll_tick_bounds te _ a1 a2 a3 a4 a5
  | crtc addr val _ ih =>
    obtain ⟨a1, a2, a3, a4, a5⟩ := ih
    obtain ⟨k, -⟩ := crtc_write_frame addr val _
    exact ⟨(congrArg CrtcCounters.hc k).trans_le a1, (congrArg CrtcCounters.vc k).trans_le a2,
      (congrArg CrtcCounters.sc k).trans_le a3, (congrArg CrtcCounters.vadj k).trans_le a4,
      crtc_write_vadj_reg addr val _ a5⟩
  | ula addr val _ ih =>
    obtain ⟨a1, a2, a3, a4, a5⟩ := ih
    obtain ⟨k, kr, -⟩ := videoula_write_frame addr val _
    exact ⟨(congrArg CrtcCounters.hc k).trans_le a1, (congrArg CrtcCounters.vc k).trans_le a2,
      (congrArg CrtcCounters.sc k).trans_le a3, (congrArg CrtcCounters.vadj k).trans_le a4,
      (congrFun kr 5).trans_le a5⟩
  | mem ram _ ih => exact ih
  | tape motor fasttape _ ih => exact ih

/-- C22: starting from `crtc_reset` (in a state whose vertical-adjust register 5 holds a value
its 5-bit mask allows), after any number of `video_poll` iterations interleaved with arbitrary
CRTC and ULA register writes the counters stay in range: `hc <= 255`, `vc <= 127`,
`sc <= 31` and `vadj <= 31` (the counters are naturals, so they are never negative). -/
theorem crtc_counters_in_range (s0 t : Video) (h5 : s0.crtc 5 ≤ 31)
    (h : Steps (crtc_reset s0) t) :
    t.hc ≤ 255 ∧ t.vc ≤ 127 ∧ t.sc ≤ 31 ∧ t.vadj ≤ 31 := by
  have h5r : (crtc_reset s0).crtc 5 ≤ 31 := h5
  obtain ⟨a1, a2, a3, a4, -⟩ := steps_counters h (Nat.zero_le _) (Nat.zero_le _) (Nat.zero_le _)
    (Nat.zero_le _) h5r
  exact ⟨a1, a2, a3, a4⟩
theorem steps_video_poll {s : Video} (n te : Nat) :
    ∀ {t : Video}, Steps s t → Steps s (video_poll n te t) := by
  induction n with
  | zero => intro t h; exact h
  | succ n ih => intro t h; exact ih (Steps.poll te h)

set_option maxHeartbeats 1000000 in
theorem video_poll_hc_regs (te : Nat) (p : Video) :
    (video_poll_hc te p).toCrtcRegs = p.toCrtcRegs := by
  unfold video_poll_hc video_poll_eol video_poll_row
  simp only [video_poll_vsync_eq, nula_delay_eq, ite_Video, ite_CrtcRegs, ite_CrtcCounters,
    ite_FieldState, ite_UlaState, ite_NulaState, ite_Mode7Cells, ite_Mode7Rows, ite_ScanState,
    ite_FetchState, ite_self]

theorem video_poll_tick_address (te : Nat) (s : Video) :
    ((video_poll_tick te s).ma = s.ma ∨ (video_poll_tick te s).ma = (s.ma + 1) % 65536
        ∨ (video_poll_tick te s).ma = s.maback
        ∨ (video_poll_tick te s).ma = (s.crtc 13 ||| (s.crtc 12 <<< 8)) &&& 0x3FFF)
      ∧ ((video_poll_tick te s).maback = s.ma ∨ (video_poll_tick te s).maback = (s.ma + 1) % 65536
        ∨ (video_poll_tick te s).maback = s.maback
        ∨ (video_poll_tick te s).maback = (s.crtc 13 ||| (s.crtc 12 <<< 8)) &&& 0x3FFF)
      ∧ (video_poll_tick te s).crtc = s.crtc
      ∧ (s.vdispen = 0 → (video_poll_tick te s).vdispen ≠ 0 →
          (video_poll_tick te s).vdispen = 1
            ∧ (video_poll_tick te s).ma = (s.crtc 13 ||| (s.crtc 12 <<< 8)) &&& 0x3FFF
            ∧ (video_poll_tick te s).maback = (s.crtc 13 ||| (s.crtc 12 <<< 8)) &&& 0x3FFF) := by
  rcases video_poll_tick_cases te s with e | e
  · rw [e]
    exact ⟨Or.inl rfl, Or.inr (Or.inr (Or.inl rfl)), rfl, fun h0 h1 => absurd h0 h1⟩
  · rw [e]
    obtain ⟨d1, d2, d3⟩ := video_poll_draw_fetch te (video_poll_clock s)
    have d1 : (video_poll_draw te (video_poll_clock s)).vdispen = s.vdispen := d1
    have d2 : (video_poll_draw te (video_poll_clock s)).maback = s.maback := d2
    have d3 : (video_poll_draw te (video_poll_clock s)).ma = s.ma
        ∨ (video_poll_draw te (video_poll_clock s)).ma = (s.ma + 1) % 65536 := d3
    have r : (video_poll_draw te (video_poll_clock s)).toCrtcRegs = s.toCrtcRegs :=
      video_poll_draw_regs te _
    have rc : (video_poll_draw te (video_poll_clock s)).crtc = s.crtc := congrArg CrtcRegs.crtc r
    have rr := video_poll_hc_regs te (video_poll_draw te (video_poll_clock s))
    obtain ⟨a1, a2, a3⟩ := video_poll_hc_address te (video_poll_draw te (video_poll_clock s))
    simp only [rc, d2, d1] at a1 a2 a3
    refine ⟨?_, ?_, (congrArg CrtcRegs.crtc rr).trans rc, a3⟩
    · rcases a1 with a | a | a
      · rcases d3 with d | d
        · exact Or.inl (a.trans d)
        · exact Or.inr (Or.inl (a.trans d))
      · exact Or.inr (Or.inr (Or.inl a))
      · exact Or.inr (Or.inr (Or.inr a))
    · rcases a2 with a | a | a
      · rcases d3 with d | d
        · exact Or.inl (a.trans d)
        · exact Or.inr (Or.inl (a.trans d))
      · exact Or.inr (Or.inr (Or.inl a))
      · exact Or.inr (Or.inr (Or.inr a))
/-- The address invariant: `ma` and `maback` hold 16-bit values. -/
theorem steps_address {s t : Video} (h : Steps s t) (hma : s.ma < 0x10000)
    (hmb : s.maback < 0x10000) : t.ma < 0x10000 ∧ t.maback < 0x10000 := by
  induction h with
  | start => exact ⟨hma, hmb⟩
  | poll te _ ih =>
    obtain ⟨i1, i2⟩ := ih
    obtain ⟨a1, a2, -, -⟩ := video_poll_tick_address te _
    have m : ∀ x : Nat, x &&& 0x3FFF < 0x10000 := fun x =>
      lt_of_le_of_lt Nat.and_le_right (by decide)
    have q : ∀ x : Nat, (x + 1) % 65536 < 0x10000 := fun x => Nat.mod_lt _ (by decide)
    constructor
    · rcases a1 with a | a | a | a <;> rw [a]
      · exact i1
      · exact q _
      · exact i2
      · exact m _
    · rcases a2 with a | a | a | a <;> rw [a]
      · exact i1
      · exact q _
      · exact i2
      · exact m _
  | crtc addr val _ ih =>
    obtain ⟨-, k1, k2, -⟩ := crtc_write_frame addr val _
    rw [k1, k2]
    exact ih
  | ula addr val _ ih =>
    obtain ⟨-, -, k, -⟩ := videoula_write_frame addr val _
    rw [congrArg FetchState.ma k, congrArg FetchState.maback k]
    exact ih
  | mem ram _ ih => exact ih
  | tape motor fasttape _ ih => exact ih

/-- C22, an instance: register 5 of the zero-initialised globals is 0, and after
`crtc_reset`, the selection of the high-frequency clock, a write of 200 to register 5 (stored
as 200 AND 0x1F = 8) and one iteration of `video_poll` the four counters are in range. -/
theorem crtc_counters_in_range_witness :
    power_on.crtc 5 ≤ 31
      ∧ ((video_poll_tick 1 (crtc_write 1 200 (crtc_write 0 5 (videoula_write 0 0x10
            (crtc_reset power_on))))).hc ≤ 255
        ∧ (video_poll_tick 1 (crtc_write 1 200 (crtc_write 0 5 (videoula_write 0 0x10
            (crtc_reset power_on))))).vc ≤ 127
        ∧ (video_poll_tick 1 (crtc_write 1 200 (crtc_write 0 5 (videoula_write 0 0x10
            (crtc_reset power_on))))).sc ≤ 31
        ∧ (video_poll_tick 1 (crtc_write 1 200 (crtc_write 0 5 (videoula_write 0 0x10
            (crtc_reset power_on))))).vadj ≤ 31) :=
  ⟨by decide, crtc_counters_in_range power_on _ (by decide)
    (Steps.poll 1 (Steps.crtc 1 200 (Steps.crtc 0 5 (Steps.ula 0 0x10 Steps.start))))⟩

set_option maxRecDepth 1000000 in
/-- C23, the claim as stated does not hold: the state `address_overrun_example` is reached
from start-up by CRTC register writes and five iterations of `video_poll`, and its memory
address `ma` is 0x4000, not below 0x4000. The third iteration reloads `ma` with 0x3FFF from
registers 12 and 13, the fifth displays a character and increments it. -/
theorem video_address_fourteen_bit_counterexample :
    Steps reset_state address_overrun_example ∧ ¬ address_overrun_example.ma < 0x4000 :=
  ⟨steps_video_poll 5 1 (Steps.crtc 1 0 (Steps.crtc 0 9 (Steps.crtc 1 40 (Steps.crtc 0 1
      (Steps.crtc 1 1 (Steps.crtc 0 0 (Steps.crtc 1 0xFF (Steps.crtc 0 13
      (Steps.crtc 1 0x3F (Steps.crtc 0 12 Steps.start)))))))))),
    by decide⟩

/-- C23, amended: in every state reached from a state with 16-bit `ma` and `maback` (as after
start-up, where both are 0) through `video_poll` iterations and register writes, `ma` and
`maback` are 16-bit values, `ma < 0x10000` and `maback < 0x10000`: the reload from the
screen-start registers stores a 14-bit value, but the increment of `ma` for each displayed
character wraps at 16 bits only, and `maback` copies `ma` at the end of each character row. -/
theorem video_address_sixteen_bit (s0 t : Video) (hma : s0.ma < 0x10000)
    (hmb : s0.maback < 0x10000) (h : Steps s0 t) : t.ma < 0x10000 ∧ t.maback < 0x10000 :=
  steps_address h hma hmb

set_option maxRecDepth 1000000 in
/-- C23 amended, an instance: the start-up state has `ma = maback = 0`, and the state
`address_overrun_example`, whose `ma` is 0x4000, is within the 16-bit range. -/
theorem video_address_sixteen_bit_witness :
    reset_state.ma < 0x10000 ∧ reset_state.maback < 0x10000
      ∧ address_overrun_example.ma = 0x4000
      ∧ (address_overrun_example.ma < 0x10000 ∧ address_overrun_example.maback < 0x10000) :=
  ⟨by decide, by decide, by decide,
    video_address_sixteen_bit reset_state address_overrun_example (by decide) (by decide)
      (steps_video_poll 5 1 (Steps.crtc 1 0 (Steps.crtc 0 9 (Steps.crtc 1 40 (Steps.crtc 0 1
        (Steps.crtc 1 1 (Steps.crtc 0 0 (Steps.crtc 1 0xFF (Steps.crtc 0 13
        (Steps.crtc 1 0x3F (Steps.crtc 0 12 Steps.start)))))))))))⟩

/-- C24: a `video_poll` iteration that starts with `vdispen = 0` and ends with `vdispen`
set leaves `vdispen = 1` and the address generator reloaded from the screen-start registers,
`ma = maback = (crtc[13] | crtc[12] << 8) AND 0x3FFF` (the registers are not changed by the
iteration); and no CRTC or ULA register write sets `vdispen`: after a write in a state with
`vdispen = 0` it is still 0. -/
theorem vdispen_set_reloads_address (te : Nat) (s : Video) (h0 : s.vdispen = 0) :
    ((video_poll_tick te s).vdispen ≠ 0 →
        (video_poll_tick te s).vdispen = 1
          ∧ (video_poll_tick te s).ma
              = ((video_poll_tick te s).crtc 13 ||| ((video_poll_tick te s).crtc 12 <<< 8))
                  &&& 0x3FFF
          ∧ (video_poll_tick te s).maback
              = ((video_poll_tick te s).crtc 13 ||| ((video_poll_tick te s).crtc 12 <<< 8))
                  &&& 0x3FFF
          ∧ (video_poll_tick te s).crtc = s.crtc)
      ∧ (∀ addr val : Nat, (crtc_write addr val s).vdispen = 0
          ∧ (videoula_write addr val s).vdispen = 0) := by
  obtain ⟨-, -, rc, a⟩ := video_poll_tick_address te s
  constructor
  · intro h1
    obtain ⟨b1, b2, b3⟩ := a h0 h1
    rw [rc]
    exact ⟨b1, b2, b3, rfl⟩
  · intro addr val
    obtain ⟨-, -, -, -, -, k⟩ := crtc_write_frame addr val s
    obtain ⟨-, -, k2, -⟩ := videoula_write_frame addr val s
    exact ⟨k h0, (congrArg FetchState.vdispen k2).trans h0⟩

set_option maxRecDepth 1000000 in
/-- C24, an instance: in `reload_example` `vdispen` is 0; the next iteration of `video_poll`
reaches the vertical total, sets `vdispen` and leaves `ma = maback = 0x1234`, the value of the
screen-start registers 12 and 13. -/
theorem vdispen_set_reloads_address_witness :
    reload_example.vdispen = 0 ∧ (video_poll_tick 1 reload_example).vdispen ≠ 0
      ∧ ((video_poll_tick 1 reload_example).crtc 13
          ||| ((video_poll_tick 1 reload_example).crtc 12 <<< 8)) &&& 0x3FFF = 0x1234
      ∧ ((video_poll_tick 1 reload_example).vdispen = 1
          ∧ (video_poll_tick 1 reload_example).ma
              = ((video_poll_tick 1 reload_example).crtc 13
                  ||| ((video_poll_tick 1 reload_example).crtc 12 <<< 8)) &&& 0x3FFF
          ∧ (video_poll_tick 1 reload_example).maback
              = ((video_poll_tick 1 reload_example).crtc 13
                  ||| ((video_poll_tick 1 reload_example).crtc 12 <<< 8)) &&& 0x3FFF
          ∧ (video_poll_tick 1 reload_example).crtc = reload_example.crtc) :=
  ⟨by decide, by decide, by decide,
    (vdispen_set_reloads_address 1 reload_example (by decide)).1 (by decide)⟩

theorem video_poll_tick_scry (te : Nat) (s : Video) (hy : s.scry < 384) (hil : s.interlline ≤ 1) :
    (video_poll_tick te s).scry < 384 ∧ (video_poll_tick te s).interlline ≤ 1 := by
  rcases video_poll_tick_cases te s with e | e
  · rw [e]
    exact ⟨hy, hil⟩
  · rw [e]
    have f : (video_poll_draw te (video_poll_clock s)).toFieldState = s.toFieldState :=
      video_poll_draw_field te _
    have f1 : (video_poll_draw te (video_poll_clock s)).interlline = s.interlline :=
      congrArg FieldState.interlline f
    have hilc : (video_poll_clock s).interlline ≤ 1 := hil
    have d := video_poll_draw_scry te (video_poll_clock s) hilc
    have hyc : (video_poll_clock s).scry < 384 := hy
    have d1 : (video_poll_draw te (video_poll_clock s)).scry < 384 := by
      rw [d]
      split_ifs <;> omega
    obtain ⟨a1, a2, -⟩ := video_poll_hc_scry te _ d1 (f1.trans_le hil)
    exact ⟨a1, a2⟩

/-- The scanline invariant: the logical scanline stays below 384. -/
theorem steps_scry {s t : Video} (h : Steps s t) (hy : s.scry < 384) (hil : s.interlline ≤ 1) :
    t.scry < 384 ∧ t.interlline ≤ 1 := by
  induction h with
  | start => exact ⟨hy, hil⟩
  | poll te _ ih => exact video_poll_tick_scry te _ ih.1 ih.2
  | crtc addr val _ ih =>
    obtain ⟨-, -, -, k1, k2, -⟩ := crtc_write_frame addr val _
    rw [k1, k2]
    exact ih
  | ula addr val _ ih =>
    obtain ⟨-, -, -, k1, k2⟩ := videoula_write_frame addr val _
    rw [k1, k2]
    exact ih
  | mem ram _ ih => exact ih
  | tape motor fasttape _ ih => exact ih

theorem video_poll_scry_undone (x : Video) (hil : x.interlline ≤ 1) :
    (video_poll_scry_out (video_poll_display (video_poll_scry_in x))).scry = x.scry
      ∧ (video_poll_scry_out (video_poll_blank (video_poll_scry_in x))).scry = x.scry := by
  have e1 := video_poll_display_frame (video_poll_scry_in x)
  have e2 := video_poll_blank_frame (video_poll_scry_in x)
  constructor
  · rw [e1]
    unfold mid_fields
    simp only [video_poll_scry_out_eq, video_poll_scry_in_eq]
    split_ifs <;> first | exact shift_roundtrip _ _ hil | exact shift_roundtrip_zero _ | rfl
  · rw [e2]
    unfold mid_fields
    simp only [video_poll_scry_out_eq, video_poll_scry_in_eq]
    split_ifs <;> first | exact shift_roundtrip _ _ hil | exact shift_roundtrip_zero _ | rfl

theorem video_poll_hsync_scry (x : Video) (hy : x.scry < 384) :
    (video_poll_hsync x).scry < 384 := by
  rw [video_poll_hsync_eq]
  dsimp only
  split_ifs <;> omega

theorem video_poll_scry_in_row (x : Video) (hy : x.scry < 384) (hil : x.interlline ≤ 1) :
    (video_poll_scry_in x).scry < 768 := by
  rw [video_poll_scry_in_eq]
  dsimp only
  split_ifs
  · rw [Nat.shiftLeft_eq]; omega
  · rw [Nat.shiftLeft_eq]; omega
  · omega

/-- C28: in every state `x` with `interlline` 0 or 1, whatever the display treatment
(`vid_dtype_intern` progressive, interlaced or line-doubled), the scanline transform that a
`video_poll` iteration applies before drawing is undone after drawing, on the displayed path
and on the blank path alike, so the pair leaves `scry` as it was; and in every state `t`
reached from a state with `scry = 0` the scanline is below 384, it is below 384 again after
the next iteration, and the row of the buffer that this iteration draws into (`scry` after
the horizontal sync test and the transform) is below 768. -/
theorem scanline_transform_undone (s0 t : Video) (te : Nat) (hy : s0.scry = 0)
    (hil : s0.interlline ≤ 1) (h : Steps s0 t) :
    (∀ x : Video, x.interlline ≤ 1 →
        (video_poll_scry_out (video_poll_display (video_poll_scry_in x))).scry = x.scry
          ∧ (video_poll_scry_out (video_poll_blank (video_poll_scry_in x))).scry = x.scry)
      ∧ t.scry < 384 ∧ t.interlline ≤ 1
      ∧ (video_poll_tick te t).scry < 384
      ∧ (video_poll_scry_in (video_poll_hsync (video_poll_hdisp (video_poll_clock t)))).scry
          < 768 := by
  obtain ⟨a1, a2⟩ := steps_scry h (by omega) hil
  refine ⟨video_poll_scry_undone, a1, a2, (video_poll_tick_scry te t a1 a2).1, ?_⟩
  have hd : video_poll_hdisp (video_poll_clock t)
      = { video_poll_clock t with
          toFetchState := (video_poll_hdisp (video_poll_clock t)).toFetchState } :=
    video_poll_hdisp_frame _
  have b1 : (video_poll_hdisp (video_poll_clock t)).scry < 384 := by
    rw [hd]
    exact a1
  have b2 : (video_poll_hdisp (video_poll_clock t)).interlline ≤ 1 := by
    rw [hd]
    exact a2
  have c2 : (video_poll_hsync (video_poll_hdisp (video_poll_clock t))).interlline ≤ 1 := by
    rw [video_poll_hsync_eq]
    exact b2
  exact video_poll_scry_in_row _ (video_poll_hsync_scry _ b1) c2

set_option maxRecDepth 1000000 in
/-- C28, an instance: `interlace_example` is reached from start-up, is displayed interlaced
with `interlline = 1`, and the next iteration draws into row 3 of the buffer (scanline 1 of
the odd field) and leaves `scry = 1`. -/
theorem scanline_transform_undone_witness :
    reset_state.scry = 0 ∧ reset_state.interlline ≤ 1
      ∧ interlace_example.vid_dtype_intern = vid_disptype.VDT_INTERLACE
      ∧ interlace_example.interlline = 1
      ∧ (video_poll_scry_in (video_poll_hsync (video_poll_hdisp
          (video_poll_clock interlace_example)))).scry = 3
      ∧ (video_poll_tick 1 interlace_example).scry = 1
      ∧ ((∀ x : Video, x.interlline ≤ 1 →
          (video_poll_scry_out (video_poll_display (video_poll_scry_in x))).scry = x.scry
            ∧ (video_poll_scry_out (video_poll_blank (video_poll_scry_in x))).scry = x.scry)
        ∧ interlace_example.scry < 384 ∧ interlace_example.interlline ≤ 1
        ∧ (video_poll_tick 1 interlace_example).scry < 384
        ∧ (video_poll_scry_in (video_poll_hsync (video_poll_hdisp
            (video_poll_clock interlace_example)))).scry < 768) :=
  ⟨by decide, by decide, by decide, by decide, by decide, by decide,
    scanline_transform_undone reset_state interlace_example 1 (by decide) (by decide)
      (Steps.poll 1 (Steps.crtc 1 0 (Steps.crtc 0 9 (Steps.crtc 1 1 (Steps.crtc 0 8
        (Steps.ula 0 0x12 Steps.start))))))⟩
/-! ## Reads and writes beyond the arrays -/

set_option maxRecDepth 1000000 in
/-- C21, the code at the failing input: `glyph_overrun_example` is reached from start-up
(with glyph arrays in which every pixel is 0) by a change of the memory contents, three
register writes and 21 iterations of `video_poll`; register 9 still has the value 10 that
`crtc_reset` gives it, and the scanline counter `sc` is 10. The next iteration calls
`mode7_render` in teletext mode with `scrx < 1248`, the byte taken out of the pipeline buffer
is the glyph code 0x7F, flashing is off, so the drawing loop reads the glyph array, and the
offset `t` of the first pixel read is `(0x7F - 0x20) * 160 + 10 * 16 = 15360 =
MODE7_CHAR_ARRAY_SIZE`: the sixteen reads `t .. t + 15` are all beyond the end of the array.
What is read there reaches the picture: the pixels (144, 11) and (159, 11) of the cell, black
before, are drawn white although every glyph is blank. -/
theorem mode7_glyph_offset_beyond_array :
    Steps glyph_overrun_start glyph_overrun_example
      ∧ glyph_overrun_example.crtc 9 = 10 ∧ glyph_overrun_example.sc = 10
      ∧ video_poll_renders glyph_overrun_example
      ∧ (video_poll_render_state glyph_overrun_example).scrx < 1280 - 32
      ∧ (video_poll_render_state glyph_overrun_example).mode7_buf 0 = 0x7F
      ∧ (video_poll_render_state glyph_overrun_example).mode7_flash = 0
      ∧ mode7_offset (video_poll_render_state glyph_overrun_example).mode7_dbl
          (mode7_render_decode (video_poll_render_arg glyph_overrun_example)
            (video_poll_render_state glyph_overrun_example)).1
          (mode7_render_decode (video_poll_render_arg glyph_overrun_example)
            (video_poll_render_state glyph_overrun_example)).2.dat = 96 * 16 * 10
      ∧ glyph_overrun_example.region 144 11 = 0xFF000000
      ∧ (video_poll_tick 1 glyph_overrun_example).region 144 11 = 0xFFFFFFFF
      ∧ (video_poll_tick 1 glyph_overrun_example).region 159 11 = 0xFFFFFFFF :=
  ⟨steps_video_poll 21 1 (Steps.ula 0 0x12 (Steps.crtc 1 40 (Steps.crtc 0 1
      (Steps.mem (fun _ => 0x7F) Steps.start)))),
    by decide, by decide, by decide, by decide, by decide, by decide, by decide, by decide,
    by decide, by decide⟩

set_option maxRecDepth 1000000 in
/-- C29, the code at the failing input: `nula_fill_example` is reached from start-up by six
register writes and 159 iterations of `video_poll`; `scrx` is 1272 and the pixel (1288, 0),
beyond the 1280-pixel buffer, holds 0. The next iteration is the end of the scanline
(`hc = crtc[0] = 159`): `scrx` becomes 1280, `nula_left_edge` becomes 1288, and the NULA
horizontal-offset loop runs 7 times, storing `colblack` at `x = 1288 .. 1294`, `y = 0` and
leaving `scrx = 1287`. -/
theorem nula_delay_fill_beyond_buffer :
    Steps reset_state nula_fill_example
      ∧ nula_fill_example.scrx = 1272 ∧ nula_fill_example.hc = nula_fill_example.crtc 0
      ∧ nula_fill_example.nula_horizontal_offset * nula_fill_example.crtc_mode = 7
      ∧ nula_fill_example.region 1288 0 = 0 ∧ nula_fill_example.region 1294 0 = 0
      ∧ (video_poll_tick 1 nula_fill_example).nula_left_edge = 1288
      ∧ (video_poll_tick 1 nula_fill_example).scrx = 1287
      ∧ (video_poll_tick 1 nula_fill_example).region 1288 0 = 0xFF000000
      ∧ (video_poll_tick 1 nula_fill_example).region 1294 0 = 0xFF000000 :=
  ⟨steps_video_poll 159 1 (Steps.ula 2 0x27 (Steps.ula 0 0x10 (Steps.crtc 1 159
      (Steps.crtc 0 0 (Steps.crtc 1 255 (Steps.crtc 0 2 Steps.start)))))),
    by decide, by decide, by decide, by decide, by decide, by decide, by decide, by decide,
    by decide⟩
/-! ## NULA disable -/

theorem videoula_write_disabled (addr val : Nat) (s : Video) (hd : s.nula_disable ≠ 0) :
    videoula_write addr val s
      = if addr &&& 1 = 0 then videoula_write_ctrl (val % 256) s
        else videoula_write_pal (val % 256) s := by
  have e : (addr &&& 0xFFFD) &&& 3 = addr &&& 1 := by
    rw [Nat.and_assoc]
    rfl
  have h01 : addr &&& 1 = 0 ∨ addr &&& 1 = 1 := by
    rw [Nat.and_one_is_mod]
    omega
  unfold videoula_write
  simp only [if_pos hd, e]
  rcases h01 with h | h
  · rw [h]
    rfl
  · rw [h]
    rfl

theorem videoula_write_ctrl_nula (val : Nat) (s : Video) :
    (videoula_write_ctrl val s).toNulaState = s.toNulaState := by
  unfold videoula_write_ctrl set_intern_dtype
  simp only [ctrl_flash_on_loop, ctrl_flash_off_loop, ite_Video, ite_CrtcRegs, ite_CrtcCounters,
    ite_FieldState, ite_UlaState, ite_NulaState, ite_Mode7Cells, ite_Mode7Rows, ite_ScanState,
    ite_FetchState, ite_self]

theorem videoula_write_pal_nula (val : Nat) (s : Video) :
    (videoula_write_pal val s).toNulaState = s.toNulaState := by
  unfold videoula_write_pal
  simp only [ite_Video, ite_CrtcRegs, ite_CrtcCounters,
    ite_FieldState, ite_UlaState, ite_NulaState, ite_Mode7Cells, ite_Mode7Rows, ite_ScanState,
    ite_FetchState, ite_self]

theorem videoula_write_disabled_nula (addr val : Nat) (s : Video) (hd : s.nula_disable ≠ 0) :
    (videoula_write addr val s).toNulaState = s.toNulaState := by
  rw [videoula_write_disabled addr val s hd]
  split_ifs
  · exact videoula_write_ctrl_nula _ s
  · exact videoula_write_pal_nula _ s

theorem videoula_writes_disabled_nula (l : List (Nat × Nat)) :
    ∀ s : Video, s.nula_disable ≠ 0 → (videoula_writes l s).toNulaState = s.toNulaState := by
  induction l with
  | nil => intro s _; rfl
  | cons w l ih =>
    intro s hd
    have e := videoula_write_disabled_nula w.1 w.2 s hd
    have hd2 : (videoula_write w.1 w.2 s).nula_disable ≠ 0 := by
      rw [show (videoula_write w.1 w.2 s).nula_disable = s.nula_disable from
        congrArg NulaState.nula_disable e]
      exact hd
    exact (ih _ hd2).trans e

theorem videoula_write_sets_disable (p : Nat) (hp : p < 16) (s : Video) :
    (videoula_write 2 (0x50 + p) s).nula_disable ≠ 0 := by
  by_cases hd : s.nula_disable ≠ 0
  · rw [show (videoula_write 2 (0x50 + p) s).nula_disable = s.nula_disable from
      congrArg NulaState.nula_disable (videoula_write_disabled_nula 2 (0x50 + p) s hd)]
    exact hd
  · have hc : ((0x50 + p) % 256) >>> 4 = 5 := by
      rw [Nat.shiftRight_eq_div_pow]
      omega
    unfold videoula_write
    simp only [if_neg hd]
    show (videoula_write_nula_ctrl ((0x50 + p) % 256) s).nula_disable ≠ 0
    unfold videoula_write_nula_ctrl
    simp only [hc]
    decide

/-- C30: a write of `0x50 + p` to the NULA control register (sub-register 5) leaves
`nula_disable` set; after any sequence `l` of later `videoula_write` calls, with any addresses
and values, the NULA state is what it was right after that write: `nula_disable` (still set),
`nula_collook`, `nula_flash`, `nula_palette_mode`, `nula_horizontal_offset`,
`nula_left_blank`, `nula_attribute_mode`, `nula_attribute_text`, `nula_pal_write_flag` and
`nula_pal_first_byte` are all fields of `toNulaState`; and in the state after those calls a
write to address 2 is the same write to address 0, a write to address 3 the same write to
address 1. -/
theorem nula_disable_is_final (s0 : Video) (p : Nat) (hp : p < 16) (l : List (Nat × Nat)) :
    (videoula_write 2 (0x50 + p) s0).nula_disable ≠ 0
      ∧ (videoula_writes l (videoula_write 2 (0x50 + p) s0)).toNulaState
          = (videoula_write 2 (0x50 + p) s0).toNulaState
      ∧ (videoula_writes l (videoula_write 2 (0x50 + p) s0)).nula_disable ≠ 0
      ∧ (∀ val : Nat,
          videoula_write 2 val (videoula_writes l (videoula_write 2 (0x50 + p) s0))
              = videoula_write 0 val (videoula_writes l (videoula_write 2 (0x50 + p) s0))
            ∧ videoula_write 3 val (videoula_writes l (videoula_write 2 (0x50 + p) s0))
              = videoula_write 1 val (videoula_writes l (videoula_write 2 (0x50 + p) s0))) := by
  have h1 := videoula_write_sets_disable p hp s0
  have h2 := videoula_writes_disabled_nula l _ h1
  have h3 : (videoula_writes l (videoula_write 2 (0x50 + p) s0)).nula_disable ≠ 0 := by
    rw [show (videoula_writes l (videoula_write 2 (0x50 + p) s0)).nula_disable
        = (videoula_write 2 (0x50 + p) s0).nula_disable from congrArg NulaState.nula_disable h2]
    exact h1
  refine ⟨h1, h2, h3, fun val => ⟨?_, ?_⟩⟩
  · rw [videoula_write_disabled 2 val _ h3, videoula_write_disabled 0 val _ h3]
    rfl
  · rw [videoula_write_disabled 3 val _ h3, videoula_write_disabled 1 val _ h3]
    rfl

set_option maxRecDepth 1000000 in
/-- C30, an instance: after start-up and a write of 0x50 to the NULA control register, a
NULA reset request (0x40 to address 2), a horizontal offset request (0x27 to address 2) and
the two bytes of a palette write (0x1F, 0x00 to address 3) change nothing in the NULA state:
colour 1 is still red, the horizontal offset and the protocol flag are still 0. -/
theorem nula_disable_is_final_witness :
    (0 : Nat) < 16
      ∧ (videoula_writes [(2, 0x40), (2, 0x27), (3, 0x1F), (3, 0x00)]
          (videoula_write 2 (0x50 + 0) reset_state)).nula_collook 1 = 0xffff0000
      ∧ (videoula_writes [(2, 0x40), (2, 0x27), (3, 0x1F), (3, 0x00)]
          (videoula_write 2 (0x50 + 0) reset_state)).nula_horizontal_offset = 0
      ∧ (videoula_writes [(2, 0x40), (2, 0x27), (3, 0x1F), (3, 0x00)]
          (videoula_write 2 (0x50 + 0) reset_state)).nula_pal_write_flag = 0
      ∧ (videoula_writes [(2, 0x40), (2, 0x27), (3, 0x1F), (3, 0x00)]
          (videoula_write 2 (0x50 + 0) reset_state)).toNulaState
          = (videoula_write 2 (0x50 + 0) reset_state).toNulaState :=
  ⟨by decide, by decide, by decide, by decide,
    (nula_disable_is_final reset_state 0 (by decide)
      [(2, 0x40), (2, 0x27), (3, 0x1F), (3, 0x00)]).2.1⟩
/-! ## The blend table after a state file is loaded -/

set_option maxRecDepth 1000000 in
/-- C26, the code at the failing input: after start-up `mode7_render` builds the blend table
from the default palette, in which colour 7 is white, and clears `mode7_need_new_lookup`.
`videoula_loadstate` of a state file in which colour 7 is red then changes `nula_collook[7]`
but leaves the flag clear, so the next `mode7_render` does not rebuild the table: when it
draws its cell, and afterwards, `mode7_lookup[7][0][15]` is still white, while the
interpolation table of the current palette has red there. -/
theorem videoula_loadstate_stale_lookup :
    (mode7_render 0x20 reset_state).nula_collook 7 = 0xFFFFFFFF
      ∧ (mode7_render 0x20 reset_state).mode7_need_new_lookup = 0
      ∧ stale_lookup_example.nula_collook 7 = 0xFFFF0000
      ∧ stale_lookup_example.mode7_need_new_lookup = 0
      ∧ stale_lookup_example.scrx < 1280 - 32
      ∧ (mode7_push 0x20 stale_lookup_example).mode7_lookup 7 0 15 = 0xFFFFFFFF
      ∧ mode7_blend (mode7_push 0x20 stale_lookup_example).nula_collook 7 0 15 = 0xFFFF0000
      ∧ (mode7_render 0x20 stale_lookup_example).mode7_lookup 7 0 15 = 0xFFFFFFFF
      ∧ mode7_blend (mode7_render 0x20 stale_lookup_example).nula_collook 7 0 15
          = 0xFFFF0000 := by
  decide
/-! ## The blend table of `mode7_gen_nula_lookup` -/

theorem makecol_value (r g b : Nat) (hr : r < 256) (hg : g < 256) (hb : b < 256) :
    makecol r g b = 0xff000000 + r * 65536 + g * 256 + b := by
  rw [makecol_of_bytes r g b hr hg hb, Nat.shiftLeft_eq, Nat.shiftLeft_eq]
  have e1 : 0xff000000 ||| r * 2 ^ 16 = 2 ^ 24 * 0xff + r * 2 ^ 16 :=
    (Nat.mul_add_lt_is_or (i := 24) (b := r * 2 ^ 16) (by omega) 0xff).symm
  have e2 : (2 ^ 24 * 0xff + r * 2 ^ 16) ||| g * 2 ^ 8
      = 2 ^ 16 * (0xff00 + r) + g * 2 ^ 8 := by
    rw [show 2 ^ 24 * 0xff + r * 2 ^ 16 = 2 ^ 16 * (0xff00 + r) by omega]
    exact (Nat.mul_add_lt_is_or (i := 16) (b := g * 2 ^ 8) (by omega) _).symm
  have e3 : (2 ^ 16 * (0xff00 + r) + g * 2 ^ 8) ||| b
      = 2 ^ 8 * (0xff0000 + r * 256 + g) + b := by
    rw [show 2 ^ 16 * (0xff00 + r) + g * 2 ^ 8 = 2 ^ 8 * (0xff0000 + r * 256 + g) by omega]
    exact (Nat.mul_add_lt_is_or (i := 8) (b := b) (by omega) _).symm
  rw [e1, e2, e3]
  omega

theorem and_ff_mod (x : Nat) : x &&& 0xff = x % 256 :=
  Nat.and_pow_two_sub_one_eq_mod x 8

theorem channel_lt (c : Channel) (pix : Nat) : channel c pix < 256 := by
  cases c <;> (unfold channel; dsimp only; rw [and_ff_mod]; omega)

theorem channel_makecol (r g b : Nat) (hr : r < 256) (hg : g < 256) (hb : b < 256) :
    channel Channel.red (makecol r g b) = r ∧ channel Channel.green (makecol r g b) = g
      ∧ channel Channel.blue (makecol r g b) = b ∧ makecol r g b >>> 24 = 0xFF := by
  rw [makecol_value r g b hr hg hb]
  unfold channel
  dsimp only
  simp only [and_ff_mod, Nat.shiftRight_eq_div_pow]
  omega

theorem mode7_mix_of_le (f b w : Nat) (h : b ≤ f) :
    mode7_mix f b w = ((b + (f - b) * w / 15 : Nat) : Int) := by
  unfold mode7_mix
  have e : ((f : Int) - (b : Int)) * (w : Int) = (((f - b) * w : Nat) : Int) := by
    push_cast [Nat.cast_sub h]
    ring
  rw [e, Int.tdiv_eq_ediv (by positivity) (by norm_num)]
  norm_cast

theorem mode7_mix_of_ge (f b w : Nat) (h : f ≤ b) (hw : w ≤ 15) :
    mode7_mix f b w = ((b - (b - f) * w / 15 : Nat) : Int) := by
  unfold mode7_mix
  have e : ((f : Int) - (b : Int)) * (w : Int) = -(((b - f) * w : Nat) : Int) := by
    push_cast [Nat.cast_sub h]
    ring
  have hle : (b - f) * w / 15 ≤ b := by
    have h1 : (b - f) * w ≤ (b - f) * 15 := Nat.mul_le_mul_left _ hw
    have h2 : (b - f) * w / 15 ≤ (b - f) * 15 / 15 := Nat.div_le_div_right h1
    rw [Nat.mul_div_cancel _ (by norm_num)] at h2
    omega
  rw [e, Int.neg_tdiv, Int.tdiv_eq_ediv (by positivity) (by norm_num)]
  push_cast [Nat.cast_sub hle]
  ring

/-- The interpolated channel value as a natural number, with its bounds. -/
theorem mode7_mix_toNat (f b w : Nat) (hw : w ≤ 15) :
    (mode7_mix f b w).toNat = (if b ≤ f then b + (f - b) * w / 15 else b - (b - f) * w / 15)
      ∧ ((mode7_mix f b w).toNat : Int) = mode7_mix f b w := by
  by_cases h : b ≤ f
  · rw [if_pos h, mode7_mix_of_le f b w h]
    exact ⟨Int.toNat_natCast _, by rw [Int.toNat_natCast]⟩
  · rw [if_neg h, mode7_mix_of_ge f b w (by omega) hw]
    exact ⟨Int.toNat_natCast _, by rw [Int.toNat_natCast]⟩

theorem mix_div_le (d w : Nat) (hw : w ≤ 15) : d * w / 15 ≤ d := by
  have h1 : d * w ≤ d * 15 := Nat.mul_le_mul_left _ hw
  have h2 : d * w / 15 ≤ d * 15 / 15 := Nat.div_le_div_right h1
  rw [Nat.mul_div_cancel _ (by norm_num)] at h2
  exact h2

theorem mix_div_mono (d w v : Nat) (h : w ≤ v) : d * w / 15 ≤ d * v / 15 :=
  Nat.div_le_div_right (Nat.mul_le_mul_left _ h)

theorem mode7_mix_props (f b w : Nat) (hf : f < 256) (hb : b < 256) (hw : w ≤ 15) :
    (mode7_mix f b w).toNat < 256
      ∧ min b f ≤ (mode7_mix f b w).toNat ∧ (mode7_mix f b w).toNat ≤ max b f
      ∧ (mode7_mix f b 0).toNat = b ∧ (mode7_mix f b 15).toNat = f
      ∧ (∀ v : Nat, w ≤ v → v ≤ 15 →
          (b ≤ f → (mode7_mix f b w).toNat ≤ (mode7_mix f b v).toNat)
            ∧ (f ≤ b → (mode7_mix f b v).toNat ≤ (mode7_mix f b w).toNat)) := by
  have e := fun v hv => (mode7_mix_toNat f b v hv).1
  have k1 := mix_div_le (f - b) w hw
  have k2 := mix_div_le (b - f) w hw
  have z1 : (f - b) * 0 / 15 = 0 := by simp
  have z2 : (b - f) * 0 / 15 = 0 := by simp
  have f1 : (f - b) * 15 / 15 = f - b := Nat.mul_div_cancel _ (by norm_num)
  have f2 : (b - f) * 15 / 15 = b - f := Nat.mul_div_cancel _ (by norm_num)
  rw [e w hw, e 0 (by omega), e 15 (by omega), z1, z2, f1, f2]
  refine ⟨?_, ?_, ?_, ?_, ?_, ?_⟩
  · split_ifs <;> omega
  · split_ifs <;> omega
  · split_ifs <;> omega
  · split_ifs <;> omega
  · split_ifs <;> omega
  · intro v hwv hv
    have m1 := mix_div_mono (f - b) w v hwv
    have m2 := mix_div_mono (b - f) w v hwv
    have k3 := mix_div_le (b - f) v hv
    have k4 := mix_div_le (f - b) v hv
    rw [e v hv]
    generalize (f - b) * w / 15 = A at *
    generalize (b - f) * w / 15 = B at *
    generalize (f - b) * v / 15 = C at *
    generalize (b - f) * v / 15 = D at *
    constructor
    · intro hbf
      simp only [if_pos hbf]
      omega
    · intro hfb
      split_ifs <;> omega

theorem mode7_blend_mix (collook : Nat → Nat) (fg bg w : Nat) :
    mode7_blend collook fg bg w
      = makecol (mode7_mix (channel Channel.red (collook fg)) (channel Channel.red (collook bg)) w).toNat
          (mode7_mix (channel Channel.green (collook fg)) (channel Channel.green (collook bg)) w).toNat
          (mode7_mix (channel Channel.blue (collook fg)) (channel Channel.blue (collook bg)) w).toNat :=
  rfl

theorem mode7_blend_channel (collook : Nat → Nat) (fg bg w : Nat) (hw : w ≤ 15) (c : Channel) :
    channel c (mode7_blend collook fg bg w)
        = (mode7_mix (channel c (collook fg)) (channel c (collook bg)) w).toNat
      ∧ mode7_blend collook fg bg w >>> 24 = 0xFF := by
  rw [mode7_blend_mix]
  obtain ⟨a1, a2, a3, a4⟩ := channel_makecol
    (mode7_mix (channel Channel.red (collook fg)) (channel Channel.red (collook bg)) w).toNat
    (mode7_mix (channel Channel.green (collook fg)) (channel Channel.green (collook bg)) w).toNat
    (mode7_mix (channel Channel.blue (collook fg)) (channel Channel.blue (collook bg)) w).toNat
    (mode7_mix_props _ _ w (channel_lt _ _) (channel_lt _ _) hw).1
    (mode7_mix_props _ _ w (channel_lt _ _) (channel_lt _ _) hw).1
    (mode7_mix_props _ _ w (channel_lt _ _) (channel_lt _ _) hw).1
  cases c
  · exact ⟨a1, a4⟩
  · exact ⟨a2, a4⟩
  · exact ⟨a3, a4⟩

/-- C25: after `mode7_gen_nula_lookup`, which leaves the palette as it is, for all `fg`, `bg`
in 0..7, every weight `w` in 0..15 and each of the channels red, green and blue: the channel
of `mode7_lookup[fg][bg][w]` equals `bg + (fg - bg) * w / 15` computed on the channel values
of `nula_collook[bg]` and `nula_collook[fg]` with the division truncating toward zero; at
weight 0 it is the channel of `nula_collook[bg]`, at weight 15 that of `nula_collook[fg]`; it
lies between the two inclusive; it is monotone in the weight (rising when the foreground
channel is the larger one, falling when it is the smaller one); and the alpha byte of the
entry is 0xFF. -/
theorem mode7_lookup_interpolates (s : Video) (fg bg w : Nat) (hfg : fg < 8) (hbg : bg < 8)
    (hw : w < 16) (c : Channel) :
    (mode7_gen_nula_lookup s).nula_collook = s.nula_collook
      ∧ (channel c ((mode7_gen_nula_lookup s).mode7_lookup fg bg w) : Int)
          = mode7_mix (channel c (s.nula_collook fg)) (channel c (s.nula_collook bg)) w
      ∧ channel c ((mode7_gen_nula_lookup s).mode7_lookup fg bg 0) = channel c (s.nula_collook bg)
      ∧ channel c ((mode7_gen_nula_lookup s).mode7_lookup fg bg 15) = channel c (s.nula_collook fg)
      ∧ min (channel c (s.nula_collook bg)) (channel c (s.nula_collook fg))
          ≤ channel c ((mode7_gen_nula_lookup s).mode7_lookup fg bg w)
      ∧ channel c ((mode7_gen_nula_lookup s).mode7_lookup fg bg w)
          ≤ max (channel c (s.nula_collook bg)) (channel c (s.nula_collook fg))
      ∧ (∀ v : Nat, w ≤ v → v < 16 →
          (channel c (s.nula_collook bg) ≤ channel c (s.nula_collook fg) →
              channel c ((mode7_gen_nula_lookup s).mode7_lookup fg bg w)
                ≤ channel c ((mode7_gen_nula_lookup s).mode7_lookup fg bg v))
            ∧ (channel c (s.nula_collook fg) ≤ channel c (s.nula_collook bg) →
              channel c ((mode7_gen_nula_lookup s).mode7_lookup fg bg v)
                ≤ channel c ((mode7_gen_nula_lookup s).mode7_lookup fg bg w)))
      ∧ (mode7_gen_nula_lookup s).mode7_lookup fg bg w >>> 24 = 0xFF := by
  have L : ∀ v : Nat, v < 16 → (mode7_gen_nula_lookup s).mode7_lookup fg bg v
      = mode7_blend s.nula_collook fg bg v := by
    intro v hv
    rw [mode7_gen_nula_lookup_eq]
    exact if_pos ⟨hfg, hbg, hv⟩
  have C : ∀ v : Nat, v < 16 → channel c ((mode7_gen_nula_lookup s).mode7_lookup fg bg v)
      = (mode7_mix (channel c (s.nula_collook fg)) (channel c (s.nula_collook bg)) v).toNat := by
    intro v hv
    rw [L v hv]
    exact (mode7_blend_channel _ fg bg v (by omega) c).1
  obtain ⟨-, p2, p3, p4, p5, p6⟩ := mode7_mix_props (channel c (s.nula_collook fg))
    (channel c (s.nula_collook bg)) w (channel_lt _ _) (channel_lt _ _) (by omega)
  refine ⟨?_, ?_, ?_, ?_, ?_, ?_, ?_, ?_⟩
  · rw [mode7_gen_nula_lookup_eq]
  · rw [C w hw]
    exact (mode7_mix_toNat _ _ w (by omega)).2
  · rw [C 0 (by omega)]
    exact p4
  · rw [C 15 (by omega)]
    exact p5
  · rw [C w hw]
    exact p2
  · rw [C w hw]
    exact p3
  · intro v hwv hv
    rw [C w hw, C v hv]
    exact p6 v hwv (by omega)
  · rw [L w hw]
    exact (mode7_blend_channel _ fg bg w (by omega) c).2

set_option maxRecDepth 1000000 in
/-- C25, an instance with a falling channel: in `dim_red_example` (red 10 in palette entry 0,
red 0 in entry 1) the table entry for foreground 1, background 0 and weight 1 has red
`10 + (0 - 10) * 1 / 15 = 10`, the quotient `-10 / 15` being truncated to 0 (rounding down
would give 9). -/
theorem mode7_lookup_interpolates_witness :
    (1 : Nat) < 8 ∧ (0 : Nat) < 8 ∧ (1 : Nat) < 16
      ∧ mode7_mix (channel Channel.red (dim_red_example.nula_collook 1))
          (channel Channel.red (dim_red_example.nula_collook 0)) 1 = 10
      ∧ (channel Channel.red ((mode7_gen_nula_lookup dim_red_example).mode7_lookup 1 0 1) : Int)
          = mode7_mix (channel Channel.red (dim_red_example.nula_collook 1))
              (channel Channel.red (dim_red_example.nula_collook 0)) 1 :=
  ⟨by decide, by decide, by decide, by decide,
    (mode7_lookup_interpolates dim_red_example 1 0 1 (by decide) (by decide) (by decide)
      Channel.red).2.1⟩
/-! ## The pixel-expansion table of `video_init` -/

theorem expand_step (b n : Nat) :
    (((b <<< n) ||| (2 ^ n - 1)) <<< 1) ||| 1 = (b <<< (n + 1)) ||| (2 ^ (n + 1) - 1) := by
  have p : 0 < 2 ^ n := Nat.two_pow_pos _
  have e1 : (b <<< n) ||| (2 ^ n - 1) = 2 ^ n * b + (2 ^ n - 1) := by
    rw [Nat.shiftLeft_eq, Nat.mul_comm b]
    exact (Nat.mul_add_lt_is_or (i := n) (b := 2 ^ n - 1) (by omega) b).symm
  have e2 : (b <<< (n + 1)) ||| (2 ^ (n + 1) - 1) = 2 ^ (n + 1) * b + (2 ^ (n + 1) - 1) := by
    have p2 : 0 < 2 ^ (n + 1) := Nat.two_pow_pos _
    rw [Nat.shiftLeft_eq, Nat.mul_comm b]
    exact (Nat.mul_add_lt_is_or (i := n + 1) (b := 2 ^ (n + 1) - 1) (by omega) b).symm
  have e3 : ∀ x : Nat, (x <<< 1) ||| 1 = 2 * x + 1 := by
    intro x
    rw [Nat.shiftLeft_eq, Nat.mul_comm x]
    exact (Nat.mul_add_lt_is_or (i := 1) (b := 1) (by norm_num) x).symm
  rw [e1, e2, e3, pow_succ]
  have q : 2 ^ n * 2 * b = 2 * (2 ^ n * b) := by ring
  rw [q]
  omega

theorem video_init_expand_loop (temp : Nat) (table : Nat → Nat → Nat → Nat) (n : Nat) :
    (List.range n).foldl (video_init_expand temp) (table, temp)
      = (fun m b c => if m = 3 ∧ b = temp ∧ c < n then
            video_init_left ((temp <<< c) ||| (2 ^ c - 1))
          else table m b c,
         (temp <<< n) ||| (2 ^ n - 1)) := by
  induction n with
  | zero =>
    simp
  | succ n ih =>
    rw [List.range_succ, List.foldl_append, ih]
    simp only [List.foldl_cons, List.foldl_nil, video_init_expand, expand_step]
    congr 1
    funext m b c
    unfold setAt3
    beta_reduce
    by_cases h1 : m = 3 ∧ b = temp ∧ c = n
    · obtain ⟨hm, hb, hc⟩ := h1
      subst hm hb hc
      simp
    · rw [if_neg h1]
      by_cases h2 : m = 3 ∧ b = temp ∧ c < n
      · rw [if_pos h2, if_pos ⟨h2.1, h2.2.1, by omega⟩]
      · rw [if_neg h2, if_neg]
        rintro ⟨hm, hb, hc⟩
        rcases Nat.lt_succ_iff_lt_or_eq.mp hc with h | h
        · exact h2 ⟨hm, hb, h⟩
        · exact h1 ⟨hm, hb, h⟩

theorem video_init_spread_loop (temp : Nat) (n : Nat) (t : Nat → Nat → Nat → Nat) :
    (List.range n).foldl (video_init_spread temp) t
      = fun m b c => if m < 3 ∧ b = temp ∧ c < n then t 3 temp (c >>> (3 - m)) else t m b c := by
  induction n with
  | zero =>
    simp
  | succ n ih =>
    rw [List.range_succ, List.foldl_append, ih]
    simp only [List.foldl_cons, List.foldl_nil, video_init_spread]
    funext m b c
    unfold setAt3
    have r3 : ∀ k : Nat, (if (3 : Nat) < 3 ∧ temp = temp ∧ k < n then t 3 temp (k >>> (3 - 3))
        else t 3 temp k) = t 3 temp k := by
      intro k
      rw [if_neg]
      intro h
      exact absurd h.1 (by decide)
    simp only [r3]
    by_cases hb : b = temp
    · subst hb
      by_cases hc : c = n
      · subst hc
        by_cases h0 : m = 0
        · subst h0; simp
        · by_cases h1 : m = 1
          · subst h1; simp
          · by_cases h2 : m = 2
            · subst h2; simp
            · have hm : ¬ m < 3 := by omega
              simp [h0, h1, h2, hm]
      · have hcn : c < n + 1 ↔ c < n := by omega
        simp [hc, hcn]
    · simp [hb]

/-- The value that `video_init` leaves in `table4bpp[m][b][c]`. -/
theorem video_init_byte_eq (table : Nat → Nat → Nat → Nat) (temp : Nat) :
    video_init_byte table temp
      = fun m b c =>
          if m ≤ 3 ∧ b = temp ∧ c < 16 then
            video_init_left ((temp <<< (c >>> (3 - m))) ||| (2 ^ (c >>> (3 - m)) - 1))
          else table m b c := by
  unfold video_init_byte
  rw [video_init_expand_loop, video_init_spread_loop]
  funext m b c
  dsimp only
  have hs : ∀ k : Nat, c >>> k ≤ c := fun k => by
    rw [Nat.shiftRight_eq_div_pow]
    exact Nat.div_le_self _ _
  by_cases h : m < 3 ∧ b = temp ∧ c < 16
  · obtain ⟨h1, h2, h3⟩ := h
    have := hs (3 - m)
    rw [if_pos ⟨h1, h2, h3⟩, if_pos ⟨rfl, rfl, by omega⟩, if_pos ⟨by omega, h2, h3⟩]
  · rw [if_neg h]
    by_cases h3 : m = 3 ∧ b = temp ∧ c < 16
    · obtain ⟨hm, hb, hc⟩ := h3
      subst hm
      rw [if_pos ⟨rfl, hb, hc⟩, if_pos ⟨le_refl _, hb, hc⟩]
      rfl
    · rw [if_neg h3, if_neg]
      rintro ⟨hm, hb, hc⟩
      rcases Nat.lt_or_eq_of_le hm with hlt | heq
      · exact h ⟨hlt, hb, hc⟩
      · exact h3 ⟨heq, hb, hc⟩

theorem video_init_table_loop (table : Nat → Nat → Nat → Nat) (n : Nat) :
    (List.range n).foldl video_init_byte table
      = fun m b c =>
          if m ≤ 3 ∧ b < n ∧ c < 16 then
            video_init_left ((b <<< (c >>> (3 - m))) ||| (2 ^ (c >>> (3 - m)) - 1))
          else table m b c := by
  induction n with
  | zero =>
    simp
  | succ n ih =>
    rw [List.range_succ, List.foldl_append, ih]
    simp only [List.foldl_cons, List.foldl_nil]
    rw [video_init_byte_eq]
    funext m b c
    dsimp only
    by_cases h1 : m ≤ 3 ∧ b = n ∧ c < 16
    · obtain ⟨hm, hb, hc⟩ := h1
      subst hb
      rw [if_pos ⟨hm, rfl, hc⟩, if_pos ⟨hm, by omega, hc⟩]
    · rw [if_neg h1]
      by_cases h2 : m ≤ 3 ∧ b < n ∧ c < 16
      · rw [if_pos h2, if_pos ⟨h2.1, by omega, h2.2.2⟩]
      · rw [if_neg h2, if_neg]
        rintro ⟨hm, hb, hc⟩
        rcases Nat.lt_succ_iff_lt_or_eq.mp hb with h | h
        · exact h2 ⟨hm, h, hc⟩
        · exact h1 ⟨hm, h, hc⟩

theorem video_init_table4bpp (s : Video) (m b c : Nat) (hm : m ≤ 3) (hb : b < 256) (hc : c < 16) :
    (video_init s).table4bpp m b c
      = video_init_left ((b <<< (c >>> (3 - m))) ||| (2 ^ (c >>> (3 - m)) - 1)) := by
  have e : (video_init s).table4bpp
      = (List.range 256).foldl video_init_byte s.table4bpp := by
    unfold video_init
    dsimp only
    rfl
  rw [e, video_init_table_loop]
  exact if_pos ⟨hm, hb, hc⟩

theorem and_bit_ne_zero (x i : Nat) : (x &&& 2 ^ i ≠ 0) ↔ x.testBit i = true := by
  rw [Nat.and_two_pow]
  cases h : x.testBit i
  · simp
  · simp [Bool.toNat]

theorem video_init_left_eq (x : Nat) :
    video_init_left x
      = (if x.testBit 1 then 1 else 0) ||| (if x.testBit 3 then 2 else 0)
          ||| (if x.testBit 5 then 4 else 0) ||| (if x.testBit 7 then 8 else 0) := by
  have h1 := and_bit_ne_zero x 1
  have h3 := and_bit_ne_zero x 3
  have h5 := and_bit_ne_zero x 5
  have h7 := and_bit_ne_zero x 7
  unfold video_init_left
  simp only [show (2 : Nat) ^ 1 = 2 from rfl, show (2 : Nat) ^ 3 = 8 from rfl,
    show (2 : Nat) ^ 5 = 32 from rfl, show (2 : Nat) ^ 7 = 128 from rfl] at h1 h3 h5 h7
  simp only [h1, h3, h5, h7]
  cases x.testBit 1 <;> cases x.testBit 3 <;> cases x.testBit 5 <;> cases x.testBit 7 <;> rfl

theorem video_init_left_bits (x k : Nat) (hk : k < 4) :
    (video_init_left x).testBit k = x.testBit (2 * k + 1) ∧ video_init_left x < 16 := by
  rw [video_init_left_eq]
  interval_cases k <;>
    (cases x.testBit 1 <;> cases x.testBit 3 <;> cases x.testBit 5 <;> cases x.testBit 7 <;>
      decide)

theorem expand_low_bits (b c j : Nat) (hj : j < c) :
    ((b <<< c) ||| (2 ^ c - 1)).testBit j = true := by
  rw [Nat.testBit_or, Nat.testBit_two_pow_sub_one]
  simp [hj]

theorem video_init_left_ones (b c : Nat) (hc : 8 ≤ c) :
    video_init_left ((b <<< c) ||| (2 ^ c - 1)) = 15 := by
  rw [video_init_left_eq, expand_low_bits b c 1 (by omega), expand_low_bits b c 3 (by omega),
    expand_low_bits b c 5 (by omega), expand_low_bits b c 7 (by omega)]
  rfl

/-- C27: after `video_init`, for every byte `b` and position `c` in 0..15: bit `k`
(`k` = 0..3) of `table4bpp[3][b][c]` is bit `2k + 1` of `(b << c) | (2^c - 1)` and the entry is
a 4-bit value; it is 15 for every `c >= 8`; `table4bpp[m][b][c] = table4bpp[3][b][c >> (3 - m)]`
for `m` = 0, 1, 2; and every entry `table4bpp[m][b][c]`, `m` = 0..3, is at most 15. -/
theorem table4bpp_expansion (s : Video) (b c : Nat) (hb : b < 256) (hc : c < 16) :
    (∀ k : Nat, k < 4 →
        ((video_init s).table4bpp 3 b c).testBit k
          = ((b <<< c) ||| (2 ^ c - 1)).testBit (2 * k + 1))
      ∧ (video_init s).table4bpp 3 b c < 16
      ∧ (8 ≤ c → (video_init s).table4bpp 3 b c = 15)
      ∧ (∀ m : Nat, m < 3 →
          (video_init s).table4bpp m b c = (video_init s).table4bpp 3 b (c >>> (3 - m)))
      ∧ (∀ m : Nat, m < 4 → (video_init s).table4bpp m b c ≤ 15) := by
  have e3 : (video_init s).table4bpp 3 b c = video_init_left ((b <<< c) ||| (2 ^ c - 1)) :=
    video_init_table4bpp s 3 b c (le_refl _) hb hc
  have hs : ∀ k : Nat, c >>> k < 16 := fun k => by
    rw [Nat.shiftRight_eq_div_pow]
    exact lt_of_le_of_lt (Nat.div_le_self _ _) hc
  refine ⟨?_, ?_, ?_, ?_, ?_⟩
  · intro k hk
    rw [e3]
    exact (video_init_left_bits _ k hk).1
  · rw [e3]
    exact (video_init_left_bits _ 0 (by decide)).2
  · intro h8
    rw [e3]
    exact video_init_left_ones b c h8
  · intro m hm
    rw [video_init_table4bpp s m b c (by omega) hb hc,
      video_init_table4bpp s 3 b (c >>> (3 - m)) (le_refl _) hb (hs _)]
    rfl
  · intro m hm
    rw [video_init_table4bpp s m b c (by omega) hb hc]
    exact Nat.le_of_lt_succ (video_init_left_bits _ 0 (by decide)).2

/-- C27, an instance: for the byte 0xA5 and position 9 the eight low bits of
`(0xA5 << 9) | (2^9 - 1)` are all set, and `table4bpp[3][0xA5][9]` is 15. -/
theorem table4bpp_expansion_witness :
    (0xA5 : Nat) < 256 ∧ (9 : Nat) < 16 ∧ (8 : Nat) ≤ 9
      ∧ (video_init power_on).table4bpp 3 0xA5 9 = 15 :=
  ⟨by decide, by decide, by decide,
    (table4bpp_expansion power_on 0xA5 9 (by decide) (by decide)).2.2.1 (by decide)⟩

/-! ## Derived state after a state file is loaded -/

set_option maxRecDepth 1000000 in
/-- C31, the code at the failing input: `videoula_loadstate` replays the control byte and the
16 backing codes through `videoula_write` before it reads the palette, so every `ula_pal[c]`
is resolved from the palette of the state before the load. Loading the state file in which
colour 7 is red into the start-up state, whose colour 7 is white, leaves backing code 0
(flash bit clear) in entry 0 and `ula_pal[0]` white, while the colour resolved from the
loaded state, `nula_collook[(0 & 15) ^ 7]`, is red; the same holds for entry 15. -/
theorem videoula_loadstate_stale_map :
    reset_state.nula_collook 7 = 0xFFFFFFFF
      ∧ stale_map_example.ula_ctrl = 0
      ∧ stale_map_example.ula_palbak 0 = 0 ∧ stale_map_example.ula_palbak 15 = 0
      ∧ stale_map_example.nula_collook 7 = 0xFFFF0000
      ∧ stale_map_example.ula_pal 0 = 0xFFFFFFFF
      ∧ stale_map_example.ula_pal 15 = 0xFFFFFFFF
      ∧ stale_map_example.nula_collook ((stale_map_example.ula_palbak 0 &&& 15) ^^^ 7)
          = 0xFFFF0000
      ∧ commit_colour stale_map_example 0 = 0xFFFF0000
      ∧ commit_colour stale_map_example 15 = 0xFFFF0000 := by
  decide

set_option maxRecDepth 1000000 in
/-- C32, the code at the failing input: with the index register at 6 and the loaded vertical
counter equal to the loaded (masked) values of registers 8 and 12, `crtc_setreg` takes its
first branch (`crtc_i == 6 && vc == val`) for both registers and skips the derived updates.
After `crtc_loadstate` of `interlace_file` in teletext mode on a model B, register 8 holds 1
but `vid_dtype_intern` is still `VDT_SCALE` where `set_intern_dtype` computes
`VDT_INTERLACE`, and register 12 holds 1 but `ttxbank` is still 0 where the teletext bank is
`0x3C00 | ((1 & 8) << 11) = 0x3C00`. The same file loaded with the index register at 0 gives
both derived values. -/
theorem crtc_loadstate_stale_derived :
    (crtc_write 0 6 reset_state).crtc_i = 6
      ∧ stale_index_example.vc = 1
      ∧ stale_index_example.crtc 8 = 1 ∧ stale_index_example.crtc 12 = 1
      ∧ stale_index_example.crtc_mode = 0 ∧ stale_index_example.master_bplus = false
      ∧ stale_index_example.vid_dtype_user = vid_disptype.VDT_SCALE
      ∧ stale_index_example.vid_dtype_intern = vid_disptype.VDT_SCALE
      ∧ (set_intern_dtype stale_index_example.vid_dtype_user stale_index_example).vid_dtype_intern
          = vid_disptype.VDT_INTERLACE
      ∧ stale_index_example.ttxbank = 0
      ∧ 0x3C00 ||| ((stale_index_example.crtc 12 &&& 0x8) <<< 11) = 0x3C00
      ∧ (crtc_loadstate (file_bytes interlace_file) reset_state).vid_dtype_intern
          = vid_disptype.VDT_INTERLACE
      ∧ (crtc_loadstate (file_bytes interlace_file) reset_state).ttxbank = 0x3C00 := by
  decide
theorem crtc_setreg_other_index (reg val : Nat) (s : Video) (h : s.crtc_i ≠ 6) :
    crtc_setreg reg val s
      = if reg = 8 then
          set_intern_dtype s.vid_dtype_user { s with crtc := setAt s.crtc reg (val &&& crtc_mask reg) }
        else if reg = 12 then
          { s with
            crtc := setAt s.crtc reg (val &&& crtc_mask reg)
            ttxbank := if s.master_bplus then 0x7c00
              else 0x3C00 ||| (((val &&& crtc_mask reg) &&& 0x8) <<< 11) }
        else { s with crtc := setAt s.crtc reg (val &&& crtc_mask reg) } := by
  unfold crtc_setreg
  dsimp only
  rw [if_neg (fun hh => h hh.1)]

/-- The derived state that `crtc_setreg` keeps: the internal display type that
`set_intern_dtype` computes from register 8, and the teletext bank of register 12. -/
theorem crtc_load_loop_derived (byte : Nat → Nat) (s : Video) (h : s.crtc_i ≠ 6) (n : Nat) :
    ((List.range n).foldl (fun s c => crtc_setreg c (byte c) s) s).crtc_i = s.crtc_i
      ∧ ((List.range n).foldl (fun s c => crtc_setreg c (byte c) s) s).crtc_mode = s.crtc_mode
      ∧ ((List.range n).foldl (fun s c => crtc_setreg c (byte c) s) s).vid_dtype_user
          = s.vid_dtype_user
      ∧ ((List.range n).foldl (fun s c => crtc_setreg c (byte c) s) s).master_bplus
          = s.master_bplus
      ∧ (8 < n →
          ((List.range n).foldl (fun s c => crtc_setreg c (byte c) s) s).vid_dtype_intern
            = if s.crtc_mode = 0 ∧ (byte 8 &&& crtc_mask 8) &&& 1 ≠ 0 then
                vid_disptype.VDT_INTERLACE
              else if s.vid_dtype_user = vid_disptype.VDT_INTERLACE
                  ∧ (byte 8 &&& crtc_mask 8) &&& 1 = 0 then vid_disptype.VDT_SCALE
              else s.vid_dtype_user)
      ∧ (12 < n →
          ((List.range n).foldl (fun s c => crtc_setreg c (byte c) s) s).ttxbank
            = if s.master_bplus then 0x7c00
              else 0x3C00 ||| (((byte 12 &&& crtc_mask 12) &&& 0x8) <<< 11)) := by
  induction n with
  | zero => simp
  | succ n ih =>
    rw [List.range_succ, List.foldl_append]
    simp only [List.foldl_cons, List.foldl_nil]
    generalize (List.range n).foldl (fun s c => crtc_setreg c (byte c) s) s = p at ih ⊢
    obtain ⟨i1, i2, i3, i4, i5, i6⟩ := ih
    rw [crtc_setreg_other_index n (byte n) p (by rw [i1]; exact h)]
    by_cases h8 : n = 8
    · subst h8
      rw [if_pos rfl]
      unfold set_intern_dtype
      dsimp only
      refine ⟨i1, i2, i3, i4, fun _ => ?_, fun hh => absurd hh (by decide)⟩
      rw [setAt_same, i2, i3]
    · rw [if_neg h8]
      by_cases h12 : n = 12
      · subst h12
        rw [if_pos rfl]
        dsimp only
        refine ⟨i1, i2, i3, i4, fun _ => i5 (by decide), fun _ => ?_⟩
        rw [i4]
      · rw [if_neg h12]
        exact ⟨i1, i2, i3, i4, fun hh => i5 (by omega), fun hh => i6 (by omega)⟩

/-- When the index register is not 6, `crtc_loadstate` leaves the internal display type that
`set_intern_dtype` computes from the loaded register 8, and the teletext bank of the loaded
register 12. -/
theorem crtc_loadstate_derived (bytes : Nat → Nat) (s : Video) (h : s.crtc_i ≠ 6) :
    (crtc_loadstate bytes s).vid_dtype_intern
        = (set_intern_dtype (crtc_loadstate bytes s).vid_dtype_user
            (crtc_loadstate bytes s)).vid_dtype_intern
      ∧ (crtc_loadstate bytes s).ttxbank
        = if (crtc_loadstate bytes s).master_bplus then 0x7c00
          else 0x3C00 ||| (((crtc_loadstate bytes s).crtc 12 &&& 0x8) <<< 11) := by
  obtain ⟨c, -⟩ := crtc_loadstate_fields bytes s
  have hc8 : (crtc_loadstate bytes s).crtc 8 = (bytes 8 % 256) &&& crtc_mask 8 := by
    rw [c]
    rfl
  have hc12 : (crtc_loadstate bytes s).crtc 12 = (bytes 12 % 256) &&& crtc_mask 12 := by
    rw [c]
    rfl
  have e : crtc_loadstate bytes s
      = (List.range 18).foldl (fun s c => crtc_setreg c (bytes c % 256) s)
          { s with vc := bytes 18 % 256, sc := bytes 19 % 256, hc := bytes 20 % 256,
                   ma := (bytes 21 % 256 ||| ((bytes 22 % 256) <<< 8)) % 65536,
                   maback := (bytes 23 % 256 ||| ((bytes 24 % 256) <<< 8)) % 65536 } := rfl
  obtain ⟨-, i2, i3, i4, i5, i6⟩ := crtc_load_loop_derived (fun c => bytes c % 256)
    { s with vc := bytes 18 % 256, sc := bytes 19 % 256, hc := bytes 20 % 256,
             ma := (bytes 21 % 256 ||| ((bytes 22 % 256) <<< 8)) % 65536,
             maback := (bytes 23 % 256 ||| ((bytes 24 % 256) <<< 8)) % 65536 } h 18
  rw [← e] at i2 i3 i4 i5 i6
  constructor
  · rw [i5 (by decide)]
    unfold set_intern_dtype
    simp only [i2, i3, hc8]
  · rw [i6 (by decide), i4, hc12]
theorem videoula_write_pal_map (val : Nat) (s : Video) :
    (videoula_write_pal val s).ula_pal
        = setAt s.ula_pal (val >>> 4) (palette_write_colour s s.ula_ctrl val)
      ∧ (videoula_write_pal val s).ula_ctrl = s.ula_ctrl
      ∧ (videoula_write_pal val s).nula_collook = s.nula_collook
      ∧ (videoula_write_pal val s).nula_flash = s.nula_flash := by
  unfold videoula_write_pal palette_write_colour
  dsimp only
  split_ifs with h
  · refine ⟨?_, rfl, rfl, rfl⟩
    dsimp only
    rw [setAt_setAt]
  · exact ⟨rfl, rfl, rfl, rfl⟩

theorem palette_write_colour_low (s : Video) (ctrl c b : Nat) (hc : c < 16) (hb : b < 16) :
    palette_write_colour s ctrl ((b ||| (c <<< 4)) % 256) = palette_write_colour s ctrl b := by
  obtain ⟨-, d⟩ := palette_byte_decode c hc b hb
  have e8 : ∀ x : Nat, x &&& 8 = (x &&& 15) &&& 8 := fun x => by
    rw [Nat.and_assoc]
    rfl
  have e7 : ∀ x : Nat, x &&& 7 = (x &&& 15) &&& 7 := fun x => by
    rw [Nat.and_assoc]
    rfl
  unfold palette_write_colour
  have hb15 : b &&& 15 = b := by
    rw [show (15 : Nat) = 2 ^ 4 - 1 from rfl, Nat.and_pow_two_sub_one_eq_mod]
    exact Nat.mod_eq_of_lt hb
  rw [e8 ((b ||| (c <<< 4)) % 256), e7 ((b ||| (c <<< 4)) % 256), d, hb15]

theorem pal_load_loop (b : Nat → Nat) (n : Nat) (hn : n ≤ 16) (hb : ∀ c, c < n → b c < 16)
    (s : Video) :
    ((List.range n).foldl (fun s c => videoula_write 1 (b c ||| (c <<< 4)) s) s).ula_pal
        = (fun k => if k < n then palette_write_colour s s.ula_ctrl (b k) else s.ula_pal k)
      ∧ ((List.range n).foldl (fun s c => videoula_write 1 (b c ||| (c <<< 4)) s) s).ula_ctrl
        = s.ula_ctrl
      ∧ ((List.range n).foldl (fun s c => videoula_write 1 (b c ||| (c <<< 4)) s) s).nula_collook
        = s.nula_collook
      ∧ ((List.range n).foldl (fun s c => videoula_write 1 (b c ||| (c <<< 4)) s) s).nula_flash
        = s.nula_flash := by
  induction n with
  | zero => simp
  | succ n ih =>
    rw [List.range_succ, List.foldl_append]
    simp only [List.foldl_cons, List.foldl_nil]
    obtain ⟨h1, h2, h3, h4⟩ := ih (by omega) (fun c hc => hb c (by omega))
    generalize (List.range n).foldl (fun s c => videoula_write 1 (b c ||| (c <<< 4)) s) s = p
      at h1 h2 h3 h4 ⊢
    rw [videoula_write_pal_port 1 _ _ (by decide)]
    obtain ⟨f1, f2, f3, f4⟩ := videoula_write_pal_map ((b n ||| (n <<< 4)) % 256) p
    obtain ⟨d1, -⟩ := palette_byte_decode n (by omega) (b n) (hb n (by omega))
    refine ⟨?_, f2.trans h2, f3.trans h3, f4.trans h4⟩
    rw [f1, d1, palette_write_colour_low p _ n (b n) (by omega) (hb n (by omega)), h1, h2]
    have ep : palette_write_colour p s.ula_ctrl (b n) = palette_write_colour s s.ula_ctrl (b n) := by
      unfold palette_write_colour
      rw [h3, h4]
    rw [ep]
    funext k
    by_cases hk : k = n
    · subst hk; simp [setAt]
    · simp only [setAt, if_neg hk]
      split_ifs <;> first | rfl | omega

/-- After `videoula_loadstate` of a file whose 16 backing codes are 4-bit values, every
`ula_pal[c]` is the colour that the palette write resolves for the loaded backing code under
the loaded control byte, from the palette and the flash flags of the state `t` before the
load. -/
theorem videoula_loadstate_map (bytes : Nat → Nat) (hb : ∀ c, c < 16 → bytes (1 + c) % 256 < 16)
    (t : Video) (c : Nat) (hc : c < 16) :
    (videoula_loadstate bytes t).ula_pal c
      = palette_write_colour t (bytes 0 % 256) (bytes (1 + c) % 256) := by
  obtain ⟨p1, p2, p3, p4⟩ := pal_load_loop (fun c => bytes (1 + c) % 256) 16 (le_refl _) hb
    (videoula_write 0 (bytes 0 % 256) t)
  have w : videoula_write 0 (bytes 0 % 256) t = videoula_write_ctrl (bytes 0 % 256) t := by
    rw [videoula_write_ctrl_port 0 _ _ (by decide), Nat.mod_mod]
  obtain ⟨-, c2, c3, c4, -⟩ := videoula_write_ctrl_fields (bytes 0 % 256) t
  have e : (videoula_loadstate bytes t).ula_pal
      = ((List.range 16).foldl (fun s c => videoula_write 1 (bytes (1 + c) % 256 ||| (c <<< 4)) s)
          (videoula_write 0 (bytes 0 % 256) t)).ula_pal := by
    unfold videoula_loadstate
    simp only [collook_load_loop, flash_load_loop]
  rw [e, p1]
  dsimp only
  rw [if_pos hc]
  unfold palette_write_colour
  rw [w, c2, c3, c4]

/-! ## Pixels beyond the raster width -/

theorem put_pixel_other (a b colour : Nat) (r : Region) (x y : Nat) (h : x ≠ a) :
    put_pixel a b colour r x y = r x y := by
  unfold put_pixel
  rw [if_neg (fun hh => h hh.1)]

theorem foldl_region_keep {α : Type} (l : List α) (step : Region → α → Region) (x y : Nat)
    (h : ∀ (r : Region) (c : α), c ∈ l → step r c x y = r x y) :
    ∀ r : Region, l.foldl step r x y = r x y := by
  induction l with
  | nil => intro r; rfl
  | cons c l ih =>
    intro r
    rw [List.foldl_cons, ih (fun r d hd => h r d (List.mem_cons_of_mem _ hd)),
      h r c (List.mem_cons_self _ _)]

theorem put_pixels_other (a b n colour : Nat) (r : Region) (x y : Nat) (h : a + n ≤ x) :
    put_pixels a b n colour r x y = r x y := by
  unfold put_pixels
  apply foldl_region_keep
  intro r c hc
  have := List.mem_range.mp hc
  exact put_pixel_other _ _ _ _ _ _ (by omega)

theorem nula_putpixel_other (s : Video) (a b colour : Nat) (r : Region) (x y : Nat) (h : x ≠ a) :
    nula_putpixel s a b colour r x y = r x y := by
  unfold nula_putpixel
  split_ifs
  · exact put_pixel_other _ _ _ _ _ _ h
  · exact put_pixel_other _ _ _ _ _ _ h
  · rfl

theorem cursor_invert_other (s : Video) (n mask : Nat) (r : Region) (x y : Nat)
    (h : s.scrx + n < x) : cursor_invert s n mask r x y = r x y := by
  unfold cursor_invert
  apply foldl_region_keep
  intro r c hc
  have := List.mem_range.mp (List.mem_reverse.mp hc)
  exact nula_putpixel_other _ _ _ _ _ _ _ (by omega)

theorem draw_high_freq_other (s : Video) (dat : Nat) (r : Region) (x y : Nat)
    (h : s.scrx + 8 ≤ x) : draw_high_freq s dat r x y = r x y := by
  have k : ∀ (n : Nat) (f : Region → Nat → Nat) (r : Region), n ≤ 8 →
      (List.range n).foldl (fun r c => nula_putpixel s (s.scrx + c) s.scry (f r c) r) r x y
        = r x y := by
    intro n f r hn
    apply foldl_region_keep
    intro r c hc
    have := List.mem_range.mp hc
    exact nula_putpixel_other _ _ _ _ _ _ _ (by omega)
  unfold draw_high_freq
  split_ifs
  · dsimp only
    rw [nula_putpixel_other _ _ _ _ _ _ _ (by omega)]
    exact k 7 (fun _ c => s.ula_pal (((dat &&& 7) <<< 1) ||| ((dat >>> (7 - 3 * c / 4)) &&& 1))) r
      (by decide)
  · exact k 8 (fun _ c => s.ula_pal (((dat &&& 3) <<< 2) ||| ((dat >>> (7 - 3 * c / 4)) &&& 1))) r
      (by decide)
  · exact k 8 (fun _ c => s.ula_pal ((((dat &&& 16) >>> 1) ||| ((dat &&& 1) <<< 2))
      ||| ((dat >>> ((3 - (3 * c / 4) / 2) + 3)) &&& 2) ||| ((dat >>> (3 - (3 * c / 4) / 2)) &&& 1)))
      r (by decide)
  · exact k 8 (fun _ c => bitmap_colour s dat c) r (by decide)

theorem draw_low_freq_other (s : Video) (dat : Nat) (r : Region) (x y : Nat)
    (h : s.scrx + 16 ≤ x) : draw_low_freq s dat r x y = r x y := by
  have k : ∀ (n : Nat) (f : Region → Nat → Nat) (r : Region), n ≤ 16 →
      (List.range n).foldl (fun r c => nula_putpixel s (s.scrx + c) s.scry (f r c) r) r x y
        = r x y := by
    intro n f r hn
    apply foldl_region_keep
    intro r c hc
    have := List.mem_range.mp hc
    exact nula_putpixel_other _ _ _ _ _ _ _ (by omega)
  unfold draw_low_freq
  split_ifs
  · dsimp only
    rw [nula_putpixel_other _ _ _ _ _ _ _ (by omega), nula_putpixel_other _ _ _ _ _ _ _ (by omega)]
    exact k 14 (fun _ c => s.ula_pal (((dat &&& 7) <<< 1) ||| ((dat >>> (7 - 3 * c / 8)) &&& 1))) r
      (by decide)
  · exact k 16 (fun _ c => s.ula_pal (((dat &&& 3) <<< 2) ||| ((dat >>> (7 - 3 * c / 8)) &&& 1))) r
      (by decide)
  · exact k 16 (fun _ c => bitmap_colour s dat c) r (by decide)
theorem mode7_control_region (s : Video) (l : Mode7Cell) :
    (mode7_control s l).1.region = s.region ∧ (mode7_control s l).1.scrx = s.scrx
      ∧ (mode7_control s l).1.scry = s.scry ∧ (mode7_control s l).1.colblack = s.colblack := by
  unfold mode7_control
  split <;> dsimp only <;> (try split_ifs) <;> exact ⟨rfl, rfl, rfl, rfl⟩

theorem mode7_decode_region (dblx : Nat) (s : Video) (l : Mode7Cell) :
    (mode7_decode dblx s l).1.region = s.region ∧ (mode7_decode dblx s l).1.scrx = s.scrx
      ∧ (mode7_decode dblx s l).1.scry = s.scry
      ∧ (mode7_decode dblx s l).1.colblack = s.colblack := by
  unfold mode7_decode
  split_ifs
  · exact mode7_control_region s l
  · exact ⟨rfl, rfl, rfl, rfl⟩
  · exact ⟨rfl, rfl, rfl, rfl⟩

theorem mode7_cell_other (dat mcolx flashx dblx : Nat) (s : Video) (x y : Nat)
    (h : s.scrx + 32 ≤ x) :
    (mode7_cell dat mcolx flashx dblx s).region x y = s.region x y := by
  by_cases h255 : dat = 255
  · unfold mode7_cell
    rw [if_pos h255]
    dsimp only
    apply foldl_region_keep
    intro r c hc
    have := List.mem_range.mp hc
    exact put_pixel_other _ _ _ _ _ _ (by omega)
  · rw [mode7_cell_eq _ _ _ _ _ h255]
    dsimp only
    obtain ⟨d1, d2, -, -⟩ := mode7_decode_region dblx s (mode7_cell_init dat mcolx s)
    rw [foldl_region_keep, d1]
    intro r c hc
    have := List.mem_range.mp hc
    exact put_pixel_other _ _ _ _ _ _ (by rw [d2]; omega)

theorem mode7_render_region_other (d : Nat) (s : Video) (x y : Nat) (h : 1280 ≤ x) :
    mode7_render_region d s x y = s.region x y := by
  unfold mode7_render_region
  by_cases hs : s.scrx < 1280 - 32
  · obtain ⟨p1, p2, -, -⟩ := mode7_push_region d s
    have hx : (mode7_push d s).scrx + 32 ≤ x := by rw [p2]; omega
    rw [mode7_render_eq d s hs,
      mode7_cell_other (s.mode7_buf 0) s.mode7_col s.mode7_flash s.mode7_dbl (mode7_push d s) x y hx,
      p1]
  · unfold mode7_render
    dsimp only
    rw [if_neg hs]

set_option maxHeartbeats 2000000 in
theorem video_poll_display_region (s : Video) (x y : Nat) (h : 1280 ≤ x) :
    (video_poll_display s).region x y = s.region x y := by
  unfold video_poll_display video_poll_cursor
  simp only [mode7_render_split, ite_Video, ite_CrtcRegs, ite_CrtcCounters, ite_FieldState,
    ite_UlaState, ite_NulaState, ite_Mode7Cells, ite_Mode7Rows, ite_ScanState, ite_FetchState,
    ite_self]
  split_ifs <;>
    simp (disch := first | omega | (dsimp only; omega)) only [cursor_invert_other,
      put_pixels_other, draw_high_freq_other, draw_low_freq_other, mode7_render_region_other]

theorem video_poll_blank_region (s : Video) (x y : Nat) (h : 1280 ≤ x) :
    (video_poll_blank s).region x y = s.region x y := by
  unfold video_poll_blank video_poll_cursor
  simp only [mode7_render_split, ite_Video, ite_CrtcRegs, ite_CrtcCounters, ite_FieldState,
    ite_UlaState, ite_NulaState, ite_Mode7Cells, ite_Mode7Rows, ite_ScanState, ite_FetchState,
    ite_self]
  split_ifs <;>
    simp (disch := first | omega | (dsimp only; omega)) only [cursor_invert_other,
      put_pixels_other, draw_high_freq_other, draw_low_freq_other, mode7_render_region_other]

theorem video_poll_draw_region (te : Nat) (s : Video) (x y : Nat) (h : 1280 ≤ x) :
    (video_poll_draw te s).region x y = s.region x y := by
  have hd : video_poll_hdisp s = { s with toFetchState := (video_poll_hdisp s).toFetchState } :=
    video_poll_hdisp_frame s
  have e0 : (video_poll_hdisp s).region = s.region := by
    rw [hd]
  have e : (video_poll_scry_in (video_poll_hsync (video_poll_hdisp s))).region = s.region := by
    rw [video_poll_scry_in_eq, video_poll_hsync_eq]
    exact e0
  have o : ∀ p : Video, (video_poll_hvbl te (video_poll_scry_out p)).region = p.region := by
    intro p
    rw [video_poll_hvbl_eq, video_poll_scry_out_eq]
  unfold video_poll_draw
  simp only []
  by_cases hdis : (video_poll_scry_in (video_poll_hsync (video_poll_hdisp s))).dispen ≠ 0
  · rw [if_pos hdis, o, video_poll_display_region _ x y h, e]
  · rw [if_neg hdis, o, video_poll_blank_region _ x y h, e]

end BEm
